import Mathlib

/-!
# Render lists, frame renderer and effect render states of the eae6320 graphics layer

A shallow embedding of

* `Code/Engine/Graphics/Graphics.h` (data model, `RenderStates`),
* `Code/Engine/Graphics/Graphics.cpp` (`Render`, `LoadMesh`, `LoadMaterial`, the two lists),
* `Code/Engine/Graphics/OpenGL/Graphics.gl.cpp` and
  `Code/Engine/Graphics/Direct3D/Graphics.d3d.cpp`
  (`AddRenderable`, `RemoveRenderable`, `BindEffect`, `SetTexture`, `DrawMesh`,
  `SetMaterialUniform`, `LoadEffect`, `LoadTexture`, `LoadSamplerID`, `GetUniform`,
  `ShutDown`, the vertex layout and the buffer sizes of `CreateBuffers`),
* `Code/Tools/EffectBuilder/cEffectBuilder.cpp` (the render-state byte, the effect file),
* `Code/Tools/MeshBuilder/cMeshBuilder.cpp` (`LoadVertices`, `LoadIndices`, the mesh file,
  the Lua stack of `Build`),
* `Code/Tools/MaterialBuilder/cMaterialBuilder.cpp` (the uniform loop, the material file).

Conventions of the embedding.

* A `Renderable*` is an address (`RenderablePtr`); the objects live in a heap
  `RenderablePtr → Renderable` that is part of the state, because `RemoveRenderable`
  reads the mask through the pointer at the time of the call.
* `uint8_t`, `uint32_t`, `size_t`, `GLuint`, `DWORD` values are natural numbers; handles that
  may be `-1` are integers.  The loop counters of `Render` are `unsigned int` compared with a
  `size_t`, and the index handed to `SetTexture` is an `int`; the two lists together are
  taken to hold fewer than `2^31` pointers, so neither wraps.
* A `float` that is only stored or copied is carried as its bit pattern; the one
  computation on `float` values, the quotient by `3.0f` in `DrawMesh` and `CreateBuffers`, is
  done on rationals with explicit rounding (`FloatingPoint`).
* A file is the list of its bytes; a read past its end gives 0.  The builders take the value
  the asset file returned (`Lua.Value`) and follow the table accesses of the code; an access
  that raises a Lua error and a step that is undefined behaviour in C++ are outcomes of their
  own (`Outcome`).
* What the file system, the allocator and the GPU driver answer during a call is an explicit
  argument of the call (the `...World` records).
* Messages sent to `UserOutput::Print` are collected in the `output` field of the state.
-/

namespace eae6320
namespace Graphics

/-! ## Data model (`Graphics.h`, `Renderable.h`) -/

/-- Bit pattern of a C `float`. -/
abbrev F32 := Nat

/-- Address of a `Renderable` object (`Renderable*`). -/
abbrev RenderablePtr := Nat

/-- Enumerator `RenderStates::alpha` (`Graphics.h:57`). -/
def alpha : Nat := 1

/-- Enumerator `RenderStates::depthtest` (`Graphics.h:58`). -/
def depthtest : Nat := 1 <<< 1

/-- Enumerator `RenderStates::depthwrite` (`Graphics.h:59`). -/
def depthwrite : Nat := 1 <<< 2

/-- Enumerator `RenderStates::faceculling` (`Graphics.h:60`). -/
def faceculling : Nat := 1 <<< 3

/-- Enumeration `eShaderType` (`Graphics.h:132-136`). -/
inductive eShaderType where
  | fragment
  | vertex
  deriving DecidableEq, Repr, Inhabited

/-- Struct `Mesh` (`Graphics.h:32-52`); `m_vertexArrayID` stands for the backend's buffer
handles (the vertex array id in OpenGL, the buffer pointers in Direct3D). -/
structure Mesh where
  m_noOfIndices : Nat
  m_noOfVertices : Nat
  m_vertexArrayID : Nat
  deriving DecidableEq, Repr, Inhabited

/-- Struct `Effect` (`Graphics.h:63-90`), the fields of both backends side by side:
`m_programID` is used by OpenGL, `m_vertexShader` and `m_pixelShader` by Direct3D. -/
structure Effect where
  m_renderStates : Nat
  m_programID : Nat
  m_vertexShader : Nat
  m_pixelShader : Nat
  localToWorld : Int
  worldToView : Int
  viewToScreen : Int
  deriving DecidableEq, Repr, Inhabited

/-- Struct `sUniformHelper` (`Graphics.h:138-143`). -/
structure sUniformHelper where
  uniformHandle : Int
  values : List F32
  valueCountToSet : Nat
  shaderType : eShaderType
  deriving DecidableEq, Repr, Inhabited

/-- Struct `Material` (`Graphics.h:146-158`); `m_uniforms` is the heap array the pointer
refers to. -/
structure Material where
  m_effect : Effect
  m_uniforms : List sUniformHelper
  m_noOfUniforms : Nat
  m_3dTexture : Nat
  m_texHandle : Int
  deriving DecidableEq, Repr, Inhabited

/-- Class `Renderable` (`Renderable.h:18-31`); offset and orientation are kept as the raw
floats of the vector and the quaternion. -/
structure Renderable where
  m_mesh : Mesh
  m_material : Material
  m_offset : List F32
  m_orientation : List F32
  deriving DecidableEq, Repr, Inhabited

/-- Outcome of a call that receives an object by reference and returns `bool`: the returned
value, the object as the call leaves it, and the messages it sent to `UserOutput::Print`. -/
structure Loaded (α : Type) where
  ok : Bool
  value : α
  printed : List String

/-! ## Loaders (`Graphics.cpp`, prologue of `LoadEffect` in both backends) -/

/-- Answers of the outside world during one call of `LoadMesh`. -/
structure MeshWorld where
  /-- Whether `fopen_s` returned 0. -/
  fopenOk : Bool
  /-- Whether `malloc` returned a non-null buffer. -/
  mallocOk : Bool
  /-- The `uint32_t` at offset 0 of the file. -/
  o_noOfVertices : Nat
  /-- The `uint32_t` at offset 4 of the file. -/
  o_noOfIndices : Nat
  /-- The backend's `CreateBuffers` on these counts and data. -/
  CreateBuffers : Mesh → Loaded Mesh

/-- Function `LoadMesh` (`Graphics.cpp:119-202`).  `o_vertexData` and `o_indexData` are
offsets into the non-null buffer, so the `NULL` test of line 176 never fires; the value
returned by `CreateBuffers` is discarded (line 187). -/
def LoadMesh (w : MeshWorld) (i_mesh : Mesh) : Loaded Mesh :=
  if w.fopenOk = false then
    ⟨false, i_mesh, ["Failed to load/open one or more mesh File\n"]⟩
  else if w.mallocOk = false then
    ⟨false, i_mesh, ["Failed to allocate memory for buffer.\n"]⟩
  else
    let mesh1 : Mesh :=
      { i_mesh with m_noOfVertices := w.o_noOfVertices, m_noOfIndices := w.o_noOfIndices }
    let built := w.CreateBuffers mesh1
    ⟨true, built.value, built.printed⟩

/-- Answers of the outside world during one call of `LoadEffect` made by `LoadMaterial`,
summarised for the calls after which `LoadMaterial` goes on and returns.  In such a call the
effect file opens and its buffer is allocated, and a failure (`programOk = false`) is one of
those that return and leave in place what `LoadSamplerID` and `GetUniform` use: in OpenGL the
`return false` after `glCreateProgram`, a failing check of the vertex shader from
`LoadAndAllocateShaderProgram` on, a failing link and a transform uniform that is not found;
in Direct3D a failing `CreatePixelShader`, a `NULL` transform handle, a failing
`CreateVertexShader`, and a vertex shader file that cannot be read when the material has no
vertex uniform.  The other calls do not return to the caller of `LoadMaterial` (the OpenGL
`OnExit` reads locals whose initialisation the `goto` jumped over, the Direct3D
`LoadSamplerID` and `GetUniform` call through a constant table that was never set); they are
modelled by `OpenGL.LoadMaterial` and `Direct3D.LoadMaterial` below, where they end in
`Ending.undefinedBehaviour`, and `OpenGL.MaterialWorld.summary` and
`Direct3D.MaterialWorld.summary` give the record of a call that returns. -/
structure EffectWorld where
  /-- Byte 0 of the effect file. -/
  renderStatesByte : Nat
  /-- Whether every later step (shader load, compile, link, uniform lookup) succeeded. -/
  programOk : Bool
  /-- Handles as the later steps leave them. -/
  programID : Nat
  vertexShader : Nat
  pixelShader : Nat
  localToWorld : Int
  worldToView : Int
  viewToScreen : Int
  /-- Messages printed by the later steps. -/
  programPrinted : List String

/-- Function `LoadEffect` as `LoadMaterial` sees it when the call returns, common shape of
`Graphics.gl.cpp:522-1071` and `Graphics.d3d.cpp:343-518`: the file is read, byte 0 is stored
in `m_renderStates` (gl:567, d3d:389), then the GPU program is built.  The program-building
steps are summarised by their outcome; none of them writes `m_renderStates`. -/
def LoadEffect (w : EffectWorld) (i_effect : Effect) : Loaded Effect :=
  ⟨w.programOk,
   { i_effect with
     m_renderStates := w.renderStatesByte % 256
     m_programID := w.programID
     m_vertexShader := w.vertexShader
     m_pixelShader := w.pixelShader
     localToWorld := w.localToWorld
     worldToView := w.worldToView
     viewToScreen := w.viewToScreen },
   w.programPrinted⟩

/-- Answers of the outside world during one call of `LoadMaterial`. -/
structure MaterialWorld where
  /-- Whether `fopen_s` on the material file returned 0. -/
  fopenOk : Bool
  /-- Whether `malloc` returned a non-null buffer. -/
  mallocOk : Bool
  /-- World of the nested `LoadEffect (i_effectPath, i_material.m_effect)`. -/
  effect : EffectWorld
  /-- Value `LoadTexture` leaves in `m_3dTexture`, and what it printed. -/
  texture : Nat
  texturePrinted : List String
  /-- Value `LoadTexture` returns: `!wereThereErrors` in OpenGL (`Graphics.gl.cpp:1073`),
  always `true` in Direct3D (`Graphics.d3d.cpp:535`). -/
  textureOk : Bool
  /-- Value `LoadSamplerID` stores in `m_texHandle`. -/
  texHandle : Int
  /-- The count byte of the file. -/
  noOfUniforms : Nat
  /-- The uniform records copied from the file. -/
  uniforms : List sUniformHelper
  /-- Call `GetUniform (effect, uniformNamesArray[i], shaderType)` for the i-th name. -/
  GetUniform : Effect → Nat → eShaderType → Int

/-- Function `LoadMaterial` (`Graphics.cpp:204-314`), for the calls that return (see
`EffectWorld`).  The values returned by `LoadEffect`, `LoadTexture` and `LoadSamplerID` are
discarded (lines 251, 269, 272); after the two early exits `wereThereErrors` is never set,
so the function returns `true`.  A record the file is too short to hold is read as zeroes. -/
def LoadMaterial (w : MaterialWorld) (i_material : Material) : Loaded Material :=
  if w.fopenOk = false then
    ⟨false, i_material, ["Failed to load/open one or more mesh File\n"]⟩
  else if w.mallocOk = false then
    ⟨false, i_material, ["Failed to allocate memory for buffer.\n"]⟩
  else
    let eff := LoadEffect w.effect i_material.m_effect
    let n := w.noOfUniforms % 256
    let copied := w.uniforms.take n
    let resolved := (List.range n).map fun i =>
      let u := copied.getD i default
      { u with uniformHandle := w.GetUniform eff.value i u.shaderType }
    ⟨true,
     { m_effect := eff.value
       m_uniforms := resolved
       m_noOfUniforms := n
       m_3dTexture := w.texture
       m_texHandle := w.texHandle },
     eff.printed ++ w.texturePrinted⟩

/-! ## The renderable registry (`Graphics.cpp:19-23`, `AddRenderable`, `RemoveRenderable`) -/

/-- The two module-level lists of `Graphics.cpp:21-22`, with the heap of `Renderable`
objects they point into and the messages printed so far. -/
structure Registry where
  heap : RenderablePtr → Renderable
  s_opaqueRenderableList : List RenderablePtr
  s_transparentRenderableList : List RenderablePtr
  output : List String

/-- Both lists empty: the state right after static initialisation. -/
def Registry.empty (heap : RenderablePtr → Renderable) : Registry :=
  ⟨heap, [], [], []⟩

/-- The mask `i_renderable->m_material.m_effect.m_renderStates` read through the pointer. -/
def Registry.renderStates (s : Registry) (r : RenderablePtr) : Nat :=
  (s.heap r).m_material.m_effect.m_renderStates

/-- The test `m_renderStates & alpha` of `AddRenderable` and `RemoveRenderable`
(C++ converts the nonzero result to `true`). -/
def hasAlpha (m_renderStates : Nat) : Bool :=
  decide (m_renderStates &&& alpha ≠ 0)

/-- Function `AddRenderable` (`Graphics.gl.cpp:135-147`, `Graphics.d3d.cpp:106-118`, same
text).  The two worlds say what is behind `i_pathMesh` and `i_pathMaterial`; the `bool`s
returned by `LoadMesh` and `LoadMaterial` are discarded. -/
def AddRenderable (i_pathMesh : MeshWorld) (i_pathMaterial : MaterialWorld)
    (i_renderable : RenderablePtr) (s : Registry) : Registry :=
  let obj := s.heap i_renderable
  let mesh := LoadMesh i_pathMesh obj.m_mesh
  let material := LoadMaterial i_pathMaterial obj.m_material
  let obj1 : Renderable := { obj with m_mesh := mesh.value, m_material := material.value }
  let heap1 : RenderablePtr → Renderable := fun p => if p = i_renderable then obj1 else s.heap p
  let output1 := s.output ++ mesh.printed ++ material.printed
  if hasAlpha obj1.m_material.m_effect.m_renderStates then
    { heap := heap1
      s_opaqueRenderableList := s.s_opaqueRenderableList
      s_transparentRenderableList := s.s_transparentRenderableList ++ [i_renderable]
      output := output1 }
  else
    { heap := heap1
      s_opaqueRenderableList := s.s_opaqueRenderableList ++ [i_renderable]
      s_transparentRenderableList := s.s_transparentRenderableList
      output := output1 }

/-- The loop of `RemoveRenderable` (`Graphics.gl.cpp:156-163`): walk from `begin()`, erase the
first element equal to the pointer and stop. -/
def eraseFirstMatch (i_renderable : RenderablePtr) : List RenderablePtr → List RenderablePtr
  | [] => []
  | x :: rest => if x = i_renderable then rest else x :: eraseFirstMatch i_renderable rest

/-- Function `RemoveRenderable` (`Graphics.gl.cpp:149-164`, `Graphics.d3d.cpp:120-135`, same
text). -/
def RemoveRenderable (i_renderable : RenderablePtr) (s : Registry) : Registry :=
  if hasAlpha (s.renderStates i_renderable) then
    { s with s_transparentRenderableList :=
        eraseFirstMatch i_renderable s.s_transparentRenderableList }
  else
    { s with s_opaqueRenderableList :=
        eraseFirstMatch i_renderable s.s_opaqueRenderableList }

/-- One call made by the scene layer. -/
inductive RegistryCall where
  | add (i_pathMesh : MeshWorld) (i_pathMaterial : MaterialWorld)
      (i_renderable : RenderablePtr)
  | remove (i_renderable : RenderablePtr)

/-- Effect of one call on the registry. -/
def RegistryCall.apply : RegistryCall → Registry → Registry
  | .add mw w r, s => AddRenderable mw w r s
  | .remove r, s => RemoveRenderable r s

/-- Effect of a sequence of calls, first call first. -/
def runCalls : List RegistryCall → Registry → Registry
  | [], s => s
  | c :: rest, s => runCalls rest (c.apply s)

/-- Whether the pointer is in one of the two lists. -/
def Registry.registered (s : Registry) (r : RenderablePtr) : Bool :=
  decide (r ∈ s.s_opaqueRenderableList) || decide (r ∈ s.s_transparentRenderableList)

/-- The partition property for one renderable: opaque list iff alpha bit clear, transparent
list iff alpha bit set, never both. -/
def PartitionAt (s : Registry) (r : RenderablePtr) : Prop :=
  (r ∈ s.s_opaqueRenderableList ↔ (s.renderStates r).testBit 0 = false) ∧
  (r ∈ s.s_transparentRenderableList ↔ (s.renderStates r).testBit 0 = true) ∧
  ¬ (r ∈ s.s_opaqueRenderableList ∧ r ∈ s.s_transparentRenderableList)

/-- The partition invariant: `PartitionAt` holds for every registered renderable. -/
def PartitionInvariant (s : Registry) : Prop :=
  ∀ r, s.registered r = true → PartitionAt s r

/-- Members of the opaque list have the alpha bit clear and members of the transparent list
have it set: an equivalent form of the partition invariant. -/
def Sorted (s : Registry) : Prop :=
  (∀ x ∈ s.s_opaqueRenderableList, (s.renderStates x).testBit 0 = false) ∧
  (∀ x ∈ s.s_transparentRenderableList, (s.renderStates x).testBit 0 = true)

/-- An `AddRenderable` call keeps to the registration discipline when its renderable is
in neither list, or the material it loads has the alpha bit the renderable already has. -/
def addAllowed (i_pathMaterial : MaterialWorld) (r : RenderablePtr)
    (s : Registry) : Bool :=
  !s.registered r ||
    (hasAlpha (LoadMaterial i_pathMaterial (s.heap r).m_material).value.m_effect.m_renderStates
      == hasAlpha (s.renderStates r))

/-- Every `AddRenderable` call of the sequence is allowed in the state it is made in. -/
def callsAllowed : List RegistryCall → Registry → Bool
  | [], _ => true
  | .add mw w r :: rest, s =>
      addAllowed w r s && callsAllowed rest (AddRenderable mw w r s)
  | .remove r :: rest, s => callsAllowed rest (RemoveRenderable r s)

/-- The list `AddRenderable` and `RemoveRenderable` pick for a renderable whose alpha test
gives `b`: `GetTransparentRenderableList ()` when set, `GetOpaqueRenderableList ()` otherwise
(`Graphics.cpp:316-324`). -/
def Registry.listFor (s : Registry) (b : Bool) : List RenderablePtr :=
  if b then s.s_transparentRenderableList else s.s_opaqueRenderableList

/-! ### Concrete worlds used to run the model -/

/-- A mesh file with 4 vertices and 6 indices that opens, with a `CreateBuffers` that
succeeds and leaves the counts alone. -/
def quadMeshWorld : MeshWorld :=
  { fopenOk := true, mallocOk := true, o_noOfVertices := 4, o_noOfIndices := 6,
    CreateBuffers := fun m => ⟨true, m, []⟩ }

/-- A mesh path that cannot be opened. -/
def missingMeshWorld : MeshWorld :=
  { quadMeshWorld with fopenOk := false }

/-- An effect file that opens, whose first byte is `mask`, and whose program builds. -/
def effectWorldWithMask (mask : Nat) : EffectWorld :=
  { renderStatesByte := mask, programOk := true,
    programID := 1, vertexShader := 1, pixelShader := 2,
    localToWorld := 0, worldToView := 1, viewToScreen := 2, programPrinted := [] }

/-- A material file that opens, without uniforms, whose effect file has first byte `mask`. -/
def materialWorldWithMask (mask : Nat) : MaterialWorld :=
  { fopenOk := true, mallocOk := true, effect := effectWorldWithMask mask,
    texture := 1, texturePrinted := [], textureOk := true, texHandle := 0,
    noOfUniforms := 0, uniforms := [], GetUniform := fun _ _ _ => 0 }

/-- A material path that cannot be opened. -/
def missingMaterialWorld : MaterialWorld :=
  { materialWorldWithMask 0 with fopenOk := false }

/-- A heap in which every `Renderable` has zeroed fields. -/
def zeroHeap : RenderablePtr → Renderable :=
  fun _ => default

/-! ## The frame renderer (`Graphics.cpp:28-117`) -/

/-- One call issued by `Render` to the backend, with its arguments. -/
inductive GraphicsCall where
  | Clear
  | BeginScene
  | EndScene
  | SwapBuffers
  | BindEffect (i_effect : Effect)
  | SetMaterialUniform (i_effect : Effect) (i_values : List F32) (i_valueCountToSet : Nat)
      (i_uniformHandle : Int) (i_shaderType : eShaderType)
  | SetTexture (i_material : Material) (i_offset : Nat)
  | SetDrawCallUniforms (i_effect : Effect) (m_orientation : List F32) (m_offset : List F32)
  | DrawMesh (i_mesh : Mesh)
  deriving DecidableEq, Repr

/-- Body of either loop of `Render` for one renderable (`Graphics.cpp:44-73` and `79-108`):
bind the effect, set every material uniform in index order, set the texture with the given
index, set the draw-call uniforms, draw the mesh. -/
def renderOne (toRender : Renderable) (textureIndex : Nat) : List GraphicsCall :=
  [GraphicsCall.BindEffect toRender.m_material.m_effect]
  ++ (List.range toRender.m_material.m_noOfUniforms).map (fun i =>
        let u := toRender.m_material.m_uniforms.getD i default
        GraphicsCall.SetMaterialUniform toRender.m_material.m_effect u.values
          u.valueCountToSet u.uniformHandle u.shaderType)
  ++ [GraphicsCall.SetTexture toRender.m_material textureIndex,
      GraphicsCall.SetDrawCallUniforms toRender.m_material.m_effect toRender.m_orientation
        toRender.m_offset,
      GraphicsCall.DrawMesh toRender.m_mesh]

/-- Function `Render` (`Graphics.cpp:28-117`): the calls it issues, in order.  The first loop
runs `i` over `0 .. opaqueSize-1` and passes `i` to `SetTexture`; the second runs `i` over
`0 .. transparentSize-1` and passes `i + opaqueSize`. -/
def Render (s : Registry) : List GraphicsCall :=
  let opaqueSize := s.s_opaqueRenderableList.length
  let transparentSize := s.s_transparentRenderableList.length
  [GraphicsCall.Clear, GraphicsCall.BeginScene]
  ++ (List.range opaqueSize).flatMap (fun i =>
        renderOne (s.heap (s.s_opaqueRenderableList.getD i 0)) i)
  ++ (List.range transparentSize).flatMap (fun i =>
        renderOne (s.heap (s.s_transparentRenderableList.getD i 0)) (i + opaqueSize))
  ++ [GraphicsCall.EndScene, GraphicsCall.SwapBuffers]

/-- The meshes passed to `DrawMesh`, in call order. -/
def drawnMeshes (calls : List GraphicsCall) : List Mesh :=
  calls.filterMap fun c =>
    match c with
    | .DrawMesh m => some m
    | _ => none

/-- The (material, index) pairs passed to `SetTexture`, in call order. -/
def textureCalls (calls : List GraphicsCall) : List (Material × Nat) :=
  calls.filterMap fun c =>
    match c with
    | .SetTexture m i => some (m, i)
    | _ => none

/-! ## OpenGL backend (`Graphics.gl.cpp`) -/

namespace OpenGL

/-- Value of `GL_TEXTURE0` in the OpenGL headers. -/
def GL_TEXTURE0 : Nat := 0x84C0

/-- Value of `GL_TEXTURE_2D` in the OpenGL headers. -/
def GL_TEXTURE_2D : Nat := 0x0DE1

/-- Value of `GL_SRC_ALPHA` in the OpenGL headers. -/
def GL_SRC_ALPHA : Nat := 0x0302

/-- Value of `GL_ONE_MINUS_SRC_ALPHA` in the OpenGL headers. -/
def GL_ONE_MINUS_SRC_ALPHA : Nat := 0x0303

/-- Value of `GL_LEQUAL` in the OpenGL headers. -/
def GL_LEQUAL : Nat := 0x0203

/-- Value of `GL_CCW` in the OpenGL headers. -/
def GL_CCW : Nat := 0x0901

/-- The capabilities `BindEffect` switches with `glEnable` / `glDisable`. -/
inductive Capability where
  | GL_BLEND
  | GL_DEPTH_TEST
  | GL_CULL_FACE
  deriving DecidableEq, Repr

/-- The part of the OpenGL context that `BindEffect` writes. -/
structure State where
  currentProgram : Nat
  blend : Bool
  blendSrc : Nat
  blendDst : Nat
  depthTest : Bool
  depthFunc : Nat
  depthMask : Bool
  cullFace : Bool
  frontFace : Nat
  deriving DecidableEq, Repr

/-- GL call `glUseProgram`. -/
def glUseProgram (program : Nat) (s : State) : State :=
  { s with currentProgram := program }

/-- GL call `glEnable`. -/
def glEnable : Capability → State → State
  | .GL_BLEND, s => { s with blend := true }
  | .GL_DEPTH_TEST, s => { s with depthTest := true }
  | .GL_CULL_FACE, s => { s with cullFace := true }

/-- GL call `glDisable`. -/
def glDisable : Capability → State → State
  | .GL_BLEND, s => { s with blend := false }
  | .GL_DEPTH_TEST, s => { s with depthTest := false }
  | .GL_CULL_FACE, s => { s with cullFace := false }

/-- GL call `glBlendFunc`. -/
def glBlendFunc (sfactor dfactor : Nat) (s : State) : State :=
  { s with blendSrc := sfactor, blendDst := dfactor }

/-- GL call `glDepthFunc`. -/
def glDepthFunc (func : Nat) (s : State) : State :=
  { s with depthFunc := func }

/-- GL call `glDepthMask`. -/
def glDepthMask (flag : Bool) (s : State) : State :=
  { s with depthMask := flag }

/-- GL call `glFrontFace`. -/
def glFrontFace (mode : Nat) (s : State) : State :=
  { s with frontFace := mode }

/-- Function `BindEffect` (`Graphics.gl.cpp:1406-1466`): the context after the call.  Each
`assert (glGetError () == GL_NO_ERROR)` is taken to pass; the function returns `true`. -/
def BindEffect (i_effect : Effect) (s : State) : State :=
  let s0 := glUseProgram i_effect.m_programID s
  let s1 :=
    if i_effect.m_renderStates &&& alpha ≠ 0 then
      glBlendFunc GL_SRC_ALPHA GL_ONE_MINUS_SRC_ALPHA (glEnable .GL_BLEND s0)
    else
      glDisable .GL_BLEND s0
  let s2 :=
    if i_effect.m_renderStates &&& depthtest ≠ 0 then
      glDepthFunc GL_LEQUAL (glEnable .GL_DEPTH_TEST s1)
    else
      glDisable .GL_DEPTH_TEST s1
  let s3 :=
    if i_effect.m_renderStates &&& depthwrite ≠ 0 then
      glDepthMask true s2
    else
      glDepthMask false s2
  if i_effect.m_renderStates &&& faceculling ≠ 0 then
    glFrontFace GL_CCW (glEnable .GL_CULL_FACE s3)
  else
    glDisable .GL_CULL_FACE s3

/-- A GL call made by `SetTexture`. -/
inductive TextureCall where
  | glActiveTexture (texture : Nat)
  | glBindTexture (target : Nat) (texture : Nat)
  | glUniform1i (location : Int) (v0 : Nat)
  deriving DecidableEq, Repr

/-- Function `SetTexture` (`Graphics.gl.cpp:1362-1370`): the GL calls it makes. -/
def SetTexture (i_material : Material) (i_offset : Nat) : List TextureCall :=
  [TextureCall.glActiveTexture (GL_TEXTURE0 + i_offset),
   TextureCall.glBindTexture GL_TEXTURE_2D i_material.m_3dTexture,
   TextureCall.glUniform1i i_material.m_texHandle i_offset]

/-- The texture unit enumerant `SetTexture` activates. -/
def activatedUnit (i_offset : Nat) : Nat :=
  GL_TEXTURE0 + i_offset

end OpenGL

/-! ## Direct3D backend (`Graphics.d3d.cpp`) -/

namespace Direct3D

/-- Value of `TRUE` in the Windows headers. -/
def TRUE : Nat := 1

/-- Value of `FALSE` in the Windows headers. -/
def FALSE : Nat := 0

/-- Value of `D3DBLEND_SRCALPHA` in `d3d9types.h`. -/
def D3DBLEND_SRCALPHA : Nat := 5

/-- Value of `D3DBLEND_INVSRCALPHA` in `d3d9types.h`. -/
def D3DBLEND_INVSRCALPHA : Nat := 6

/-- Value of `D3DZB_TRUE` in `d3d9types.h`. -/
def D3DZB_TRUE : Nat := 1

/-- Value of `D3DZB_FALSE` in `d3d9types.h`. -/
def D3DZB_FALSE : Nat := 0

/-- Value of `D3DCMP_LESSEQUAL` in `d3d9types.h`. -/
def D3DCMP_LESSEQUAL : Nat := 4

/-- Value of `D3DCULL_NONE` in `d3d9types.h`. -/
def D3DCULL_NONE : Nat := 1

/-- Value of `D3DCULL_CCW` in `d3d9types.h`. -/
def D3DCULL_CCW : Nat := 3

/-- The render states `BindEffect` sets. -/
inductive D3DRENDERSTATETYPE where
  | D3DRS_ALPHABLENDENABLE
  | D3DRS_SRCBLEND
  | D3DRS_DESTBLEND
  | D3DRS_ZENABLE
  | D3DRS_ZFUNC
  | D3DRS_ZWRITEENABLE
  | D3DRS_CULLMODE
  deriving DecidableEq, Repr

/-- The part of the Direct3D device state that `BindEffect` writes. -/
structure State where
  vertexShader : Nat
  pixelShader : Nat
  alphaBlendEnable : Nat
  srcBlend : Nat
  destBlend : Nat
  zEnable : Nat
  zFunc : Nat
  zWriteEnable : Nat
  cullMode : Nat
  deriving DecidableEq, Repr

/-- Device call `SetVertexShader`. -/
def SetVertexShader (shader : Nat) (s : State) : State :=
  { s with vertexShader := shader }

/-- Device call `SetPixelShader`. -/
def SetPixelShader (shader : Nat) (s : State) : State :=
  { s with pixelShader := shader }

/-- Device call `SetRenderState`. -/
def SetRenderState : D3DRENDERSTATETYPE → Nat → State → State
  | .D3DRS_ALPHABLENDENABLE, v, s => { s with alphaBlendEnable := v }
  | .D3DRS_SRCBLEND, v, s => { s with srcBlend := v }
  | .D3DRS_DESTBLEND, v, s => { s with destBlend := v }
  | .D3DRS_ZENABLE, v, s => { s with zEnable := v }
  | .D3DRS_ZFUNC, v, s => { s with zFunc := v }
  | .D3DRS_ZWRITEENABLE, v, s => { s with zWriteEnable := v }
  | .D3DRS_CULLMODE, v, s => { s with cullMode := v }

/-- Function `BindEffect` (`Graphics.d3d.cpp:663-726`): the device state after the call.
Each `assert (SUCCEEDED (result))` is taken to pass; the function returns `true`. -/
def BindEffect (i_effect : Effect) (s : State) : State :=
  let s0 := SetPixelShader i_effect.m_pixelShader (SetVertexShader i_effect.m_vertexShader s)
  let s1 :=
    if i_effect.m_renderStates &&& alpha ≠ 0 then
      SetRenderState .D3DRS_DESTBLEND D3DBLEND_INVSRCALPHA
        (SetRenderState .D3DRS_SRCBLEND D3DBLEND_SRCALPHA
          (SetRenderState .D3DRS_ALPHABLENDENABLE TRUE s0))
    else
      SetRenderState .D3DRS_ALPHABLENDENABLE FALSE s0
  let s2 :=
    if i_effect.m_renderStates &&& depthtest ≠ 0 then
      SetRenderState .D3DRS_ZFUNC D3DCMP_LESSEQUAL
        (SetRenderState .D3DRS_ZENABLE D3DZB_TRUE s1)
    else
      SetRenderState .D3DRS_ZENABLE D3DZB_FALSE s1
  let s3 :=
    if i_effect.m_renderStates &&& depthwrite ≠ 0 then
      SetRenderState .D3DRS_ZWRITEENABLE TRUE s2
    else
      SetRenderState .D3DRS_ZWRITEENABLE FALSE s2
  if i_effect.m_renderStates &&& faceculling ≠ 0 then
    SetRenderState .D3DRS_CULLMODE D3DCULL_CCW s3
  else
    SetRenderState .D3DRS_CULLMODE D3DCULL_NONE s3

end Direct3D

end Graphics

/-! ## The effect builder (`cEffectBuilder.cpp`) -/

namespace Lua

/-- Keys of a Lua table, as far as the builders use them: strings and integers. -/
inductive Key where
  | str (s : String)
  | int (i : Int)
  deriving DecidableEq, Repr

/-- Lua values; a number carries its value as a rational. -/
inductive Value where
  | nil
  | boolean (b : Bool)
  | number (n : ℚ)
  | string (s : String)
  | table (get : Key → Value)

/-- The Lua stack, top element first. -/
abbrev Stack := List Value

/-- Lua API `lua_toboolean (L, -1)`: false for `nil` and `false`, true for anything else. -/
def lua_toboolean : Stack → Bool
  | Value.nil :: _ => false
  | Value.boolean b :: _ => b
  | _ :: _ => true
  | [] => false

/-- Lua API `lua_istable (L, -1)`. -/
def lua_istable : Stack → Bool
  | Value.table _ :: _ => true
  | _ => false

/-- Lua API `lua_pushstring`. -/
def lua_pushstring (s : String) (st : Stack) : Stack :=
  Value.string s :: st

/-- The key a value denotes when used to index a table (Lua turns a float with an integral
value into the integer key; other floats are not keys of this model). -/
def Value.toKey : Value → Option Key
  | .string s => some (.str s)
  | .number n => if n.den = 1 then some (.int n.num) else none
  | _ => none

/-- Lua API `lua_gettable (L, -2)`: pop the key on top and push the value the table below it
holds for that key.  The builders call it only with a table at index -2 (each table is
checked with `lua_istable` first); on any other stack the model pushes `nil`. -/
def lua_gettable : Stack → Stack
  | k :: Value.table get :: rest =>
      (match k.toKey with
       | some key => get key
       | none => Value.nil) :: Value.table get :: rest
  | _ :: rest => Value.nil :: rest
  | [] => []

/-- Lua API `lua_pop (L, n)`. -/
def lua_pop (n : Nat) (st : Stack) : Stack :=
  st.drop n

/-- A table that holds `v` under the string key `k` and is `base` elsewhere. -/
def withField (base : Key → Value) (k : String) (v : Value) : Key → Value :=
  fun key => if key = Key.str k then v else base key

end Lua

namespace cEffectBuilder

/-- Enumerator `alpha` of the builder's own `RenderStates` (`cEffectBuilder.cpp:20`). -/
def alpha : Nat := 1

/-- Enumerator `depthtest` of the builder's own `RenderStates` (`cEffectBuilder.cpp:21`). -/
def depthtest : Nat := 1 <<< 1

/-- Enumerator `depthwrite` of the builder's own `RenderStates` (`cEffectBuilder.cpp:22`). -/
def depthwrite : Nat := 1 <<< 2

/-- Enumerator `faceculling` of the builder's own `RenderStates` (`cEffectBuilder.cpp:23`). -/
def faceculling : Nat := 1 <<< 3

/-- One flag block of `Build` (for example `cEffectBuilder.cpp:131-140`), run with the
render-states table on top of the stack: push the key, `lua_gettable (-2)`,
`lua_toboolean (-1)`, or the bit into `renderStates` when true, pop. -/
def readFlag (key : String) (bit : Nat) (acc : Nat × Lua.Stack) : Nat × Lua.Stack :=
  let st1 := Lua.lua_gettable (Lua.lua_pushstring key acc.2)
  let flag := Lua.lua_toboolean st1
  let renderStates := if flag then (acc.1 ||| bit) % 256 else acc.1
  (renderStates, Lua.lua_pop 1 st1)

/-- The render-states part of `Build` (`cEffectBuilder.cpp:107` and `123-173`), run with the
asset table on top of the stack: the value of `renderStates` and the stack afterwards. -/
def readRenderStates (st : Lua.Stack) : Nat × Lua.Stack :=
  let st1 := Lua.lua_gettable (Lua.lua_pushstring "renderstates" st)
  let r :=
    if Lua.lua_istable st1 then
      readFlag "faceculling" faceculling
        (readFlag "depthwrite" depthwrite
          (readFlag "depthtest" depthtest
            (readFlag "alpha" alpha (0, st1))))
    else
      (0, st1)
  (r.1, Lua.lua_pop 1 r.2)

/-- The byte that `fwrite (&renderStates, sizeof (uint8_t), 1, o_file)` (line 188) writes for
an asset file that returned the given table. -/
def renderStatesByte (asset : Lua.Value) : Nat :=
  (readRenderStates [asset]).1

/-- A render-states table holding the four flags as booleans, and `other` elsewhere. -/
def renderstatesTable (other : Lua.Key → Lua.Value) (a dt dw fc : Bool) : Lua.Value :=
  Lua.Value.table
    (Lua.withField (Lua.withField (Lua.withField (Lua.withField other
      "alpha" (.boolean a)) "depthtest" (.boolean dt)) "depthwrite" (.boolean dw))
      "faceculling" (.boolean fc))

/-- An asset table whose `renderstates` entry is `rs`, and `main` elsewhere. -/
def assetTable (main : Lua.Key → Lua.Value) (rs : Lua.Value) : Lua.Value :=
  Lua.Value.table (Lua.withField main "renderstates" rs)

end cEffectBuilder

/-! ## Bytes in memory and in files -/

namespace Binary

/-- The four bytes a `uint32_t` (or the bit pattern of a `float`) occupies in memory, least
significant byte first (x86). -/
def u32Bytes (n : Nat) : List Nat :=
  [n % 256, n / 256 % 256, n / 65536 % 256, n / 16777216 % 256]

/-- The `uint32_t` that four bytes in memory denote; a missing byte reads as 0. -/
def u32OfBytes (bs : List Nat) : Nat :=
  bs.getD 0 0 + 256 * bs.getD 1 0 + 65536 * bs.getD 2 0 + 16777216 * bs.getD 3 0

/-- The `len` bytes of a buffer that start at offset `off`. -/
def slice (buf : List Nat) (off len : Nat) : List Nat :=
  (buf.drop off).take len

/-- Read `*reinterpret_cast<uint8_t*> (buf + off)`. -/
def byteAt (buf : List Nat) (off : Nat) : Nat :=
  buf.getD off 0

/-- Read `*reinterpret_cast<uint32_t*> (buf + off)`. -/
def u32At (buf : List Nat) (off : Nat) : Nat :=
  u32OfBytes (slice buf off 4)

/-- The C string that starts at `buf + off`: the bytes up to the first NUL. -/
def cstrAt (buf : List Nat) (off : Nat) : List Nat :=
  (buf.drop off).takeWhile (fun b => b != 0)

/-- What `fwrite (s.c_str (), sizeof (char), s.length () + 1, o_file)` writes for a
`std::string` with the given characters. -/
def c_str (s : List Nat) : List Nat :=
  s ++ [0]

/-- Size and alignment of a struct member. -/
structure Member where
  size : Nat
  align : Nat
  deriving DecidableEq, Repr

/-- Member type `float`. -/
def Member.float : Member := ⟨4, 4⟩

/-- Member type `uint8_t` (also an enumeration declared `: uint8_t`). -/
def Member.uint8_t : Member := ⟨1, 1⟩

/-- Round an offset up to a multiple of an alignment. -/
def alignUp (off align : Nat) : Nat :=
  (off + align - 1) / align * align

/-- Offsets of the members of a struct laid out in declaration order from offset `off`. -/
def offsetsFrom (off : Nat) : List Member → List Nat
  | [] => []
  | m :: rest => alignUp off m.align :: offsetsFrom (alignUp off m.align + m.size) rest

/-- Offset just past the last member. -/
def endFrom (off : Nat) : List Member → Nat
  | [] => off
  | m :: rest => endFrom (alignUp off m.align + m.size) rest

/-- Value of `sizeof` for a struct with the given members: the end of the last member rounded
up to the largest member alignment. -/
def sizeof (members : List Member) : Nat :=
  alignUp (endFrom 0 members) (members.foldl (fun a m => max a m.align) 1)

end Binary

namespace Graphics

/-! ## Vertices and the mesh file (`Graphics.h:92-110`, `Graphics.cpp:166-174`) -/

/-- The two build configurations (`EAE6320_PLATFORM_D3D`, `EAE6320_PLATFORM_GL`). -/
inductive Platform where
  | D3D
  | GL
  deriving DecidableEq, Repr

/-- Struct `sVertex` (`Graphics.h:92-110`, and the same text in `cMeshBuilder.cpp:21-39`). -/
structure sVertex where
  x : F32
  y : F32
  z : F32
  u : F32
  v : F32
  r : Nat
  g : Nat
  b : Nat
  a : Nat
  deriving DecidableEq, Repr, Inhabited

/-- Members of `sVertex` in declaration order: five floats, four `uint8_t`. -/
def sVertex.members : List Binary.Member :=
  [.float, .float, .float, .float, .float, .uint8_t, .uint8_t, .uint8_t, .uint8_t]

/-- Value of `sizeof (sVertex)`. -/
def sVertex.sizeof : Nat :=
  Binary.sizeof sVertex.members

/-- The colour bytes in declaration order: `b, g, r, a` under Direct3D, `r, g, b, a` under
OpenGL. -/
def sVertex.colorBytes (p : Platform) (vtx : sVertex) : List Nat :=
  match p with
  | .D3D => [vtx.b % 256, vtx.g % 256, vtx.r % 256, vtx.a % 256]
  | .GL => [vtx.r % 256, vtx.g % 256, vtx.b % 256, vtx.a % 256]

/-- The bytes an `sVertex` occupies in memory. -/
def sVertex.toBytes (p : Platform) (vtx : sVertex) : List Nat :=
  Binary.u32Bytes vtx.x ++ Binary.u32Bytes vtx.y ++ Binary.u32Bytes vtx.z ++
  Binary.u32Bytes vtx.u ++ Binary.u32Bytes vtx.v ++ sVertex.colorBytes p vtx

/-- The `sVertex` that the bytes of one record denote. -/
def sVertex.ofBytes (p : Platform) (bs : List Nat) : sVertex :=
  match p with
  | .D3D =>
    { x := Binary.u32At bs 0, y := Binary.u32At bs 4, z := Binary.u32At bs 8,
      u := Binary.u32At bs 12, v := Binary.u32At bs 16,
      b := Binary.byteAt bs 20, g := Binary.byteAt bs 21, r := Binary.byteAt bs 22,
      a := Binary.byteAt bs 23 }
  | .GL =>
    { x := Binary.u32At bs 0, y := Binary.u32At bs 4, z := Binary.u32At bs 8,
      u := Binary.u32At bs 12, v := Binary.u32At bs 16,
      r := Binary.byteAt bs 20, g := Binary.byteAt bs 21, b := Binary.byteAt bs 22,
      a := Binary.byteAt bs 23 }

/-- A vertex whose floats are 32-bit patterns and whose colour channels are bytes. -/
def sVertex.WellFormed (vtx : sVertex) : Prop :=
  vtx.x < 2 ^ 32 ∧ vtx.y < 2 ^ 32 ∧ vtx.z < 2 ^ 32 ∧ vtx.u < 2 ^ 32 ∧ vtx.v < 2 ^ 32 ∧
  vtx.r < 256 ∧ vtx.g < 256 ∧ vtx.b < 256 ∧ vtx.a < 256

/-- What `LoadMesh` takes from the file once it is in memory (`Graphics.cpp:168-174`): the
two counts, and the arrays that `o_vertexData` and `o_indexData` point to, as far as the
counts say they extend. -/
structure MeshView where
  o_noOfVertices : Nat
  o_noOfIndices : Nat
  o_vertexData : List sVertex
  o_indexData : List Nat
  deriving DecidableEq, Repr

/-- The parse in `LoadMesh` (`Graphics.cpp:168-171`): counts at offsets 0 and 4, vertex
records from offset 8, indices from offset `8 + o_noOfVertices * sizeof (sVertex)`.  Pointer
arithmetic is taken not to wrap; a byte past the end of the buffer reads as 0. -/
def readMeshFile (p : Platform) (temporaryBuffer : List Nat) : MeshView :=
  let o_noOfVertices := Binary.u32At temporaryBuffer 0
  let o_noOfIndices := Binary.u32At temporaryBuffer 4
  { o_noOfVertices := o_noOfVertices
    o_noOfIndices := o_noOfIndices
    o_vertexData := (List.range o_noOfVertices).map fun i =>
      sVertex.ofBytes p (Binary.slice temporaryBuffer (8 + i * sVertex.sizeof) sVertex.sizeof)
    o_indexData := (List.range o_noOfIndices).map fun j =>
      Binary.u32At temporaryBuffer (8 + o_noOfVertices * sVertex.sizeof + j * 4) }

/-- What `LoadEffect` takes from the file once it is in memory. -/
structure EffectView where
  m_renderStates : Nat
  i_vertexPath : List Nat
  i_fragmentPath : List Nat
  deriving DecidableEq, Repr

/-- The parse in `LoadEffect` (`Graphics.gl.cpp:567-570`, `Graphics.d3d.cpp:389-392`): the
mask at offset 0, the vertex path at offset 1, the fragment path at offset
`1 + strlen (i_vertexPath) + 1`. -/
def readEffectFile (temporaryBuffer : List Nat) : EffectView :=
  let i_vertexPath := Binary.cstrAt temporaryBuffer 1
  let offset := i_vertexPath.length + 1
  { m_renderStates := Binary.byteAt temporaryBuffer 0
    i_vertexPath := i_vertexPath
    i_fragmentPath := Binary.cstrAt temporaryBuffer (1 + offset) }

end Graphics

namespace cEffectBuilder

/-- The three `fwrite` calls of `Build` (`cEffectBuilder.cpp:188-190`): the bytes of the file,
for the values the three variables hold. -/
def writeFile (renderStates : Nat) (vertexPath fragmentPath : List Nat) : List Nat :=
  [renderStates % 256] ++ Binary.c_str vertexPath ++ Binary.c_str fragmentPath

end cEffectBuilder

namespace cMeshBuilder

/-- The four `fwrite` calls of `Build` (`cMeshBuilder.cpp:163-166`): the bytes of the file,
for the values the four variables hold.  An element past the end of an array reads as a
zeroed one. -/
def writeFile (p : Graphics.Platform) (o_noOfVertices o_noOfIndices : Nat)
    (o_vertexData : List Graphics.sVertex) (o_indexData : List Nat) : List Nat :=
  Binary.u32Bytes o_noOfVertices ++ Binary.u32Bytes o_noOfIndices ++
  (List.range o_noOfVertices).flatMap (fun i =>
    Graphics.sVertex.toBytes p (o_vertexData.getD i default)) ++
  (List.range o_noOfIndices).flatMap (fun j => Binary.u32Bytes (o_indexData.getD j 0))

end cMeshBuilder

namespace cMeshBuilder

/-- Members of the builder's own `sVertex` (`cMeshBuilder.cpp:21-39`): the same declaration
as in `Graphics.h`. -/
def sVertex_members : List Binary.Member :=
  [.float, .float, .float, .float, .float, .uint8_t, .uint8_t, .uint8_t, .uint8_t]

end cMeshBuilder

namespace Graphics

/-- The stride `CreateBuffers` passes to every `glVertexAttribPointer` call
(`Graphics.gl.cpp:273`): `sizeof (sVertex)`. -/
def OpenGL.vertexStride : Nat :=
  sVertex.sizeof

/-- The offsets `CreateBuffers` passes to its three `glVertexAttribPointer` calls
(`Graphics.gl.cpp:274-372`): position, texture coordinates, colour; the running offset starts
at 0 and is advanced by `elementCount * sizeof (element)` after each attribute. -/
def OpenGL.vertexAttributeOffsets : List Nat :=
  [0, 0 + 3 * 4, 0 + 3 * 4 + 2 * 4]

/-- The stride `DrawMesh` passes to `SetStreamSource` (`Graphics.d3d.cpp:609`):
`sizeof (sVertex)`. -/
def Direct3D.bufferStride : Nat :=
  sVertex.sizeof

/-- The offsets of the three `D3DVERTEXELEMENT9` entries of `CreateBuffers`
(`Graphics.d3d.cpp:244-254`): position, texture coordinates, colour. -/
def Direct3D.vertexElementOffsets : List Nat :=
  [0, 12, 20]

end Graphics

namespace Binary

/-- The `k` bytes an unsigned integer occupies in memory, least significant byte first. -/
def leBytes : Nat → Nat → List Nat
  | 0, _ => []
  | k + 1, n => n % 256 :: leBytes k (n / 256)

/-- The unsigned integer that bytes in memory denote, least significant byte first. -/
def leValue : List Nat → Nat
  | [] => 0
  | b :: rest => b + 256 * leValue rest

end Binary

namespace Graphics

/-! ## Uniform records and the material file (`Graphics.h:138-143`, `Graphics.cpp:249-294`) -/

/-- Members of `sUniformHelper` (`Graphics.h:138-143`, and the same text in
`cMaterialBuilder.cpp:39-44`) for a `tUniformHandle` of `handleSize` bytes: 4 for `GLint` and
for a 32-bit `const char*`, 8 for a 64-bit `const char*`. -/
def sUniformHelper.members (handleSize : Nat) : List Binary.Member :=
  [⟨handleSize, handleSize⟩, .float, .float, .float, .float, .uint8_t, .uint8_t]

/-- Value of `sizeof (sUniformHelper)`. -/
def sUniformHelper.sizeof (handleSize : Nat) : Nat :=
  Binary.sizeof (sUniformHelper.members handleSize)

/-- The byte an `eShaderType` is stored as (`fragment` is 0, `vertex` is 1). -/
def eShaderType.toByte : eShaderType → Nat
  | .fragment => 0
  | .vertex => 1

/-- The `eShaderType` a stored byte is taken for: every test in the code is
`== eShaderType::fragment`, so any other byte acts as `vertex`. -/
def eShaderType.ofByte (b : Nat) : eShaderType :=
  if b = 0 then .fragment else .vertex

/-- The bytes an `sUniformHelper` occupies in memory: handle, four value slots, count, shader
type, then the padding up to `sizeof`.  The padding is indeterminate in C++; it is taken
from `junk` here.  A value slot the list does not hold reads as 0. -/
def sUniformHelper.toBytes (handleSize : Nat) (junk : List Nat) (h : sUniformHelper) :
    List Nat :=
  Binary.leBytes handleSize h.uniformHandle.toNat ++
  Binary.u32Bytes (h.values.getD 0 0) ++ Binary.u32Bytes (h.values.getD 1 0) ++
  Binary.u32Bytes (h.values.getD 2 0) ++ Binary.u32Bytes (h.values.getD 3 0) ++
  [h.valueCountToSet % 256, h.shaderType.toByte] ++
  (List.range (sUniformHelper.sizeof handleSize - (handleSize + 18))).map
    (fun k => junk.getD k 0)

/-- The `sUniformHelper` that the bytes of one record denote (the handle is read as an
unsigned integer). -/
def sUniformHelper.ofBytes (handleSize : Nat) (bs : List Nat) : sUniformHelper :=
  { uniformHandle := Int.ofNat (Binary.leValue (Binary.slice bs 0 handleSize))
    values := [Binary.u32At bs handleSize, Binary.u32At bs (handleSize + 4),
               Binary.u32At bs (handleSize + 8), Binary.u32At bs (handleSize + 12)]
    valueCountToSet := Binary.byteAt bs (handleSize + 16)
    shaderType := eShaderType.ofByte (Binary.byteAt bs (handleSize + 17)) }

/-- What `LoadMaterial` takes from the file once it is in memory. -/
structure MaterialView where
  i_effectPath : List Nat
  i_textureHandle : List Nat
  i_texturePath : List Nat
  m_noOfUniforms : Nat
  m_uniforms : List sUniformHelper
  uniformNamesArray : List (List Nat)
  deriving DecidableEq, Repr

/-- The name loop of `LoadMaterial` (`Graphics.cpp:290-294`): `count` C strings read one
after the other from `offset`. -/
def readNames (temporaryBuffer : List Nat) : Nat → Nat → List (List Nat)
  | 0, _ => []
  | count + 1, offset =>
      let name := Binary.cstrAt temporaryBuffer offset
      name :: readNames temporaryBuffer count (offset + name.length + 1)

/-- The parse in `LoadMaterial` (`Graphics.cpp:249-294`) with its running offset: three C
strings, the count byte, `m_noOfUniforms` records of `sizeof (sUniformHelper)` bytes, then
`m_noOfUniforms` C strings.  `m_uniforms` is the array right after the `memcpy`, before the
handles are looked up. -/
def readMaterialFile (handleSize : Nat) (temporaryBuffer : List Nat) : MaterialView :=
  let i_effectPath := Binary.cstrAt temporaryBuffer 0
  let offset1 := i_effectPath.length + 1
  let i_textureHandle := Binary.cstrAt temporaryBuffer offset1
  let offset2 := offset1 + (i_textureHandle.length + 1)
  let i_texturePath := Binary.cstrAt temporaryBuffer offset2
  let offset3 := offset2 + (i_texturePath.length + 1)
  let m_noOfUniforms := Binary.byteAt temporaryBuffer offset3
  let offset4 := offset3 + 1
  let offset5 := offset4 + sUniformHelper.sizeof handleSize * m_noOfUniforms
  { i_effectPath := i_effectPath
    i_textureHandle := i_textureHandle
    i_texturePath := i_texturePath
    m_noOfUniforms := m_noOfUniforms
    m_uniforms := (List.range m_noOfUniforms).map fun i =>
      sUniformHelper.ofBytes handleSize
        (Binary.slice temporaryBuffer (offset4 + i * sUniformHelper.sizeof handleSize)
          (sUniformHelper.sizeof handleSize))
    uniformNamesArray := readNames temporaryBuffer m_noOfUniforms offset5 }

/-- What a uniform record says about its uniform: the value slots, the value count and the
shader type (the handle is filled in later, at load time). -/
def uniformContent (h : sUniformHelper) : List F32 × Nat × eShaderType :=
  (h.values, h.valueCountToSet, h.shaderType)

end Graphics

namespace cMaterialBuilder

/-- The `fwrite` calls of `Build` (`cMaterialBuilder.cpp:249-262`): the bytes of the file, for
the values the six variables hold.  `junk i` is the indeterminate padding of record `i`; an
element past the end of an array reads as an empty one. -/
def writeFile (handleSize : Nat) (junk : Nat → List Nat)
    (effectPath textureHandle texturePath : List Nat) (uniformCount : Nat)
    (uniforms : List Graphics.sUniformHelper) (uniformNames : List (List Nat)) : List Nat :=
  Binary.c_str effectPath ++ Binary.c_str textureHandle ++ Binary.c_str texturePath ++
  [uniformCount % 256] ++
  (List.range uniformCount).flatMap (fun i =>
    Graphics.sUniformHelper.toBytes handleSize (junk i) (uniforms.getD i default)) ++
  (List.range uniformCount).flatMap (fun i => Binary.c_str (uniformNames.getD i []))

end cMaterialBuilder

/-! ## Lua values as the builders read them -/

namespace Lua

/-- What the C++ side does with the numbers and strings Lua hands over.  The results depend
on floating-point arithmetic and on Lua's own conversions, so they are left open: every
statement below holds for all choices. -/
structure Conversions where
  /-- Cast `static_cast<float> (x)`, as the bit pattern of the result. -/
  toFloat : ℚ → Graphics.F32
  /-- Value of `1.0f - v`, on bit patterns. -/
  oneMinus : Graphics.F32 → Graphics.F32
  /-- Cast `static_cast<uint8_t> (x * 255)`. -/
  toColor : ℚ → Nat
  /-- Cast `static_cast<uint32_t> (x)`. -/
  toUInt32 : ℚ → Nat
  /-- Lua's conversion of a string to a number, when the string is numeric. -/
  parseNumber : String → Option ℚ
  /-- Lua's conversion of a number to a string. -/
  formatNumber : ℚ → String

/-- The bytes of a Lua string (UTF-8 for the text of the model). -/
def bytes (s : String) : List Nat :=
  s.toUTF8.data.toList.map UInt8.toNat

/-- The characters C++ sees when it assigns a `const char*` to a `std::string`: the bytes up
to the first NUL. -/
def cBytes (s : String) : List Nat :=
  (bytes s).takeWhile (fun b => b != 0)

/-- Indexing a value with a key, as `lua_gettable` does: a table gives the stored value, a
string gives `nil` for the keys the builders use, anything else raises a Lua error
(`none`). -/
def index : Value → Key → Option Value
  | .table get, k => some (get k)
  | .string _, _ => some Value.nil
  | _, _ => none

/-- Whether a value is `nil`. -/
def Value.isNil : Value → Bool
  | .nil => true
  | _ => false

/-- Search for the border of a sequence: the first `n` at or after the start with a `nil`
at key `n + 1`. -/
def lengthFrom (get : Key → Value) : Nat → Nat → Nat
  | 0, n => n
  | fuel + 1, n => if (get (Key.int (n + 1))).isNil then n else lengthFrom get fuel (n + 1)

/-- Largest length the builders can receive in the `int` they store it in. -/
def maxLength : Nat := 2147483647

/-- Lua API `luaL_len`: the length of a table that is a sequence, the byte length of a
string, a Lua error (`none`) for any other value. -/
def len : Value → Option Nat
  | .table get => some (lengthFrom get maxLength 0)
  | .string s => some (bytes s).length
  | _ => none

/-- Lua API `lua_tostring`, as assigned to a `std::string`: the characters of a string or of
a number converted to one; `none` stands for the `NULL` returned for any other value. -/
def tostring (c : Conversions) : Value → Option (List Nat)
  | .string s => some (cBytes s)
  | .number q => some (cBytes (c.formatNumber q))
  | _ => none

/-- Lua API `lua_tonumber`: the number, a numeric string converted, 0 for anything else. -/
def tonumber (c : Conversions) : Value → ℚ
  | .number q => q
  | .string s => (c.parseNumber s).getD 0
  | _ => 0

/-- A table that is the sequence of the given values (keys 1, 2, ...). -/
def sequence (xs : List Value) : Value :=
  Value.table fun k =>
    match k with
    | .int i => if 1 ≤ i then xs.getD (i.toNat - 1) Value.nil else Value.nil
    | .str _ => Value.nil

/-- A table with the given string-keyed fields (the first entry for a key counts). -/
def record (fields : List (String × Value)) : Value :=
  Value.table fun k =>
    match k with
    | .str s => ((fields.find? fun f => f.1 == s).map Prod.snd).getD Value.nil
    | .int _ => Value.nil

end Lua

/-- How a builder function can end. -/
inductive Outcome (α : Type) where
  /-- Lua raised an error outside a protected call: the process is aborted. -/
  | luaError
  /-- Undefined behaviour in C++: a `NULL` assigned to a `std::string`, or a write outside
  an array. -/
  | undefinedBehaviour
  /-- The function returned `false`. -/
  | failure
  /-- The function returned `true`, with the data it produced. -/
  | success (a : α)
  deriving DecidableEq, Repr

/-- Continue with the data of a successful step; any other ending is passed on. -/
def Outcome.andThen {α β : Type} (o : Outcome α) (f : α → Outcome β) : Outcome β :=
  match o with
  | .luaError => .luaError
  | .undefinedBehaviour => .undefinedBehaviour
  | .failure => .failure
  | .success a => f a

/-- Run a step for each element in turn, stopping at the first one that does not succeed. -/
def Outcome.forEach {α β : Type} (f : α → Outcome β) : List α → Outcome (List β)
  | [] => .success []
  | x :: rest =>
      (f x).andThen fun y => (Outcome.forEach f rest).andThen fun ys => .success (y :: ys)

/-- The value of a table access, a Lua error when the access raised one. -/
def Outcome.ofIndex (v : Option Lua.Value) : Outcome Lua.Value :=
  match v with
  | some x => .success x
  | none => .luaError

/-- The `std::string` assigned from `lua_tostring`; undefined behaviour for `NULL`. -/
def Outcome.ofString (s : Option (List Nat)) : Outcome (List Nat) :=
  match s with
  | some x => .success x
  | none => .undefinedBehaviour

/-- The result of `luaL_len`, a Lua error when it raised one. -/
def Outcome.ofLen (n : Option Nat) : Outcome Nat :=
  match n with
  | some x => .success x
  | none => .luaError

/-- The loop counter values `1, 2, ..., count`. -/
def fromOne (count : Nat) : List Nat :=
  (List.range count).map (fun k => k + 1)

namespace cMeshBuilder

/-! ## The mesh builder reading its description (`cMeshBuilder.cpp:48-431`)

The Lua stack is not threaded through these definitions: they follow the values the code
reads, in the order it reads them. -/

/-- The body of the vertex loop of `LoadVertices` (`cMeshBuilder.cpp:227-349`) for the entry
`vertices[i]`: the three sub-tables `position`, `uv`, `color` must be tables, their elements
are converted with `lua_tonumber` and the casts of the code. -/
def LoadVertex (c : Lua.Conversions) (entry : Lua.Value) : Outcome Graphics.sVertex :=
  (Outcome.ofIndex (Lua.index entry (.str "position"))).andThen fun position =>
  match position with
  | .table pos =>
    (Outcome.ofIndex (Lua.index entry (.str "uv"))).andThen fun uv =>
    match uv with
    | .table tex =>
      (Outcome.ofIndex (Lua.index entry (.str "color"))).andThen fun color =>
      match color with
      | .table col =>
        .success
          { x := c.toFloat (Lua.tonumber c (pos (.int 1))) % 2 ^ 32
            y := c.toFloat (Lua.tonumber c (pos (.int 2))) % 2 ^ 32
            z := c.toFloat (Lua.tonumber c (pos (.int 3))) % 2 ^ 32
            u := c.toFloat (Lua.tonumber c (tex (.int 1))) % 2 ^ 32
            v := c.oneMinus (c.toFloat (Lua.tonumber c (tex (.int 2))) % 2 ^ 32) % 2 ^ 32
            r := c.toColor (Lua.tonumber c (col (.int 1))) % 256
            g := c.toColor (Lua.tonumber c (col (.int 2))) % 256
            b := c.toColor (Lua.tonumber c (col (.int 3))) % 256
            a := c.toColor (Lua.tonumber c (col (.int 4))) % 256 }
      | _ => .failure
    | _ => .failure
  | _ => .failure

/-- Function `LoadVertices` (`cMeshBuilder.cpp:206-373`): `o_noOfVertices` and the vertex
array.  The value under `vertices` must be a table; the loop runs `i` from 1 to its length and
stops at the first entry that fails. -/
def LoadVertices (c : Lua.Conversions) (asset : Lua.Value) :
    Outcome (Nat × List Graphics.sVertex) :=
  (Outcome.ofIndex (Lua.index asset (.str "vertices"))).andThen fun vertices =>
  match vertices with
  | .table get =>
    (Outcome.ofLen (Lua.len vertices)).andThen fun vertexCount =>
    (Outcome.forEach (fun (i : Nat) => LoadVertex c (get (.int (i : Int))))
      (fromOne vertexCount)).andThen fun data =>
    .success (vertexCount, data)
  | _ => .failure

/-- The slot of `i_indexData` that the Direct3D loop of `LoadIndices` writes for the loop
counter `i` (`cMeshBuilder.cpp:395-403`). -/
def d3dSlot (i : Nat) : Nat :=
  if i % 3 = 1 then i - 1 else if i % 3 = 2 then i else i - 2

/-- The slot of `i_indexData` written for the loop counter `i`. -/
def indexSlot (p : Graphics.Platform) (i : Nat) : Nat :=
  match p with
  | .D3D => d3dSlot i
  | .GL => i - 1

/-- The index loop of `LoadIndices` (`cMeshBuilder.cpp:391-413`), over the remaining counter
values and the array so far: each value read is cast to `uint32_t` and stored in its slot; a
slot outside the `indexCount` elements of the array is undefined behaviour. -/
def storeIndices (c : Lua.Conversions) (p : Graphics.Platform) (get : Lua.Key → Lua.Value)
    (indexCount : Nat) : List Nat → List Nat → Outcome (List Nat)
  | [], i_indexData => .success i_indexData
  | i :: rest, i_indexData =>
      if indexSlot p i < indexCount then
        storeIndices c p get indexCount rest
          (i_indexData.set (indexSlot p i) (c.toUInt32 (Lua.tonumber c (get (.int i))) % 2 ^ 32))
      else
        .undefinedBehaviour

/-- Function `LoadIndices` (`cMeshBuilder.cpp:375-430`): `o_noOfIndices` and the index array.
The value under `indices` must be a table; the array has as many elements as the table
(they start as zeroes here, indeterminate in C++). -/
def LoadIndices (c : Lua.Conversions) (p : Graphics.Platform) (asset : Lua.Value) :
    Outcome (Nat × List Nat) :=
  (Outcome.ofIndex (Lua.index asset (.str "indices"))).andThen fun indices =>
  match indices with
  | .table get =>
    (Outcome.ofLen (Lua.len indices)).andThen fun indexCount =>
    (storeIndices c p get indexCount (fromOne indexCount)
      (List.replicate indexCount 0)).andThen fun data => .success (indexCount, data)
  | _ => .failure

/-- Function `Build` (`cMeshBuilder.cpp:48-202`) for an asset file that returned the single
value `asset`: the bytes written to the target file.  The asset must be a table, then
`LoadVertices` and `LoadIndices` must succeed; `fopen_s` and `fclose` are taken to
succeed. -/
def Build (c : Lua.Conversions) (p : Graphics.Platform) (asset : Lua.Value) :
    Outcome (List Nat) :=
  match asset with
  | .table _ =>
    (LoadVertices c asset).andThen fun vertices =>
    (LoadIndices c p asset).andThen fun indices =>
    .success (writeFile p vertices.1 indices.1 vertices.2 indices.2)
  | _ => .failure

end cMeshBuilder

namespace cMaterialBuilder

/-! ## The material builder reading its description (`cMaterialBuilder.cpp:50-297`) -/

/-- The value loop of `Build` (`cMaterialBuilder.cpp:191-197`), over the remaining counter
values `j` and the array `values` so far: `values[j-1]` receives the j-th entry cast to
`float`; a slot outside the four elements of the array is undefined behaviour. -/
def storeValues (c : Lua.Conversions) (valuesTable : Lua.Value) :
    List Nat → List Graphics.F32 → Outcome (List Graphics.F32)
  | [], values => .success values
  | j :: rest, values =>
      (Outcome.ofIndex (Lua.index valuesTable (.int j))).andThen fun entry =>
      if j - 1 < 4 then
        storeValues c valuesTable rest
          (values.set (j - 1) (c.toFloat (Lua.tonumber c entry) % 2 ^ 32))
      else
        .undefinedBehaviour

/-- The body of the uniform loop of `Build` (`cMaterialBuilder.cpp:159-200`) for the entry
`uniforms[i]`: the record and the name.  The handle keeps its initialiser 0; the value slots
start as zeroes here (indeterminate in C++). -/
def readUniform (c : Lua.Conversions) (entry : Lua.Value) :
    Outcome (Graphics.sUniformHelper × List Nat) :=
  (Outcome.ofIndex (Lua.index entry (.str "handleName"))).andThen fun handleName =>
  (Outcome.ofString (Lua.tostring c handleName)).andThen fun uniformName =>
  (Outcome.ofIndex (Lua.index entry (.str "shaderType"))).andThen fun shaderTypeValue =>
  (Outcome.ofString (Lua.tostring c shaderTypeValue)).andThen fun i_shaderType =>
  (Outcome.ofIndex (Lua.index entry (.str "values"))).andThen fun valuesTable =>
  (Outcome.ofLen (Lua.len valuesTable)).andThen fun length =>
  (storeValues c valuesTable (fromOne (length % 256)) [0, 0, 0, 0]).andThen fun values =>
  .success
    ({ uniformHandle := 0
       values := values
       valueCountToSet := length % 256
       shaderType :=
        if i_shaderType = Lua.cBytes "fragment" then Graphics.eShaderType.fragment
        else Graphics.eShaderType.vertex },
     uniformName)

/-- The variables of `Build` at the time the file is written. -/
structure Description where
  effectPath : List Nat
  textureHandle : List Nat
  texturePath : List Nat
  uniformCount : Nat
  uniforms : List Graphics.sUniformHelper
  uniformNames : List (List Nat)
  deriving DecidableEq, Repr

/-- The reading part of `Build` (`cMaterialBuilder.cpp:123-233`) for an asset file that
returned the single value `asset`, which must be a table: effect path, uniform count
(`(uint8_t) luaL_len`), the uniform loop, then the texture handle name and path. -/
def readDescription (c : Lua.Conversions) (asset : Lua.Value) : Outcome Description :=
  match asset with
  | .table _ =>
    (Outcome.ofIndex (Lua.index asset (.str "effect"))).andThen fun effect =>
    (Outcome.ofString (Lua.tostring c effect)).andThen fun effectPath =>
    (Outcome.ofIndex (Lua.index asset (.str "uniforms"))).andThen fun uniforms =>
    (Outcome.ofLen (Lua.len uniforms)).andThen fun length =>
    (Outcome.forEach
      (fun (i : Nat) =>
        (Outcome.ofIndex (Lua.index uniforms (.int (i : Int)))).andThen (readUniform c))
      (fromOne (length % 256))).andThen fun loaded =>
    (Outcome.ofIndex (Lua.index asset (.str "textures"))).andThen fun textures =>
    (Outcome.ofIndex (Lua.index textures (.str "handleName"))).andThen fun handleName =>
    (Outcome.ofString (Lua.tostring c handleName)).andThen fun textureHandle =>
    (Outcome.ofIndex (Lua.index textures (.str "path"))).andThen fun path =>
    (Outcome.ofString (Lua.tostring c path)).andThen fun texturePath =>
    .success
      { effectPath := effectPath
        textureHandle := textureHandle
        texturePath := texturePath
        uniformCount := length % 256
        uniforms := loaded.map Prod.fst
        uniformNames := loaded.map Prod.snd }
  | _ => .failure

/-- Function `Build` (`cMaterialBuilder.cpp:50-297`): the bytes written to the target file.
`fopen_s` and `fclose` are taken to succeed. -/
def Build (c : Lua.Conversions) (handleSize : Nat) (junk : Nat → List Nat)
    (asset : Lua.Value) : Outcome (List Nat) :=
  (readDescription c asset).andThen fun d =>
  .success (writeFile handleSize junk d.effectPath d.textureHandle d.texturePath
    d.uniformCount d.uniforms d.uniformNames)

end cMaterialBuilder

/-! ### Concrete descriptions used to run the builders -/

namespace Examples

/-- Conversions that send every number to 0 and every numeric string to nothing. -/
def zeroConversions : Lua.Conversions :=
  { toFloat := fun _ => 0, oneMinus := fun _ => 0, toColor := fun _ => 0,
    toUInt32 := fun _ => 0, parseNumber := fun _ => none, formatNumber := fun _ => "0" }

/-- A vertex entry with `position`, `uv` and `color` tables. -/
def vertexEntry : Lua.Value :=
  Lua.record
    [("position", Lua.sequence [.number 0, .number 0, .number 0]),
     ("uv", Lua.sequence [.number 0, .number 0]),
     ("color", Lua.sequence [.number 1, .number 1, .number 1, .number 1])]

/-- A mesh description with four vertices and the four indices `0, 1, 2, 3`. -/
def fourIndexMesh : Lua.Value :=
  Lua.record
    [("vertices", Lua.sequence [vertexEntry, vertexEntry, vertexEntry, vertexEntry]),
     ("indices", Lua.sequence [.number 0, .number 1, .number 2, .number 3])]

/-- A uniform entry with the given list of values. -/
def uniformEntry (values : List Lua.Value) : Lua.Value :=
  Lua.record
    [("handleName", .string "g_color"), ("shaderType", .string "fragment"),
     ("values", Lua.sequence values)]

/-- A material description with the given uniform entries. -/
def materialWith (uniforms : List Lua.Value) : Lua.Value :=
  Lua.record
    [("effect", .string "e"), ("uniforms", Lua.sequence uniforms),
     ("textures", Lua.record [("handleName", .string "t"), ("path", .string "p")])]

end Examples

namespace cMaterialBuilder

end cMaterialBuilder

namespace Examples

end Examples

namespace Graphics

/-- The answers `LoadMesh` gets for a file that opens and whose content is `temporaryBuffer`,
with a buffer that is allocated: the two counts are the ones `readMeshFile` finds
(`Graphics.cpp:168-169`). -/
def meshWorldOfFile (p : Platform) (temporaryBuffer : List Nat)
    (CreateBuffers : Mesh → Loaded Mesh) : MeshWorld :=
  { fopenOk := true
    mallocOk := true
    o_noOfVertices := (readMeshFile p temporaryBuffer).o_noOfVertices
    o_noOfIndices := (readMeshFile p temporaryBuffer).o_noOfIndices
    CreateBuffers := CreateBuffers }

/-- A `CreateBuffers` that succeeds and stores a buffer handle in the mesh. -/
def createBuffersOk (i_mesh : Mesh) : Loaded Mesh :=
  ⟨true, { i_mesh with m_vertexArrayID := 1 }, []⟩

/-- A `CreateBuffers` whose first device call fails: `CreateIndexBuffer` reports failure, the
function prints its message and returns `false` (`Graphics.d3d.cpp:163-169`). -/
def createBuffersFailing (i_mesh : Mesh) : Loaded Mesh :=
  ⟨false, i_mesh, ["Direct3D failed to create an index buffer"]⟩

end Graphics

/-! ## Floating-point arithmetic of `DrawMesh`

A `float` value is the rational it denotes.  The result of an operation is the exact result
rounded to a significand of `p` bits, ties to even (`p = 24` for IEEE single precision; a
larger `p` covers an implementation that evaluates `float` expressions in a wider format).
The exponent range is not bounded: the values of `DrawMesh` are far from its ends. -/

namespace FloatingPoint

/-- The integer nearest to `q`, ties to the even one. -/
def roundHalfEven (q : ℚ) : Int :=
  if q - ⌊q⌋ < 1 / 2 then ⌊q⌋
  else if 1 / 2 < q - ⌊q⌋ then ⌊q⌋ + 1
  else if ⌊q⌋ % 2 = 0 then ⌊q⌋
  else ⌊q⌋ + 1

/-- The exponent of the last place of a `p`-bit significand for the non-zero value `q`. -/
def ulpExponent (p : Nat) (q : ℚ) : Int :=
  Int.log 2 |q| - ((p : Int) - 1)

/-- The value `q` rounded to a significand of `p` bits, ties to even. -/
def round (p : Nat) (q : ℚ) : ℚ :=
  if q = 0 then 0
  else (roundHalfEven (q / (2 : ℚ) ^ ulpExponent p q) : ℚ) * (2 : ℚ) ^ ulpExponent p q

/-- Conversion of an unsigned integer to `float`. -/
def ofNat (p : Nat) (n : Nat) : ℚ :=
  round p (n : ℚ)

/-- Division of two `float` values. -/
def div (p : Nat) (a b : ℚ) : ℚ :=
  round p (a / b)

/-- Conversion of a `float` to an integer type: the fractional part is discarded. -/
def toInt (q : ℚ) : Int :=
  if 0 ≤ q then ⌊q⌋ else ⌈q⌉

/-- The value an `int` holds after receiving `z`, two's complement on 32 bits. -/
def toInt32 (z : Int) : Int :=
  (z + 2147483648) % 4294967296 - 2147483648

end FloatingPoint

namespace Graphics
namespace OpenGL

/-- The calls `DrawMesh` and `SetMaterialUniform` issue to OpenGL. -/
inductive DeviceCall where
  | glBindVertexArray (array : Nat)
  | glDrawElements (mode : Nat) (count : Int) (type : Nat) (indices : Nat)
  | glUniform1fv (location : Int) (count : Nat) (value : List F32)
  | glUniform2fv (location : Int) (count : Nat) (value : List F32)
  | glUniform3fv (location : Int) (count : Nat) (value : List F32)
  | glUniform4fv (location : Int) (count : Nat) (value : List F32)
  deriving DecidableEq, Repr

/-- Constant `GL_TRIANGLES`. -/
def GL_TRIANGLES : Nat := 0x0004

/-- Constant `GL_UNSIGNED_INT`. -/
def GL_UNSIGNED_INT : Nat := 0x1405

/-- Function `DrawMesh` (`Graphics.gl.cpp:1507-1536`): the calls it issues, for `float`
arithmetic with a significand of `p` bits.  `primitiveCountToRender` receives the quotient
`m_noOfIndices / 3.0f` converted to `GLsizei`. -/
def DrawMesh (p : Nat) (i_Mesh : Mesh) : List DeviceCall :=
  let mode := GL_TRIANGLES
  let indexType := GL_UNSIGNED_INT
  let offset := 0
  let primitiveCountToRender : Int :=
    FloatingPoint.toInt32 (FloatingPoint.toInt
      (FloatingPoint.div p (FloatingPoint.ofNat p i_Mesh.m_noOfIndices) 3))
  let vertexCountPerTriangle : Int := 3
  let vertexCountToRender : Int :=
    FloatingPoint.toInt32 (primitiveCountToRender * vertexCountPerTriangle)
  [.glBindVertexArray i_Mesh.m_vertexArrayID,
   .glDrawElements mode vertexCountToRender indexType offset]

/-- Function `SetMaterialUniform` (`Graphics.gl.cpp:1484-1505`): the calls it issues.  The
`switch` picks the call for the count; the call on line 1504 follows it in every case. -/
def SetMaterialUniform (i_values : List F32) (i_valueCountToSet : Nat)
    (i_uniformHandle : Int) (_i_shaderType : eShaderType) : List DeviceCall :=
  (match i_valueCountToSet with
    | 1 => [.glUniform1fv i_uniformHandle 1 i_values]
    | 2 => [.glUniform2fv i_uniformHandle 1 i_values]
    | 3 => [.glUniform3fv i_uniformHandle 1 i_values]
    | 4 => [.glUniform4fv i_uniformHandle 1 i_values]
    | _ => [])
  ++ [.glUniform2fv i_uniformHandle i_valueCountToSet i_values]

end OpenGL

namespace Direct3D

/-- The shader constant table a call goes to. -/
inductive ConstantTable where
  | fragmentShaderConstantTable
  | vertexShaderConstantTable
  deriving DecidableEq, Repr

/-- The calls `DrawMesh` and `SetMaterialUniform` issue to Direct3D. -/
inductive DeviceCall where
  | SetStreamSource (streamIndex vertexBuffer bufferOffset bufferStride : Nat)
  | SetIndices (indexBuffer : Nat)
  | DrawIndexedPrimitive (primitiveType : Nat) (baseVertexIndex : Int)
      (minVertexIndex numVertices startIndex primCount : Nat)
  | SetFloatArray (table : ConstantTable) (hConstant : Int) (pf : List F32) (count : Nat)
  deriving DecidableEq, Repr

/-- Constant `D3DPT_TRIANGLELIST`. -/
def D3DPT_TRIANGLELIST : Nat := 4

/-- Function `DrawMesh` (`Graphics.d3d.cpp:600-636`): the calls it issues, for `float`
arithmetic with a significand of `p` bits.  `primitiveCountToRender` receives the quotient
`m_noOfIndices / 3.0f` converted to `int`, then to `unsigned int`. -/
def DrawMesh (p : Nat) (i_Mesh : Mesh) : List DeviceCall :=
  let streamIndex := 0
  let bufferOffset := 0
  let primitiveType := D3DPT_TRIANGLELIST
  let indexOfFirstVertexToRender : Nat := 0
  let indexOfFirstIndexToUse := 0
  let vertexCountToRender := i_Mesh.m_noOfVertices
  let primitiveCountToRender : Nat :=
    (FloatingPoint.toInt32 (FloatingPoint.toInt
      (FloatingPoint.div p (FloatingPoint.ofNat p i_Mesh.m_noOfIndices) 3))
      % 4294967296).toNat
  [.SetStreamSource streamIndex i_Mesh.m_vertexArrayID bufferOffset bufferStride,
   .SetIndices i_Mesh.m_vertexArrayID,
   .DrawIndexedPrimitive primitiveType (Int.ofNat indexOfFirstVertexToRender)
     indexOfFirstVertexToRender vertexCountToRender indexOfFirstIndexToUse
     primitiveCountToRender]

/-- Function `SetMaterialUniform` (`Graphics.d3d.cpp:655-661`): the call it issues. -/
def SetMaterialUniform (i_values : List F32) (i_valueCountToSet : Nat)
    (i_uniformHandle : Int) (i_shaderType : eShaderType) : List DeviceCall :=
  if i_shaderType = eShaderType.fragment then
    [.SetFloatArray .fragmentShaderConstantTable i_uniformHandle i_values i_valueCountToSet]
  else
    [.SetFloatArray .vertexShaderConstantTable i_uniformHandle i_values i_valueCountToSet]

end Direct3D
end Graphics

namespace Graphics
namespace OpenGL

/-! ## `LoadEffect` in the OpenGL backend (`Graphics.gl.cpp:522-1071`) -/

/-- The two shaders `LoadEffect` builds, in the order it builds them. -/
inductive Shader where
  | fragment
  | vertex
  deriving DecidableEq, Repr

/-- The checks `LoadEffect` makes while it builds one shader, in order (fragment:
`Graphics.gl.cpp:591-754`, vertex: `763-925`). -/
inductive ShaderStep where
  /-- `glGetBooleanv (GL_SHADER_COMPILER)` answers true. -/
  | compilerSupported
  /-- `LoadAndAllocateShaderProgram` returns true. -/
  | loadSource
  /-- `glGetError` after `glCreateShader`. -/
  | shaderIdError
  /-- The id `glCreateShader` returned is not 0. -/
  | shaderIdZero
  /-- `glGetError` after `glShaderSource`. -/
  | setSource
  /-- `glGetError` after `glCompileShader`. -/
  | compile
  /-- `glGetError` after `glGetShaderiv (GL_INFO_LOG_LENGTH)`. -/
  | infoLength
  /-- `glGetError` after `glGetShaderInfoLog`. -/
  | infoLog
  /-- `glGetError` after `glGetShaderiv (GL_COMPILE_STATUS)`. -/
  | statusQuery
  /-- `didCompilationSucceed` is not `GL_FALSE`. -/
  | compiled
  /-- `glGetError` after `glAttachShader`. -/
  | attach
  deriving DecidableEq, Repr

/-- The checks of `LoadEffect` that precede the uniform lookups.  Each of them, when it
fails, prints a message and leaves the function with failure: through `goto OnExit` with
`wereThereErrors` set, or through `return false` (`createProgramError`). -/
inductive Step where
  /-- `fopen_s` on the effect file returns 0 (line 535). -/
  | openEffectFile
  /-- `malloc` returns a non-null buffer (line 555). -/
  | allocateBuffer
  /-- `glGetError` after `glCreateProgram` (line 575). -/
  | createProgramError
  /-- The id `glCreateProgram` returned is not 0 (line 583). -/
  | createProgramZero
  | shader (s : Shader) (t : ShaderStep)
  /-- `glGetError` after `glLinkProgram` (line 929). -/
  | link
  /-- `glGetError` after `glGetProgramiv (GL_INFO_LOG_LENGTH)`. -/
  | linkInfoLength
  /-- `glGetError` after `glGetProgramInfoLog`. -/
  | linkInfoLog
  /-- `glGetError` after `glGetProgramiv (GL_LINK_STATUS)`. -/
  | linkStatusQuery
  /-- `didLinkingSucceed` is not `GL_FALSE`. -/
  | linked
  deriving DecidableEq, Repr

/-- The checks of one shader, in the order the code makes them. -/
def shaderSteps (s : Shader) : List Step :=
  [.shader s .compilerSupported, .shader s .loadSource, .shader s .shaderIdError,
   .shader s .shaderIdZero, .shader s .setSource, .shader s .compile, .shader s .infoLength,
   .shader s .infoLog, .shader s .statusQuery, .shader s .compiled, .shader s .attach]

/-- All checks before the uniform lookups, in the order the code makes them. -/
def steps : List Step :=
  [.openEffectFile, .allocateBuffer, .createProgramError, .createProgramZero]
  ++ shaderSteps .fragment ++ shaderSteps .vertex
  ++ [.link, .linkInfoLength, .linkInfoLog, .linkStatusQuery, .linked]

/-- Answers of the outside world during one call of the OpenGL `LoadEffect`. -/
structure LoadEffectWorld where
  /-- Whether a check fails when the code reaches it (`createProgramZero` is decided by
  `programID`). -/
  fails : Step → Bool
  /-- What the failing check appends to its message: the text of `gluErrorString`, the
  compilation or link info, or the whole message of `LoadAndAllocateShaderProgram`. -/
  errorText : Step → String
  /-- Byte 0 of the effect file. -/
  renderStatesByte : Nat
  /-- The id `glCreateProgram` returns. -/
  programID : Nat
  /-- Call `glGetUniformLocation (m_programID, name)`. -/
  glGetUniformLocation : String → Int

/-- Whether a check fails in the given world. -/
def stepFails (w : LoadEffectWorld) : Step → Bool
  | .createProgramZero => w.programID == 0
  | step => w.fails step

/-- The name the messages use for a shader. -/
def Shader.name : Shader → String
  | .fragment => "fragment"
  | .vertex => "vertex"

/-- The message a failing check prints. -/
def message (w : LoadEffectWorld) : Step → String
  | .openEffectFile => "Failed to load/open one or more mesh File\n"
  | .allocateBuffer => "Failed to allocate memory for buffer.\n"
  | .createProgramError =>
      "OpenGL failed to create a program: " ++ w.errorText .createProgramError
  | .createProgramZero => "OpenGL failed to create a program"
  | .shader _ .compilerSupported =>
      "Compiling shaders at run-time isn't supported on this implementation " ++
      "(this should never happen)"
  | .shader s .loadSource => w.errorText (.shader s .loadSource)
  | .shader s .shaderIdError =>
      "OpenGL failed to get an unused " ++ s.name ++ " shader ID: " ++
      w.errorText (.shader s .shaderIdError)
  | .shader s .shaderIdZero => "OpenGL failed to get an unused " ++ s.name ++ " shader ID"
  | .shader s .setSource =>
      "OpenGL failed to set the " ++ s.name ++ " shader source code: " ++
      w.errorText (.shader s .setSource)
  | .shader s .compile =>
      "OpenGL failed to compile the " ++ s.name ++ " shader source code: " ++
      w.errorText (.shader s .compile)
  | .shader s .infoLength =>
      "OpenGL failed to get the length of the " ++ s.name ++ " shader compilation info: " ++
      w.errorText (.shader s .infoLength)
  | .shader s .infoLog =>
      "OpenGL failed to get compilation info of the " ++ s.name ++ " shader source code: " ++
      w.errorText (.shader s .infoLog)
  | .shader s .statusQuery =>
      "OpenGL failed to find out if compilation of the " ++ s.name ++
      " shader source code succeeded: " ++ w.errorText (.shader s .statusQuery)
  | .shader s .compiled =>
      "The " ++ s.name ++ " shader failed to compile:\n" ++ w.errorText (.shader s .compiled)
  | .shader s .attach =>
      "OpenGL failed to attach the " ++ s.name ++ " shader to the program: " ++
      w.errorText (.shader s .attach)
  | .link => "OpenGL failed to link the program: " ++ w.errorText .link
  | .linkInfoLength =>
      "OpenGL failed to get the length of the program link info: " ++
      w.errorText .linkInfoLength
  | .linkInfoLog => "OpenGL failed to get link info of the program: " ++ w.errorText .linkInfoLog
  | .linkStatusQuery =>
      "OpenGL failed to find out if linking of the program succeeded: " ++
      w.errorText .linkStatusQuery
  | .linked => "The program failed to link:\n" ++ w.errorText .linked

/-- The effect as `LoadEffect` leaves it when the given check fails: nothing is written before
the file is read; `m_renderStates` is written at line 567 and `m_programID` at line 573. -/
def effectAt (w : LoadEffectWorld) (step : Step) (i_effect : Effect) : Effect :=
  match step with
  | .openEffectFile => i_effect
  | .allocateBuffer => i_effect
  | _ => { i_effect with m_renderStates := w.renderStatesByte % 256, m_programID := w.programID }

/-- Function `LoadEffect` of the OpenGL backend (`Graphics.gl.cpp:522-1071`).  The first
check that fails ends the function with failure.  When none fails the three uniform
locations are looked up and stored (lines 1013-1015) and the function fails when one of them
is `-1` (line 1016).  The shader deletions after `OnExit` do not touch `wereThereErrors`;
they are taken to print nothing.  After some of the failing checks `OnExit` reads a local
variable that was never initialised (`skipsInitialisation`); what is given here for them is
the value computed up to `OnExit`, and `LoadEffect_returns` tells whether the call
returns. -/
def LoadEffect (w : LoadEffectWorld) (i_effect : Effect) : Loaded Effect :=
  match steps.find? (stepFails w) with
  | some step => ⟨false, effectAt w step i_effect, [message w step]⟩
  | none =>
    let effect : Effect :=
      { i_effect with
        m_renderStates := w.renderStatesByte % 256
        m_programID := w.programID
        localToWorld := w.glGetUniformLocation "g_transform_localToWorld"
        worldToView := w.glGetUniformLocation "g_transform_worldToView"
        viewToScreen := w.glGetUniformLocation "g_transform_viewToScreen" }
    if effect.localToWorld = -1 ∨ effect.worldToView = -1 ∨ effect.viewToScreen = -1 then
      ⟨false, effect, ["Failed to get uniform location "]⟩
    else
      ⟨true, effect, []⟩

end OpenGL

namespace Direct3D

/-! ## `LoadEffect` in the Direct3D backend (`Graphics.d3d.cpp:343-518`) -/

/-- Answers of the outside world during one call of the Direct3D `LoadEffect`.  A
`D3DXHANDLE` is an integer, `NULL` is 0. -/
structure LoadEffectWorld where
  /-- Whether `fopen_s` on the effect file returned 0 (line 356). -/
  fopenOk : Bool
  /-- Whether `malloc` returned a non-null buffer (line 376). -/
  mallocOk : Bool
  /-- Byte 0 of the effect file. -/
  renderStatesByte : Nat
  /-- Whether `fopen_s` on the fragment shader file returned 0 (line 400). -/
  fragmentOpenOk : Bool
  /-- Whether `malloc` for the fragment shader returned a non-null buffer (line 420). -/
  fragmentMallocOk : Bool
  /-- Whether `CreatePixelShader` succeeded, and what it leaves in `m_pixelShader`. -/
  createPixelShaderOk : Bool
  pixelShader : Nat
  /-- Whether `fopen_s` on the vertex shader file returned 0 (line 454). -/
  vertexOpenOk : Bool
  /-- Whether `malloc` for the vertex shader returned a non-null buffer (line 473). -/
  vertexMallocOk : Bool
  /-- Call `vertexShaderConstantTable->GetConstantByName (NULL, name)`. -/
  GetConstantByName : String → Int
  /-- Whether `CreateVertexShader` succeeded, and what it leaves in `m_vertexShader`. -/
  createVertexShaderOk : Bool
  vertexShader : Nat

/-- Function `LoadEffect` of the Direct3D backend (`Graphics.d3d.cpp:343-518`).  A file that
does not open or a buffer that is not allocated ends the function with failure; a failing
`CreatePixelShader`, an invalid handle and a failing `CreateVertexShader` print their message,
set `wereThereErrors` and let the function go on.  `D3DXGetShaderConstantTable` is taken to
succeed. -/
def LoadEffect (w : LoadEffectWorld) (i_effect : Effect) : Loaded Effect :=
  if w.fopenOk = false then
    ⟨false, i_effect, ["Failed to load/open one or more effect File\n"]⟩
  else if w.mallocOk = false then
    ⟨false, i_effect, ["Failed to allocate memory for buffer.\n"]⟩
  else
    let effect1 : Effect := { i_effect with m_renderStates := w.renderStatesByte % 256 }
    if w.fragmentOpenOk = false then
      ⟨false, effect1, ["Failed to load/open one or more shader File\n"]⟩
    else if w.fragmentMallocOk = false then
      ⟨false, effect1, ["Failed to allocate memory for buffer.\n"]⟩
    else
      let effect2 : Effect := { effect1 with m_pixelShader := w.pixelShader }
      let printed2 : List String :=
        if w.createPixelShaderOk then [] else ["Direct3D failed to create the fragment shader"]
      if w.vertexOpenOk = false then
        ⟨false, effect2, printed2 ++ ["Failed to load/open one or more shader File\n"]⟩
      else if w.vertexMallocOk = false then
        ⟨false, effect2, printed2 ++ ["Failed to allocate memory for buffer.\n"]⟩
      else
        let effect3 : Effect :=
          { effect2 with
            localToWorld := w.GetConstantByName "g_transform_localToWorld"
            worldToView := w.GetConstantByName "g_transform_worldToView"
            viewToScreen := w.GetConstantByName "g_transform_viewToScreen" }
        let handlesOk : Bool :=
          !(effect3.localToWorld == 0 || effect3.worldToView == 0 || effect3.viewToScreen == 0)
        let printed3 : List String :=
          if handlesOk then [] else ["Direct3D failed to get handle from constant table"]
        let effect4 : Effect := { effect3 with m_vertexShader := w.vertexShader }
        let printed4 : List String :=
          if w.createVertexShaderOk then [] else ["Direct3D failed to create the vertex shader"]
        ⟨w.createPixelShaderOk && handlesOk && w.createVertexShaderOk, effect4,
         printed2 ++ printed3 ++ printed4⟩

end Direct3D

/-- An OpenGL world in which every check passes and the three transform uniforms are found
at the locations 0, 1 and 2; any other uniform is not found. -/
def OpenGL.loadEffectWorldOk : OpenGL.LoadEffectWorld :=
  { fails := fun _ => false
    errorText := fun _ => ""
    renderStatesByte := 0
    programID := 1
    glGetUniformLocation := fun name =>
      if name = "g_transform_localToWorld" then 0
      else if name = "g_transform_worldToView" then 1
      else if name = "g_transform_viewToScreen" then 2
      else -1 }

/-- A Direct3D world in which every step succeeds and the three transform constants have the
handles 1, 2 and 3; any other constant is not found. -/
def Direct3D.loadEffectWorldOk : Direct3D.LoadEffectWorld :=
  { fopenOk := true, mallocOk := true, renderStatesByte := 0,
    fragmentOpenOk := true, fragmentMallocOk := true,
    createPixelShaderOk := true, pixelShader := 1,
    vertexOpenOk := true, vertexMallocOk := true,
    GetConstantByName := fun name =>
      if name = "g_transform_localToWorld" then 1
      else if name = "g_transform_worldToView" then 2
      else if name = "g_transform_viewToScreen" then 3
      else 0
    createVertexShaderOk := true, vertexShader := 2 }

end Graphics

namespace Graphics

/-! ## The buffers of `CreateBuffers` -/

/-- The sizes `CreateBuffers` uses for its two GPU buffers, in bytes: what it asks the device
to allocate and how much it copies into the allocation. -/
structure BufferSizes where
  vertexBufferSize : Nat
  vertexBytesCopied : Nat
  indexBufferSize : Nat
  indexBytesCopied : Nat
  deriving DecidableEq, Repr

/-- The sizes of the Direct3D `CreateBuffers` (`Graphics.d3d.cpp:137-339`) when every device
call succeeds; `size_t` has `8 * sizeofSize` bits.  The index buffer is created with
`bufferSize = m_noOfIndices * sizeof (uint32_t)` (line 156) and filled with a `memcpy` of
`m_noOfIndices * sizeof (uint32_t)` bytes (line 200); the vertex buffer is created with
`bufferSize = m_noOfIndices * sizeof (sVertex)` (line 280) and filled with a `memcpy` of
`m_noOfVertices * sizeof (sVertex)` bytes (line 327).  Both `bufferSize` variables are
`unsigned int`. -/
def Direct3D.CreateBuffers_sizes (sizeofSize : Nat) (i_mesh : Mesh) : BufferSizes :=
  { indexBufferSize := i_mesh.m_noOfIndices * 4 % 2 ^ 32
    indexBytesCopied := i_mesh.m_noOfIndices * 4 % 2 ^ (8 * sizeofSize)
    vertexBufferSize := i_mesh.m_noOfIndices * sVertex.sizeof % 2 ^ 32
    vertexBytesCopied := i_mesh.m_noOfVertices * sVertex.sizeof % 2 ^ (8 * sizeofSize) }

/-- The sizes of the OpenGL `CreateBuffers` (`Graphics.gl.cpp:166-513`) when every call
succeeds, for `float` arithmetic with a significand of `p` bits; `size_t` has
`8 * sizeofSize` bits.  Each buffer is allocated and filled by one `glBufferData` call, which
copies as many bytes as it allocates: `vertexCount * sizeof (sVertex)` with
`vertexCount = m_noOfVertices` (lines 234, 255), and
`triangleCount * vertexCountPerTriangle * sizeof (uint32_t)` with
`triangleCount = (unsigned int) (m_noOfIndices / 3.0f)` (lines 426, 441). -/
def OpenGL.CreateBuffers_sizes (p sizeofSize : Nat) (i_mesh : Mesh) : BufferSizes :=
  let vertexCount := i_mesh.m_noOfVertices
  let triangleCount : Nat :=
    (FloatingPoint.toInt (FloatingPoint.div p (FloatingPoint.ofNat p i_mesh.m_noOfIndices) 3)
      % 4294967296).toNat
  let vertexCountPerTriangle := 3
  let bufferSize := triangleCount * vertexCountPerTriangle % 2 ^ 32 * 4 % 2 ^ (8 * sizeofSize)
  { vertexBufferSize := vertexCount * sVertex.sizeof % 2 ^ (8 * sizeofSize)
    vertexBytesCopied := vertexCount * sVertex.sizeof % 2 ^ (8 * sizeofSize)
    indexBufferSize := bufferSize
    indexBytesCopied := bufferSize }

end Graphics

namespace Graphics

/-! ## The render state both backends implement -/

/-- Modelled from the spec: a blend factor of the abstract render state; `other` stands for
every factor the engine never sets. -/
inductive BlendFactor where
  | srcAlpha
  | oneMinusSrcAlpha
  | other
  deriving DecidableEq, Repr

/-- Modelled from the spec: a depth comparison of the abstract render state; `other` stands
for every comparison the engine never sets. -/
inductive DepthComparison where
  | lessEqual
  | other
  deriving DecidableEq, Repr

/-- Modelled from the spec: the abstract render state that `BindEffect` controls, the same
for both backends: blend enable, source and destination blend factors, depth-test enable,
depth comparison, depth-write enable, culling enable. -/
structure AbstractRenderState where
  blendEnable : Bool
  sourceBlend : BlendFactor
  destinationBlend : BlendFactor
  depthTestEnable : Bool
  depthComparison : DepthComparison
  depthWriteEnable : Bool
  cullingEnable : Bool
  deriving DecidableEq, Repr

/-- Modelled from the spec: two abstract states render alike when the four switches agree
and, for blending and depth testing, the parameters agree whenever the switch is on (a
blend factor has no effect while blending is off, a depth comparison none while the depth
test is off). -/
def AbstractRenderState.rendersLike (a b : AbstractRenderState) : Prop :=
  a.blendEnable = b.blendEnable ∧
  (a.blendEnable = true →
    a.sourceBlend = b.sourceBlend ∧ a.destinationBlend = b.destinationBlend) ∧
  a.depthTestEnable = b.depthTestEnable ∧
  (a.depthTestEnable = true → a.depthComparison = b.depthComparison) ∧
  a.depthWriteEnable = b.depthWriteEnable ∧
  a.cullingEnable = b.cullingEnable

/-- The abstract blend factor of an OpenGL enumerant. -/
def OpenGL.blendFactor (factor : Nat) : BlendFactor :=
  if factor = OpenGL.GL_SRC_ALPHA then .srcAlpha
  else if factor = OpenGL.GL_ONE_MINUS_SRC_ALPHA then .oneMinusSrcAlpha
  else .other

/-- The abstract render state of an OpenGL context. -/
def OpenGL.abstractState (s : OpenGL.State) : AbstractRenderState :=
  { blendEnable := s.blend
    sourceBlend := OpenGL.blendFactor s.blendSrc
    destinationBlend := OpenGL.blendFactor s.blendDst
    depthTestEnable := s.depthTest
    depthComparison := if s.depthFunc = OpenGL.GL_LEQUAL then .lessEqual else .other
    depthWriteEnable := s.depthMask
    cullingEnable := s.cullFace }

/-- The abstract blend factor of a `D3DBLEND` value. -/
def Direct3D.blendFactor (factor : Nat) : BlendFactor :=
  if factor = Direct3D.D3DBLEND_SRCALPHA then .srcAlpha
  else if factor = Direct3D.D3DBLEND_INVSRCALPHA then .oneMinusSrcAlpha
  else .other

/-- The abstract render state of a Direct3D device: a switch is on when its render state is
not `FALSE` (`D3DZB_FALSE`, `D3DCULL_NONE`). -/
def Direct3D.abstractState (s : Direct3D.State) : AbstractRenderState :=
  { blendEnable := s.alphaBlendEnable != Direct3D.FALSE
    sourceBlend := Direct3D.blendFactor s.srcBlend
    destinationBlend := Direct3D.blendFactor s.destBlend
    depthTestEnable := s.zEnable != Direct3D.D3DZB_FALSE
    depthComparison :=
      if s.zFunc = Direct3D.D3DCMP_LESSEQUAL then .lessEqual else .other
    depthWriteEnable := s.zWriteEnable != Direct3D.FALSE
    cullingEnable := s.cullMode != Direct3D.D3DCULL_NONE }

/-! ## The registry functions, backend by backend -/

/-- Function `AddRenderable` of the OpenGL backend (`Graphics.gl.cpp:135-147`): load the mesh
and the material into the renderable, pick the transparent list when the alpha bit of the
mask is set and the opaque list otherwise, `push_back` the pointer. -/
def OpenGL.AddRenderable (i_pathMesh : MeshWorld) (i_pathMaterial : MaterialWorld)
    (i_renderable : RenderablePtr) (s : Registry) : Registry :=
  let mesh := LoadMesh i_pathMesh (s.heap i_renderable).m_mesh
  let material := LoadMaterial i_pathMaterial (s.heap i_renderable).m_material
  let renderable : Renderable :=
    { s.heap i_renderable with m_mesh := mesh.value, m_material := material.value }
  let s1 : Registry :=
    { s with
      heap := fun p => if p = i_renderable then renderable else s.heap p
      output := s.output ++ mesh.printed ++ material.printed }
  if renderable.m_material.m_effect.m_renderStates &&& alpha ≠ 0 then
    { s1 with s_transparentRenderableList := s1.s_transparentRenderableList ++ [i_renderable] }
  else
    { s1 with s_opaqueRenderableList := s1.s_opaqueRenderableList ++ [i_renderable] }

/-- Function `RemoveRenderable` of the OpenGL backend (`Graphics.gl.cpp:149-164`). -/
def OpenGL.RemoveRenderable (i_renderable : RenderablePtr) (s : Registry) : Registry :=
  if (s.heap i_renderable).m_material.m_effect.m_renderStates &&& alpha ≠ 0 then
    { s with s_transparentRenderableList :=
        eraseFirstMatch i_renderable s.s_transparentRenderableList }
  else
    { s with s_opaqueRenderableList :=
        eraseFirstMatch i_renderable s.s_opaqueRenderableList }

/-- Function `AddRenderable` of the Direct3D backend (`Graphics.d3d.cpp:106-118`): load the
mesh and the material into the renderable, pick the transparent list when the alpha bit of
the mask is set and the opaque list otherwise, `push_back` the pointer. -/
def Direct3D.AddRenderable (i_pathMesh : MeshWorld) (i_pathMaterial : MaterialWorld)
    (i_renderable : RenderablePtr) (s : Registry) : Registry :=
  let mesh := LoadMesh i_pathMesh (s.heap i_renderable).m_mesh
  let material := LoadMaterial i_pathMaterial (s.heap i_renderable).m_material
  let renderable : Renderable :=
    { s.heap i_renderable with m_mesh := mesh.value, m_material := material.value }
  let s1 : Registry :=
    { s with
      heap := fun p => if p = i_renderable then renderable else s.heap p
      output := s.output ++ mesh.printed ++ material.printed }
  if renderable.m_material.m_effect.m_renderStates &&& alpha ≠ 0 then
    { s1 with s_transparentRenderableList := s1.s_transparentRenderableList ++ [i_renderable] }
  else
    { s1 with s_opaqueRenderableList := s1.s_opaqueRenderableList ++ [i_renderable] }

/-- Function `RemoveRenderable` of the Direct3D backend (`Graphics.d3d.cpp:120-135`). -/
def Direct3D.RemoveRenderable (i_renderable : RenderablePtr) (s : Registry) : Registry :=
  if (s.heap i_renderable).m_material.m_effect.m_renderStates &&& alpha ≠ 0 then
    { s with s_transparentRenderableList :=
        eraseFirstMatch i_renderable s.s_transparentRenderableList }
  else
    { s with s_opaqueRenderableList :=
        eraseFirstMatch i_renderable s.s_opaqueRenderableList }

/-- An OpenGL context in its initial state (`GL_ONE`, `GL_ZERO`, `GL_LESS`, `GL_CCW`). -/
def OpenGL.initialState : OpenGL.State :=
  { currentProgram := 0, blend := false, blendSrc := 1, blendDst := 0, depthTest := false,
    depthFunc := 0x0201, depthMask := true, cullFace := false, frontFace := OpenGL.GL_CCW }

/-- A Direct3D device in its initial state without a depth buffer (`D3DBLEND_ONE`,
`D3DBLEND_ZERO`, `D3DCMP_LESSEQUAL`, `D3DCULL_CCW`). -/
def Direct3D.initialState : Direct3D.State :=
  { vertexShader := 0, pixelShader := 0, alphaBlendEnable := 0, srcBlend := 2, destBlend := 1,
    zEnable := 0, zFunc := Direct3D.D3DCMP_LESSEQUAL, zWriteEnable := 1,
    cullMode := Direct3D.D3DCULL_CCW }

end Graphics

namespace Graphics

/-! ## `ShutDown` -/

namespace Direct3D

/-- A call `ShutDown` makes on a Direct3D object. -/
inductive ShutDownCall where
  | indexBufferRelease (m_indexBuffer : Nat)
  | vertexBufferRelease (m_vertexBuffer : Nat)
  | vertexDeclarationRelease (m_vertexDeclaration : Nat)
  | vertexShaderRelease (m_vertexShader : Nat)
  | pixelShaderRelease (m_pixelShader : Nat)
  | SetVertexDeclarationNull
  | deviceRelease
  | interfaceRelease
  deriving DecidableEq, Repr

/-- The five `Release` calls of one pass of either loop of `ShutDown`
(`Graphics.d3d.cpp:739-744`), in order.  The three mesh pointers are carried by the one handle
of the model's `Mesh`. -/
def releasesOf (r : Renderable) : List ShutDownCall :=
  [.indexBufferRelease r.m_mesh.m_vertexArrayID,
   .vertexBufferRelease r.m_mesh.m_vertexArrayID,
   .vertexDeclarationRelease r.m_mesh.m_vertexArrayID,
   .vertexShaderRelease r.m_material.m_effect.m_vertexShader,
   .pixelShaderRelease r.m_material.m_effect.m_pixelShader]

/-- One pass of either loop of `ShutDown`: `Release` is called through each pointer, which is
undefined behaviour for a pointer that is `NULL` (0). -/
def releaseRenderable (r : Renderable) : Outcome (List ShutDownCall) :=
  if r.m_mesh.m_vertexArrayID = 0 ∨ r.m_material.m_effect.m_vertexShader = 0 ∨
      r.m_material.m_effect.m_pixelShader = 0 then
    .undefinedBehaviour
  else
    .success (releasesOf r)

/-- Function `ShutDown` of the Direct3D backend (`Graphics.d3d.cpp:728-769`): the calls it
makes, for an interface and a device that are live or not.  The loops run over the opaque
list and then the transparent list; the lists and the pointers are left as they are. -/
def ShutDown (interfaceLive deviceLive : Bool) (s : Registry) : Outcome (List ShutDownCall) :=
  if interfaceLive then
    if deviceLive then
      (Outcome.forEach (fun p => releaseRenderable (s.heap p))
        s.s_opaqueRenderableList).andThen fun opaqueCalls =>
      (Outcome.forEach (fun p => releaseRenderable (s.heap p))
        s.s_transparentRenderableList).andThen fun transparentCalls =>
      .success (opaqueCalls.flatten ++ transparentCalls.flatten ++
        [.SetVertexDeclarationNull, .deviceRelease, .interfaceRelease])
    else
      .success [.interfaceRelease]
  else
    .success []

end Direct3D

namespace OpenGL

/-- A call `ShutDown` makes on an OpenGL or Windows object. -/
inductive ShutDownCall where
  | glDeleteProgram (program : Nat)
  | glDeleteVertexArrays (array : Nat)
  | wglMakeCurrentNull
  | wglDeleteContext
  | ReleaseDC
  deriving DecidableEq, Repr

/-- The two deletions of one pass of either loop of `ShutDown` (`Graphics.gl.cpp:1553`,
`1566`), in order. -/
def releasesOf (r : Renderable) : List ShutDownCall :=
  [.glDeleteProgram r.m_material.m_effect.m_programID,
   .glDeleteVertexArrays r.m_mesh.m_vertexArrayID]

/-- The renderable after one pass: both ids are set to 0 (`Graphics.gl.cpp:1562`, `1575`). -/
def released (r : Renderable) : Renderable :=
  { r with
    m_material := { r.m_material with m_effect := { r.m_material.m_effect with m_programID := 0 } }
    m_mesh := { r.m_mesh with m_vertexArrayID := 0 } }

/-- One loop of `ShutDown` over a list (`Graphics.gl.cpp:1550-1577`, `1585-1612`): the heap
afterwards and the calls made.  Each `glGetError` is taken to return `GL_NO_ERROR`. -/
def releaseList : List RenderablePtr → (RenderablePtr → Renderable) →
    (RenderablePtr → Renderable) × List ShutDownCall
  | [], heap => (heap, [])
  | p :: rest, heap =>
      let next := releaseList rest (fun q => if q = p then released (heap p) else heap q)
      (next.1, releasesOf (heap p) ++ next.2)

/-- Function `ShutDown` of the OpenGL backend (`Graphics.gl.cpp:1538-1642`): the registry
afterwards and the calls made, for a rendering context and a device context that are live or
not.  `wglMakeCurrent` and `wglDeleteContext` are taken to succeed. -/
def ShutDown (contextLive deviceContextLive : Bool) (s : Registry) :
    Registry × List ShutDownCall :=
  let afterContext : Registry × List ShutDownCall :=
    if contextLive then
      let opaquePass := releaseList s.s_opaqueRenderableList s.heap
      let transparentPass := releaseList s.s_transparentRenderableList opaquePass.1
      ({ s with heap := transparentPass.1 },
       opaquePass.2 ++ transparentPass.2 ++ [.wglMakeCurrentNull, .wglDeleteContext])
    else
      (s, [])
  if deviceContextLive then
    (afterContext.1, afterContext.2 ++ [.ReleaseDC])
  else
    afterContext

end OpenGL

/-- Every `AddRenderable` call of the sequence is made for a renderable that is in neither
list at that moment. -/
def addsFresh : List RegistryCall → Registry → Bool
  | [], _ => true
  | .add mw w r :: rest, s => !s.registered r && addsFresh rest (AddRenderable mw w r s)
  | .remove r :: rest, s => addsFresh rest (RemoveRenderable r s)

/-- The pointers registered in either list, opaque list first. -/
def Registry.all (s : Registry) : List RenderablePtr :=
  s.s_opaqueRenderableList ++ s.s_transparentRenderableList

/-- A mesh file like `quadMeshWorld` whose `CreateBuffers` stores the handle `handle`. -/
def meshWorldWithHandle (handle : Nat) : MeshWorld :=
  { quadMeshWorld with
    CreateBuffers := fun m => ⟨true, { m with m_vertexArrayID := handle }, []⟩ }

/-- A material file like `materialWorldWithMask 0` whose effect gets the program id
`program` and the shaders `program` and `program + 1`. -/
def materialWorldWithProgram (program : Nat) : MaterialWorld :=
  { materialWorldWithMask 0 with
    effect :=
      { effectWorldWithMask 0 with
        programID := program, vertexShader := program, pixelShader := program + 1 } }

end Graphics

/-! ## The Lua stack of the mesh builder -/

namespace Lua

/-- Lua API `lua_pushinteger`. -/
def lua_pushinteger (n : Int) (st : Stack) : Stack :=
  Value.number n :: st

/-- Lua API `lua_gettable (L, -2)` on a value that need not be a table: pop the key on top and
push what indexing the value below it gives; `none` when the access raises a Lua error (the
value is neither a table nor a string), which leaves the function through `longjmp`. -/
def gettable : Stack → Option Stack
  | k :: t :: rest =>
      match k.toKey with
      | some key => (index t key).map fun v => v :: t :: rest
      | none => none
  | _ => none

end Lua

namespace cMeshBuilder

/-- What `luaL_dofile` left on the stack (`cMeshBuilder.cpp:68`): the returned values, top
first, or the error message. -/
inductive DoFile where
  | ok (returned : Lua.Stack)
  | error (message : Lua.Value)

/-- One element read of `LoadVertices` or `LoadIndices` (for example
`cMeshBuilder.cpp:236-239`), with a table on top of the stack: `lua_pushinteger`,
`lua_gettable (-2)`, `lua_tonumber (-1)`, `lua_pop (1)`.  Only the stack is followed. -/
def readElement (st : Lua.Stack) (k : Nat) : Option Lua.Stack :=
  (Lua.gettable (Lua.lua_pushinteger k st)).map (Lua.lua_pop 1)

/-- One of the three blocks of the vertex loop (`cMeshBuilder.cpp:230-262`, `265-294`,
`297-343`), with the vertex entry on top of the stack: push the name, `lua_gettable (-2)`;
when the value is a table read its elements `1 .. count` and pop it, otherwise pop it and
leave for `OnExit`.  The result says whether the loop goes on. -/
def readBlock (name : String) (count : Nat) (st : Lua.Stack) : Option (Bool × Lua.Stack) :=
  (Lua.gettable (Lua.lua_pushstring name st)).bind fun st1 =>
    if Lua.lua_istable st1 then
      ((fromOne count).foldlM readElement st1).map fun st2 => (true, Lua.lua_pop 1 st2)
    else
      some (false, Lua.lua_pop 1 st1)

/-- The vertex loop of `LoadVertices` (`cMeshBuilder.cpp:221-350`), over the remaining
counter values, with the `vertices` table on top of the stack: the entry is pushed, the blocks
`position`, `uv`, `color` run, the entry is popped (line 348).  A block that fails leaves for
`OnExit` with the entry still on the stack. -/
def vertexLoop : List Nat → Lua.Stack → Option (Bool × Lua.Stack)
  | [], st => some (true, st)
  | i :: rest, st =>
      (Lua.gettable (Lua.lua_pushinteger i st)).bind fun st1 =>
      (readBlock "position" 3 st1).bind fun position =>
      if position.1 = false then some (false, position.2) else
      (readBlock "uv" 2 position.2).bind fun uv =>
      if uv.1 = false then some (false, uv.2) else
      (readBlock "color" 4 uv.2).bind fun color =>
      if color.1 = false then some (false, color.2) else
      vertexLoop rest (Lua.lua_pop 1 color.2)

/-- Function `LoadVertices` (`cMeshBuilder.cpp:206-373`) on the stack: the value returned and
the stack it leaves.  Every path ends in `OnExit`, which pops one value (line 369). -/
def LoadVertices_stack (st : Lua.Stack) : Option (Bool × Lua.Stack) :=
  (Lua.gettable (Lua.lua_pushstring "vertices" st)).bind fun st1 =>
    if Lua.lua_istable st1 then
      (st1.head?.bind Lua.len).bind fun vertexCount =>
      (vertexLoop (fromOne vertexCount) st1).map fun r => (r.1, Lua.lua_pop 1 r.2)
    else
      some (false, Lua.lua_pop 1 st1)

/-- Function `LoadIndices` (`cMeshBuilder.cpp:375-430`) on the stack: the value returned and
the stack it leaves; the loop reads the elements `1 .. indexCount` on either platform, and
the `indices` value is popped at the end (line 427). -/
def LoadIndices_stack (st : Lua.Stack) : Option (Bool × Lua.Stack) :=
  (Lua.gettable (Lua.lua_pushstring "indices" st)).bind fun st1 =>
    if Lua.lua_istable st1 then
      (st1.head?.bind Lua.len).bind fun indexCount =>
      ((fromOne indexCount).foldlM readElement st1).map fun st2 => (true, Lua.lua_pop 1 st2)
    else
      some (false, Lua.lua_pop 1 st1)

/-- The Lua stack when `Build` (`cMeshBuilder.cpp:48-202`) evaluates
`assert (lua_gettop (luaState) == 0)` at `OnExit` (line 185), for a Lua state that was
created; `none` when a Lua error ended the function before.  After a failing `LoadVertices`
or `LoadIndices` the code goes to `OnExit` directly (lines 131, 141); the asset table is
popped at line 145 only. -/
def stackAtExit : DoFile → Option Lua.Stack
  | .error message => some (Lua.lua_pop 1 [message])
  | .ok returned =>
    let returnedValueCount := returned.length
    if returnedValueCount = 1 then
      if Lua.lua_istable returned = false then
        some (Lua.lua_pop 1 returned)
      else
        (LoadVertices_stack returned).bind fun vertices =>
        if vertices.1 = false then some vertices.2 else
        (LoadIndices_stack vertices.2).bind fun indices =>
        if indices.1 = false then some indices.2 else
        some (Lua.lua_pop 1 indices.2)
    else
      some (Lua.lua_pop returnedValueCount returned)

end cMeshBuilder

namespace Examples

/-- A mesh description whose `vertices` is the number 5. -/
def meshWithoutVertexTable : Lua.Value :=
  Lua.record [("vertices", .number 5), ("indices", Lua.sequence [])]

/-- A mesh description whose only vertex has a number for `position`. -/
def meshWithoutPositionTable : Lua.Value :=
  Lua.record
    [("vertices", Lua.sequence [Lua.record [("position", .number 1)]]),
     ("indices", Lua.sequence [])]

/-- A mesh description with a vertex and without an `indices` table. -/
def meshWithoutIndexTable : Lua.Value :=
  Lua.record [("vertices", Lua.sequence [vertexEntry])]

end Examples

namespace cMeshBuilder

/-- The value the index loop of `LoadIndices` stores for the counter `i`
(`cMeshBuilder.cpp:396`, `399`, `402`, `411`): the `i`-th entry of the table, converted with
`lua_tonumber` and cast to `uint32_t`. -/
def indexValue (c : Lua.Conversions) (get : Lua.Key → Lua.Value) (i : Nat) : Nat :=
  c.toUInt32 (Lua.tonumber c (get (.int i))) % 2 ^ 32

end cMeshBuilder

namespace Examples

/-- The entries of a table of two indices, `0` and `1`. -/
def twoIndices : Lua.Key → Lua.Value :=
  fun k => if k = .int 1 then .number 0 else if k = .int 2 then .number 1 else .nil

end Examples

namespace Graphics
namespace Direct3D

/-- The device call `SetTexture` makes. -/
inductive TextureCall where
  | SetTexture (Stage : Int) (pTexture : Nat)
  deriving DecidableEq, Repr

/-- The stage a device call binds a texture to. -/
def TextureCall.stage : TextureCall → Int
  | .SetTexture Stage _ => Stage

/-- Function `SetTexture` of the Direct3D backend (`Graphics.d3d.cpp:593-598`): the device
call it makes.  `i_offset` is not used; the function returns `true`. -/
def SetTexture (i_material : Material) (_i_offset : Nat) : List TextureCall :=
  [.SetTexture i_material.m_texHandle i_material.m_3dTexture]

end Direct3D
end Graphics

namespace cEffectBuilder

/-- One path block of `Build` (`cEffectBuilder.cpp:109-115`, `116-122`), with the asset table
on top of the stack: push the key, `lua_gettable (-2)`, `lua_tostring (-1)`, `lua_pop (1)`.
Only the stack is followed. -/
def readPath (key : String) (st : Lua.Stack) : Lua.Stack :=
  Lua.lua_pop 1 (Lua.lua_gettable (Lua.lua_pushstring key st))

/-- The Lua stack when `Build` (`cEffectBuilder.cpp:30-218`) evaluates
`assert (lua_gettop (luaState) == 0)` at `OnExit` (line 211), for a Lua state that was created
and for what `luaL_dofile` left on the stack: the two path blocks, the render-states block and
the `lua_pop` of line 174. -/
def stackAtExit : cMeshBuilder.DoFile → Lua.Stack
  | .error message => Lua.lua_pop 1 [message]
  | .ok returned =>
    let returnedValueCount := returned.length
    if returnedValueCount = 1 then
      if Lua.lua_istable returned = false then
        Lua.lua_pop 1 returned
      else
        Lua.lua_pop 1 (readRenderStates (readPath "fragment" (readPath "vertex" returned))).2
    else
      Lua.lua_pop returnedValueCount returned

end cEffectBuilder

namespace cMaterialBuilder

/-- One string read of `Build` (for example `cMaterialBuilder.cpp:133-139`), with a value on
top of the stack: push the key, `lua_gettable (-2)`, `lua_tostring (-1)`, `lua_pop (1)`.
Only the stack is followed. -/
def readString (key : String) (st : Lua.Stack) : Option Lua.Stack :=
  (Lua.gettable (Lua.lua_pushstring key st)).map (Lua.lua_pop 1)

/-- The uniform loop of `Build` (`cMaterialBuilder.cpp:155-203`) on the stack, over the
remaining counter values, with the `uniforms` value on top: the entry is pushed, its
`handleName` and `shaderType` are read, its `values` are pushed, read element by element and
popped (line 198), the entry is popped (line 200). -/
def uniformLoop : List Nat → Lua.Stack → Option Lua.Stack
  | [], st => some st
  | i :: rest, st =>
      (Lua.gettable (Lua.lua_pushinteger i st)).bind fun entry =>
      (readString "handleName" entry).bind fun entry1 =>
      (readString "shaderType" entry1).bind fun entry2 =>
      (Lua.gettable (Lua.lua_pushstring "values" entry2)).bind fun values =>
      (values.head?.bind Lua.len).bind fun length =>
      ((fromOne (length % 256)).foldlM cMeshBuilder.readElement values).bind fun values1 =>
      uniformLoop rest (Lua.lua_pop 1 (Lua.lua_pop 1 values1))

/-- The Lua stack when `Build` (`cMaterialBuilder.cpp:50-297`) evaluates
`assert (lua_gettop (luaState) == 0)` at `OnExit` (line 290), for a Lua state that was created
and for what `luaL_dofile` left on the stack; `none` when a Lua error ended the function
before. -/
def stackAtExit : cMeshBuilder.DoFile → Option Lua.Stack
  | .error message => some (Lua.lua_pop 1 [message])
  | .ok returned =>
    let returnedValueCount := returned.length
    if returnedValueCount = 1 then
      if Lua.lua_istable returned = false then
        some (Lua.lua_pop 1 returned)
      else
        (readString "effect" returned).bind fun st1 =>
        (Lua.gettable (Lua.lua_pushstring "uniforms" st1)).bind fun uniforms =>
        (uniforms.head?.bind Lua.len).bind fun length =>
        (uniformLoop (fromOne (length % 256)) uniforms).bind fun uniforms1 =>
        (Lua.gettable (Lua.lua_pushstring "textures" (Lua.lua_pop 1 uniforms1))).bind
          fun textures =>
        (readString "handleName" textures).bind fun textures1 =>
        (readString "path" textures1).bind fun textures2 =>
        some (Lua.lua_pop 1 (Lua.lua_pop 1 textures2))
    else
      some (Lua.lua_pop returnedValueCount returned)

end cMaterialBuilder

namespace Graphics

/-! ## `LoadMaterial` in each backend, with the calls that do not return -/

/-- How a call of `LoadMaterial` ends. -/
inductive Ending (α : Type) where
  /-- The call reads a local variable whose initialisation was jumped over, or calls through
  a pointer that was never set: undefined behaviour in C++, the call is not taken to
  return. -/
  | undefinedBehaviour
  /-- The call returns, with the value, the object and the messages of `Loaded`. -/
  | returned (result : Loaded α)

namespace OpenGL

/-- Whether a failing check of `LoadEffect` leaves through a `goto OnExit` that jumps over the
initialisation of a local variable `OnExit` reads: `fragmentShaderId` and `shaderSource` are
initialised at `Graphics.gl.cpp:605-606` and `vertexShaderId` at line 777, and `OnExit` tests
all three (lines 1029, 1047, 1064).  Every `goto OnExit` above line 777 is such a jump; the
failing `glCreateProgram` leaves through `return false` (line 581) and reads nothing. -/
def skipsInitialisation : Step → Bool
  | .openEffectFile => true
  | .allocateBuffer => true
  | .createProgramError => false
  | .createProgramZero => true
  | .shader .fragment _ => true
  | .shader .vertex .compilerSupported => true
  | .shader .vertex _ => false
  | .link => false
  | .linkInfoLength => false
  | .linkInfoLog => false
  | .linkStatusQuery => false
  | .linked => false

/-- Whether the call of `LoadEffect` returns: no check fails, or the first check that fails
leaves without reading an uninitialised local. -/
def LoadEffect_returns (w : LoadEffectWorld) : Bool :=
  match steps.find? (stepFails w) with
  | some step => !skipsInitialisation step
  | none => true

/-- Answers of the outside world during one call of `LoadMaterial` in the OpenGL backend. -/
structure MaterialWorld where
  /-- Whether `fopen_s` on the material file returned 0. -/
  fopenOk : Bool
  /-- Whether `malloc` returned a non-null buffer. -/
  mallocOk : Bool
  /-- World of the nested `LoadEffect (i_effectPath, i_material.m_effect)`. -/
  effect : LoadEffectWorld
  /-- World of `LoadTexture`: `none` when the texture file cannot be opened, sized, buffered
  or read or no texture name is generated (`Graphics.gl.cpp:1091-1156`, `1183-1193`), else
  the name under which the texture was generated and filled.  A failure after a name was
  generated is not described by this record. -/
  texture : Option Nat
  /-- The texture handle name of the file. -/
  i_textureHandle : String
  /-- The count byte of the file. -/
  noOfUniforms : Nat
  /-- The uniform records copied from the file. -/
  uniforms : List sUniformHelper
  /-- The name of the uniform number `i` in the file. -/
  uniformNamesArray : Nat → String

/-- Function `LoadTexture` of the OpenGL backend (`Graphics.gl.cpp:1073-1353`): it writes 0
to `m_3dTexture` first (line 1078), returns `false` when the file cannot be loaded and
`true` with the texture name stored otherwise.  Its `o_errorMessage` is `NULL` (line 1079),
so it prints nothing. -/
def LoadTexture (w : MaterialWorld) (i_material : Material) : Loaded Material :=
  match w.texture with
  | none => ⟨false, { i_material with m_3dTexture := 0 }, []⟩
  | some texture => ⟨true, { i_material with m_3dTexture := texture }, []⟩

/-- Function `LoadSamplerID` of the OpenGL backend (`Graphics.gl.cpp:1355-1360`). -/
def LoadSamplerID (w : MaterialWorld) (i_uniformName : String) (i_material : Material) :
    Loaded Material :=
  ⟨true, { i_material with m_texHandle := w.effect.glGetUniformLocation i_uniformName }, []⟩

/-- Function `GetUniform` of the OpenGL backend (`Graphics.gl.cpp:1372-1375`). -/
def GetUniform (w : MaterialWorld) (i_uniformName : String) (_i_shaderType : eShaderType) :
    Int :=
  w.effect.glGetUniformLocation i_uniformName

/-- Function `LoadMaterial` (`Graphics.cpp:204-314`) compiled for OpenGL.  The values
returned by `LoadEffect`, `LoadTexture` and `LoadSamplerID` are discarded (lines 251, 269,
272); after the two early exits `wereThereErrors` is never set.  The call does not return
when the nested `LoadEffect` does not.  A record the file is too short to hold is read as
zeroes. -/
def LoadMaterial (w : MaterialWorld) (i_material : Material) : Ending Material :=
  if w.fopenOk = false then
    .returned ⟨false, i_material, ["Failed to load/open one or more mesh File\n"]⟩
  else if w.mallocOk = false then
    .returned ⟨false, i_material, ["Failed to allocate memory for buffer.\n"]⟩
  else if LoadEffect_returns w.effect = false then
    .undefinedBehaviour
  else
    let eff := LoadEffect w.effect i_material.m_effect
    let textured := LoadTexture w { i_material with m_effect := eff.value }
    let sampled := LoadSamplerID w w.i_textureHandle textured.value
    let n := w.noOfUniforms % 256
    let copied := w.uniforms.take n
    let resolved := (List.range n).map fun i =>
      let u := copied.getD i default
      { u with uniformHandle := GetUniform w (w.uniformNamesArray i) u.shaderType }
    .returned
      ⟨true, { sampled.value with m_uniforms := resolved, m_noOfUniforms := n },
       eff.printed ++ textured.printed ++ sampled.printed⟩

/-- The record `Graphics.MaterialWorld` of a call in the OpenGL backend. -/
def MaterialWorld.summary (w : MaterialWorld) (i_material : Material) :
    Graphics.MaterialWorld :=
  let eff := LoadEffect w.effect i_material.m_effect
  { fopenOk := w.fopenOk
    mallocOk := w.mallocOk
    effect :=
      { renderStatesByte := eff.value.m_renderStates
        programOk := eff.ok
        programID := eff.value.m_programID
        vertexShader := eff.value.m_vertexShader
        pixelShader := eff.value.m_pixelShader
        localToWorld := eff.value.localToWorld
        worldToView := eff.value.worldToView
        viewToScreen := eff.value.viewToScreen
        programPrinted := eff.printed }
    texture := (LoadTexture w i_material).value.m_3dTexture
    texturePrinted := []
    textureOk := (LoadTexture w i_material).ok
    texHandle := w.effect.glGetUniformLocation w.i_textureHandle
    noOfUniforms := w.noOfUniforms
    uniforms := w.uniforms
    GetUniform := fun _ i i_shaderType => GetUniform w (w.uniformNamesArray i) i_shaderType }

end OpenGL

namespace Direct3D

/-- Whether `LoadEffect` reached `D3DXGetShaderConstantTable` for the fragment shader
(`Graphics.d3d.cpp:432`), which sets `fragmentShaderConstantTable`.  The field has no
initialiser (`Graphics.h:71`). -/
def fragmentTableSet (w : LoadEffectWorld) : Bool :=
  w.fopenOk && w.mallocOk && w.fragmentOpenOk && w.fragmentMallocOk

/-- Whether `LoadEffect` reached `D3DXGetShaderConstantTable` for the vertex shader
(`Graphics.d3d.cpp:484`), which sets `vertexShaderConstantTable` (`Graphics.h:70`). -/
def vertexTableSet (w : LoadEffectWorld) : Bool :=
  fragmentTableSet w && w.vertexOpenOk && w.vertexMallocOk

/-- Answers of the outside world during one call of `LoadMaterial` in the Direct3D
backend. -/
structure MaterialWorld where
  /-- Whether `fopen_s` on the material file returned 0. -/
  fopenOk : Bool
  /-- Whether `malloc` returned a non-null buffer. -/
  mallocOk : Bool
  /-- World of the nested `LoadEffect (i_effectPath, i_material.m_effect)`; its
  `GetConstantByName` answers for the vertex shader constant table. -/
  effect : LoadEffectWorld
  /-- Whether `D3DXCreateTextureFromFileEx` succeeded, and what it leaves in
  `m_3dTexture`. -/
  createTextureOk : Bool
  texture : Nat
  /-- The texture handle name of the file. -/
  i_textureHandle : String
  /-- Call `fragmentShaderConstantTable->GetConstantByName (NULL, name)`. -/
  fragmentGetConstantByName : String → Int
  /-- Call `fragmentShaderConstantTable->GetSamplerIndex (handle)`. -/
  GetSamplerIndex : Int → Nat
  /-- The count byte of the file. -/
  noOfUniforms : Nat
  /-- The uniform records copied from the file. -/
  uniforms : List sUniformHelper
  /-- The name of the uniform number `i` in the file. -/
  uniformNamesArray : Nat → String

/-- Function `LoadTexture` of the Direct3D backend (`Graphics.d3d.cpp:520-536`): the
`HRESULT` is stored and not looked at, the function returns `true`. -/
def LoadTexture (w : MaterialWorld) (i_material : Material) : Loaded Material :=
  ⟨true, { i_material with m_3dTexture := w.texture }, []⟩

/-- Function `LoadSamplerID` of the Direct3D backend (`Graphics.d3d.cpp:585-591`): two calls
through `fragmentShaderConstantTable`; `none` when the table was never set. -/
def LoadSamplerID (w : MaterialWorld) (i_uniformName : String) (i_material : Material) :
    Option (Loaded Material) :=
  if fragmentTableSet w.effect then
    let m_handle := w.fragmentGetConstantByName i_uniformName
    some ⟨true,
          { i_material with
            m_texHandle := ((w.GetSamplerIndex m_handle % 2 ^ 32 : Nat) : Int) },
          []⟩
  else none

/-- Function `GetUniform` of the Direct3D backend (`Graphics.d3d.cpp:538-544`): a call
through the constant table of the shader type; `none` when that table was never set. -/
def GetUniform (w : MaterialWorld) (i_uniformName : String) (i_shaderType : eShaderType) :
    Option Int :=
  if i_shaderType = eShaderType.fragment then
    if fragmentTableSet w.effect then some (w.fragmentGetConstantByName i_uniformName) else none
  else
    if vertexTableSet w.effect then some (w.effect.GetConstantByName i_uniformName) else none

/-- The uniform loop of `LoadMaterial` (`Graphics.cpp:296-299`) over the counters `i` that
remain and the records copied from the file; `none` when a `GetUniform` calls through an
unset table. -/
def resolveUniforms (w : MaterialWorld) (copied : List sUniformHelper) :
    List Nat → Option (List sUniformHelper)
  | [] => some []
  | i :: rest =>
    let u := copied.getD i default
    match GetUniform w (w.uniformNamesArray i) u.shaderType with
    | none => none
    | some handle =>
      match resolveUniforms w copied rest with
      | none => none
      | some resolved => some ({ u with uniformHandle := handle } :: resolved)

/-- Function `LoadMaterial` (`Graphics.cpp:204-314`) compiled for Direct3D.  The values
returned by `LoadEffect`, `LoadTexture` and `LoadSamplerID` are discarded (lines 251, 269,
272); after the two early exits `wereThereErrors` is never set.  The call does not return
when `LoadSamplerID` or a `GetUniform` calls through a constant table the failed
`LoadEffect` never set; the `Effect` is taken to be one no earlier `LoadEffect` has filled,
a table pointer left by an earlier call is not modelled.  A record the file is too short to
hold is read as zeroes. -/
def LoadMaterial (w : MaterialWorld) (i_material : Material) : Ending Material :=
  if w.fopenOk = false then
    .returned ⟨false, i_material, ["Failed to load/open one or more mesh File\n"]⟩
  else if w.mallocOk = false then
    .returned ⟨false, i_material, ["Failed to allocate memory for buffer.\n"]⟩
  else
    let eff := LoadEffect w.effect i_material.m_effect
    let textured := LoadTexture w { i_material with m_effect := eff.value }
    match LoadSamplerID w w.i_textureHandle textured.value with
    | none => .undefinedBehaviour
    | some sampled =>
      let n := w.noOfUniforms % 256
      match resolveUniforms w (w.uniforms.take n) (List.range n) with
      | none => .undefinedBehaviour
      | some resolved =>
        .returned
          ⟨true, { sampled.value with m_uniforms := resolved, m_noOfUniforms := n },
           eff.printed ++ textured.printed ++ sampled.printed⟩

/-- Whether every call of the Direct3D `LoadMaterial` after the file is read goes through a
constant table that `LoadEffect` has set: the fragment table for `LoadSamplerID` and the
fragment uniforms, the vertex table for the vertex uniforms. -/
def tablesSet (w : MaterialWorld) : Bool :=
  fragmentTableSet w.effect &&
  (List.range (w.noOfUniforms % 256)).all fun i =>
    decide (((w.uniforms.take (w.noOfUniforms % 256)).getD i default).shaderType
      = eShaderType.fragment) || vertexTableSet w.effect

/-- The handle the Direct3D `GetUniform` returns when the table is set. -/
def uniformHandleOf (w : MaterialWorld) (i_uniformName : String) (i_shaderType : eShaderType) :
    Int :=
  if i_shaderType = eShaderType.fragment then w.fragmentGetConstantByName i_uniformName
  else w.effect.GetConstantByName i_uniformName

/-- The record `Graphics.MaterialWorld` of a call in the Direct3D backend. -/
def MaterialWorld.summary (w : MaterialWorld) (i_material : Material) :
    Graphics.MaterialWorld :=
  let eff := LoadEffect w.effect i_material.m_effect
  { fopenOk := w.fopenOk
    mallocOk := w.mallocOk
    effect :=
      { renderStatesByte := eff.value.m_renderStates
        programOk := eff.ok
        programID := eff.value.m_programID
        vertexShader := eff.value.m_vertexShader
        pixelShader := eff.value.m_pixelShader
        localToWorld := eff.value.localToWorld
        worldToView := eff.value.worldToView
        viewToScreen := eff.value.viewToScreen
        programPrinted := eff.printed }
    texture := w.texture
    texturePrinted := []
    textureOk := true
    texHandle :=
      ((w.GetSamplerIndex (w.fragmentGetConstantByName w.i_textureHandle) % 2 ^ 32 : Nat) : Int)
    noOfUniforms := w.noOfUniforms
    uniforms := w.uniforms
    GetUniform := fun _ i i_shaderType => uniformHandleOf w (w.uniformNamesArray i) i_shaderType }

end Direct3D

/-! ### Concrete material worlds of the two backends -/

/-- An OpenGL material file that opens, without uniforms, whose effect builds except that
`g_transform_worldToView` is not found in the linked program, and whose texture file cannot
be opened. -/
def OpenGL.materialWorldMissingUniform : OpenGL.MaterialWorld :=
  { fopenOk := true, mallocOk := true
    effect :=
      { OpenGL.loadEffectWorldOk with
        glGetUniformLocation := fun name => if name = "g_transform_worldToView" then -1 else 0 }
    texture := none
    i_textureHandle := "g_color_sampler"
    noOfUniforms := 0, uniforms := [], uniformNamesArray := fun _ => "" }

/-- An OpenGL material file that opens and whose effect file cannot be opened. -/
def OpenGL.materialWorldMissingEffect : OpenGL.MaterialWorld :=
  { OpenGL.materialWorldMissingUniform with
    effect := { OpenGL.loadEffectWorldOk with fails := fun step => step = .openEffectFile } }

/-- A Direct3D material file that opens, with one fragment uniform, whose effect builds
except that `CreatePixelShader` fails and `g_transform_worldToView` has no handle, and whose
texture is not created. -/
def Direct3D.materialWorldMissingUniform : Direct3D.MaterialWorld :=
  { fopenOk := true, mallocOk := true
    effect :=
      { Direct3D.loadEffectWorldOk with
        createPixelShaderOk := false
        GetConstantByName := fun name => if name = "g_transform_worldToView" then 0 else 1 }
    createTextureOk := false
    texture := 0
    i_textureHandle := "g_color_sampler"
    fragmentGetConstantByName := fun _ => 1
    GetSamplerIndex := fun _ => 0
    noOfUniforms := 1
    uniforms := [{ uniformHandle := 0, values := [0, 0, 0, 0], valueCountToSet := 1,
                   shaderType := .fragment }]
    uniformNamesArray := fun _ => "g_color" }

/-- A Direct3D material file that opens and whose effect file cannot be opened. -/
def Direct3D.materialWorldMissingEffect : Direct3D.MaterialWorld :=
  { Direct3D.materialWorldMissingUniform with
    effect := { Direct3D.loadEffectWorldOk with fopenOk := false } }

end Graphics

namespace Examples

/-- Conversions that give the numbers 1 and 2 their `float` bit patterns `0x3F800000` and
`0x40000000`, and 0 to every other number; the other conversions are as in
`zeroConversions`. -/
def smallFloatConversions : Lua.Conversions :=
  { zeroConversions with
    toFloat := fun q => if q = 1 then 1065353216 else if q = 2 then 1073741824 else 0 }

end Examples

end eae6320

/-! # Theorems -/

namespace eae6320
namespace Graphics

/-! ## Bit tests -/

/-- Masking with a single bit is nonzero exactly when that bit is set. -/
theorem land_shift_ne_zero_iff (m k : Nat) : m &&& (1 <<< k) ≠ 0 ↔ m.testBit k = true := by
  rw [Nat.one_shiftLeft, Nat.and_two_pow]
  cases h : m.testBit k
  · simp
  · simp [Nat.pos_pow_of_pos]

/-- The alpha test of the registry reads bit 0 of the mask. -/
theorem hasAlpha_eq_testBit (m : Nat) : hasAlpha m = m.testBit 0 := by
  have h := land_shift_ne_zero_iff m 0
  simp only [Nat.shiftLeft_zero] at h
  unfold hasAlpha alpha
  cases hb : m.testBit 0
  · have : ¬ (m &&& 1 ≠ 0) := fun hne => by simpa [hb] using h.mp hne
    simpa using this
  · have : m &&& 1 ≠ 0 := h.mpr hb
    simpa using this

/-! ## List facts for the registry -/

/-- The removal loop is the library's first-occurrence erase. -/
theorem eraseFirstMatch_eq_erase (r : RenderablePtr) (l : List RenderablePtr) :
    eraseFirstMatch r l = l.erase r := by
  induction l with
  | nil => rfl
  | cons x rest ih =>
    by_cases hx : x = r
    · subst hx
      simp [eraseFirstMatch]
    · have hbeq : (x == r) = false := by simpa using hx
      simp [eraseFirstMatch, hx, List.erase_cons, hbeq, ih]

/-- The registration test in terms of membership. -/
theorem registered_iff (s : Registry) (r : RenderablePtr) :
    s.registered r = true ↔
      r ∈ s.s_opaqueRenderableList ∨ r ∈ s.s_transparentRenderableList := by
  simp [Registry.registered]

/-- The two forms of the invariant agree. -/
theorem partitionInvariant_iff_sorted (s : Registry) : PartitionInvariant s ↔ Sorted s := by
  constructor
  · intro h
    refine ⟨fun x hx => ?_, fun x hx => ?_⟩
    · exact (h x ((registered_iff s x).2 (Or.inl hx))).1.1 hx
    · exact (h x ((registered_iff s x).2 (Or.inr hx))).2.1.1 hx
  · rintro ⟨ho, ht⟩ x _
    refine ⟨⟨ho x, fun hb => ?_⟩, ⟨ht x, fun hb => ?_⟩, ?_⟩
    · by_contra hno
      rcases (registered_iff s x).1 ‹_› with h | h
      · exact hno h
      · rw [ht x h] at hb
        exact Bool.noConfusion hb
    · by_contra hno
      rcases (registered_iff s x).1 ‹_› with h | h
      · rw [ho x h] at hb
        exact Bool.noConfusion hb
      · exact hno h
    · rintro ⟨h1, h2⟩
      have := ho x h1
      rw [ht x h2] at this
      exact Bool.noConfusion this

/-! ## Preservation of the partition invariant -/

/-- Reading the mask after `AddRenderable`: the loaded one at the added pointer, the old one
elsewhere. -/
theorem renderStates_AddRenderable (mw : MeshWorld) (w : MaterialWorld)
    (r x : RenderablePtr) (s : Registry) :
    (AddRenderable mw w r s).renderStates x =
      if x = r then (LoadMaterial w (s.heap r).m_material).value.m_effect.m_renderStates
      else s.renderStates x := by
  have hheap : (AddRenderable mw w r s).heap x =
      if x = r then
        { s.heap r with m_mesh := (LoadMesh mw (s.heap r).m_mesh).value,
                        m_material := (LoadMaterial w (s.heap r).m_material).value }
      else s.heap x := by
    simp only [AddRenderable]
    by_cases hb :
        hasAlpha (LoadMaterial w (s.heap r).m_material).value.m_effect.m_renderStates = true
    · rw [if_pos hb]
    · rw [if_neg hb]
  unfold Registry.renderStates
  rw [hheap]
  by_cases hx : x = r
  · simp only [hx, if_true]
  · simp only [hx, if_false]

/-- The opaque list after `AddRenderable`. -/
theorem opaque_AddRenderable (mw : MeshWorld) (w : MaterialWorld)
    (r : RenderablePtr) (s : Registry) :
    (AddRenderable mw w r s).s_opaqueRenderableList =
      if ((LoadMaterial w (s.heap r).m_material).value.m_effect.m_renderStates).testBit 0 then
        s.s_opaqueRenderableList
      else s.s_opaqueRenderableList ++ [r] := by
  unfold AddRenderable
  simp only [hasAlpha_eq_testBit]
  split <;> rfl

/-- The transparent list after `AddRenderable`. -/
theorem transparent_AddRenderable (mw : MeshWorld) (w : MaterialWorld) (r : RenderablePtr)
    (s : Registry) :
    (AddRenderable mw w r s).s_transparentRenderableList =
      if ((LoadMaterial w (s.heap r).m_material).value.m_effect.m_renderStates).testBit 0 then
        s.s_transparentRenderableList ++ [r]
      else s.s_transparentRenderableList := by
  unfold AddRenderable
  simp only [hasAlpha_eq_testBit]
  split <;> rfl

/-- The mask read through any pointer is untouched by `RemoveRenderable`. -/
theorem renderStates_RemoveRenderable (r x : RenderablePtr) (s : Registry) :
    (RemoveRenderable r s).renderStates x = s.renderStates x := by
  unfold RemoveRenderable Registry.renderStates
  split <;> rfl

/-- The opaque list after `RemoveRenderable`. -/
theorem opaque_RemoveRenderable (r : RenderablePtr) (s : Registry) :
    (RemoveRenderable r s).s_opaqueRenderableList =
      if (s.renderStates r).testBit 0 then s.s_opaqueRenderableList
      else s.s_opaqueRenderableList.erase r := by
  unfold RemoveRenderable
  simp only [hasAlpha_eq_testBit, ← eraseFirstMatch_eq_erase]
  split <;> rfl

/-- The transparent list after `RemoveRenderable`. -/
theorem transparent_RemoveRenderable (r : RenderablePtr) (s : Registry) :
    (RemoveRenderable r s).s_transparentRenderableList =
      if (s.renderStates r).testBit 0 then s.s_transparentRenderableList.erase r
      else s.s_transparentRenderableList := by
  unfold RemoveRenderable
  simp only [hasAlpha_eq_testBit, ← eraseFirstMatch_eq_erase]
  split <;> rfl

/-- Removal keeps the lists sorted by alpha bit. -/
theorem sorted_RemoveRenderable (r : RenderablePtr) (s : Registry) (h : Sorted s) :
    Sorted (RemoveRenderable r s) := by
  obtain ⟨ho, ht⟩ := h
  refine ⟨fun x hx => ?_, fun x hx => ?_⟩
  · rw [renderStates_RemoveRenderable]
    rw [opaque_RemoveRenderable] at hx
    split at hx
    · exact ho x hx
    · exact ho x (List.mem_of_mem_erase hx)
  · rw [renderStates_RemoveRenderable]
    rw [transparent_RemoveRenderable] at hx
    split at hx
    · exact ht x (List.mem_of_mem_erase hx)
    · exact ht x hx

/-- An allowed `AddRenderable` keeps the lists sorted by alpha bit. -/
theorem sorted_AddRenderable (mw : MeshWorld) (w : MaterialWorld)
    (r : RenderablePtr) (s : Registry) (h : Sorted s) (hok : addAllowed w r s = true) :
    Sorted (AddRenderable mw w r s) := by
  obtain ⟨ho, ht⟩ := h
  have hguard : (r ∈ s.s_opaqueRenderableList ∨ r ∈ s.s_transparentRenderableList) →
      ((LoadMaterial w (s.heap r).m_material).value.m_effect.m_renderStates).testBit 0
        = (s.renderStates r).testBit 0 := by
    intro hreg
    have hr := (registered_iff s r).2 hreg
    simpa [addAllowed, hr, hasAlpha_eq_testBit] using hok
  refine ⟨fun x hx => ?_, fun x hx => ?_⟩
  · rw [renderStates_AddRenderable]
    rw [opaque_AddRenderable] at hx
    by_cases hxr : x = r
    · subst hxr
      simp only [if_true]
      cases hb : ((LoadMaterial w (s.heap x).m_material).value.m_effect.m_renderStates).testBit 0
      · rfl
      · rw [hb] at hx
        simp only [if_true] at hx
        rw [hguard (Or.inl hx), ho x hx] at hb
        exact Bool.noConfusion hb
    · simp only [hxr, if_false]
      split at hx
      · exact ho x hx
      · rcases List.mem_append.1 hx with h1 | h1
        · exact ho x h1
        · exact absurd (List.mem_singleton.1 h1) hxr
  · rw [renderStates_AddRenderable]
    rw [transparent_AddRenderable] at hx
    by_cases hxr : x = r
    · subst hxr
      simp only [if_true]
      cases hb : ((LoadMaterial w (s.heap x).m_material).value.m_effect.m_renderStates).testBit 0
      · rw [hb] at hx
        simp only [Bool.false_eq_true, if_false] at hx
        rw [hguard (Or.inr hx), ht x hx] at hb
        exact Bool.noConfusion hb
      · rfl
    · simp only [hxr, if_false]
      split at hx
      · rcases List.mem_append.1 hx with h1 | h1
        · exact ht x h1
        · exact absurd (List.mem_singleton.1 h1) hxr
      · exact ht x hx

/-- A sequence of allowed calls keeps the lists sorted by alpha bit. -/
theorem sorted_runCalls (calls : List RegistryCall) :
    ∀ s : Registry, Sorted s → callsAllowed calls s = true → Sorted (runCalls calls s) := by
  induction calls with
  | nil => intro s h _; exact h
  | cons c rest ih =>
    intro s h hok
    cases c with
    | add mw w r =>
      simp only [callsAllowed, Bool.and_eq_true] at hok
      exact ih _ (sorted_AddRenderable mw w r s h hok.1) hok.2
    | remove r =>
      simp only [callsAllowed] at hok
      exact ih _ (sorted_RemoveRenderable r s h) hok

/-! ## C1: the partition invariant -/

/-- C1, as stated, fails: registering the renderable at address 7 with an opaque material
(mask 0) and then again with a transparent one (mask 1) reaches, from two empty lists, a
state in which it sits in both lists. -/
theorem partition_invariant_counterexample :
    ¬ PartitionInvariant
        (runCalls
          [RegistryCall.add quadMeshWorld (materialWorldWithMask 0) 7,
           RegistryCall.add quadMeshWorld (materialWorldWithMask 1) 7]
          (Registry.empty zeroHeap)) := by
  intro h
  have h7 := h 7 (by decide)
  exact h7.2.2 ⟨by decide, by decide⟩

/-- C1, amended: starting from two empty lists, after any sequence of `AddRenderable` and
`RemoveRenderable` calls in which every `AddRenderable` is made for a renderable that is in
neither list at that moment, or loads a material with the alpha bit the renderable already
has, every registered renderable is in the opaque list iff bit 0 of its effect mask is 0, in
the transparent list iff that bit is 1, and never in both. -/
theorem partition_invariant_of_allowed_calls (calls : List RegistryCall)
    (heap : RenderablePtr → Renderable)
    (hallowed : callsAllowed calls (Registry.empty heap) = true) :
    PartitionInvariant (runCalls calls (Registry.empty heap)) := by
  rw [partitionInvariant_iff_sorted]
  refine sorted_runCalls calls _ ⟨fun x hx => ?_, fun x hx => ?_⟩ hallowed
  · exact absurd hx (List.not_mem_nil x)
  · exact absurd hx (List.not_mem_nil x)

/-- Witness for C1 amended: add 7 (opaque), add 8 (transparent), remove 7, add 7 again as
transparent, add 8 once more with a transparent material. -/
theorem partition_invariant_of_allowed_calls_witness :
    callsAllowed
        [RegistryCall.add quadMeshWorld (materialWorldWithMask 0) 7,
         RegistryCall.add quadMeshWorld (materialWorldWithMask 1) 8,
         RegistryCall.remove 7,
         RegistryCall.add quadMeshWorld (materialWorldWithMask 9) 7,
         RegistryCall.add quadMeshWorld (materialWorldWithMask 3) 8]
        (Registry.empty zeroHeap) = true ∧
    PartitionInvariant
      (runCalls
        [RegistryCall.add quadMeshWorld (materialWorldWithMask 0) 7,
         RegistryCall.add quadMeshWorld (materialWorldWithMask 1) 8,
         RegistryCall.remove 7,
         RegistryCall.add quadMeshWorld (materialWorldWithMask 9) 7,
         RegistryCall.add quadMeshWorld (materialWorldWithMask 3) 8]
        (Registry.empty zeroHeap)) :=
  ⟨by decide, partition_invariant_of_allowed_calls _ _ (by decide)⟩

/-! ## C2: postcondition of `AddRenderable` -/

/-- C2: for every registry state and renderable, with `m` the effect mask the renderable
holds after the loads of `AddRenderable` (the mask `LoadMaterial` left in it): if bit 0 of `m`
is set the transparent list is the old one with the renderable appended and the opaque list
is unchanged, otherwise the opaque list is the old one with the renderable appended and the
transparent list is unchanged. -/
theorem AddRenderable_postcondition (mw : MeshWorld) (w : MaterialWorld) (r : RenderablePtr)
    (s : Registry) :
    (AddRenderable mw w r s).renderStates r
        = (LoadMaterial w (s.heap r).m_material).value.m_effect.m_renderStates ∧
    (if ((AddRenderable mw w r s).renderStates r).testBit 0 = true then
      (AddRenderable mw w r s).s_transparentRenderableList
          = s.s_transparentRenderableList ++ [r] ∧
      (AddRenderable mw w r s).s_opaqueRenderableList = s.s_opaqueRenderableList
    else
      (AddRenderable mw w r s).s_opaqueRenderableList
          = s.s_opaqueRenderableList ++ [r] ∧
      (AddRenderable mw w r s).s_transparentRenderableList
          = s.s_transparentRenderableList) := by
  have hm := renderStates_AddRenderable mw w r r s
  simp only [if_true] at hm
  refine ⟨hm, ?_⟩
  rw [hm, opaque_AddRenderable, transparent_AddRenderable]
  split <;> simp_all

/-! ## The frame: what `Render` passes to `DrawMesh` and `SetTexture` -/

/-- Indexing a list at every position in turn visits its elements in order. -/
theorem map_range_getD {α β : Type} (l : List α) (d : α) (f : α → β) :
    (List.range l.length).map (fun i => f (l.getD i d)) = l.map f := by
  apply List.ext_getElem
  · simp
  · intro i h1 h2
    have hi : i < l.length := by simpa using h2
    simp [List.getD_eq_getElem?_getD, List.getElem?_eq_getElem hi]

/-- Filtering the calls of a loop is the loop of the filtered bodies. -/
theorem filterMap_flatMap_range {γ : Type} (g : GraphicsCall → Option γ)
    (body : Nat → List GraphicsCall) (pick : Nat → γ)
    (h : ∀ i, (body i).filterMap g = [pick i]) (n : Nat) :
    ((List.range n).flatMap body).filterMap g = (List.range n).map pick := by
  induction n with
  | zero => simp
  | succ k ih =>
    rw [List.range_succ, List.flatMap_append, List.filterMap_append, ih, List.map_append]
    simp [h]

/-- One loop body draws exactly the mesh of its renderable. -/
theorem drawnMeshes_renderOne (x : Renderable) (i : Nat) :
    drawnMeshes (renderOne x i) = [x.m_mesh] := by
  unfold drawnMeshes renderOne
  simp [List.filterMap_append, List.filterMap_map, Function.comp_def]

/-- One loop body sets exactly one texture: the renderable's material at the given index. -/
theorem textureCalls_renderOne (x : Renderable) (i : Nat) :
    textureCalls (renderOne x i) = [(x.m_material, i)] := by
  unfold textureCalls renderOne
  simp [List.filterMap_append, List.filterMap_map, Function.comp_def]

/-- The meshes drawn by a frame, loop by loop. -/
theorem drawnMeshes_Render (s : Registry) :
    drawnMeshes (Render s) =
      s.s_opaqueRenderableList.map (fun p => (s.heap p).m_mesh) ++
      s.s_transparentRenderableList.map (fun p => (s.heap p).m_mesh) := by
  have h1 := filterMap_flatMap_range
    (fun c => match c with
      | GraphicsCall.DrawMesh m => some m
      | _ => none)
    (fun i => renderOne (s.heap (s.s_opaqueRenderableList.getD i 0)) i)
    (fun i => (s.heap (s.s_opaqueRenderableList.getD i 0)).m_mesh)
    (fun i => drawnMeshes_renderOne _ _) s.s_opaqueRenderableList.length
  have h2 := filterMap_flatMap_range
    (fun c => match c with
      | GraphicsCall.DrawMesh m => some m
      | _ => none)
    (fun i => renderOne (s.heap (s.s_transparentRenderableList.getD i 0))
      (i + s.s_opaqueRenderableList.length))
    (fun i => (s.heap (s.s_transparentRenderableList.getD i 0)).m_mesh)
    (fun i => drawnMeshes_renderOne _ _) s.s_transparentRenderableList.length
  unfold drawnMeshes Render
  simp only [List.filterMap_append]
  rw [h1, h2, map_range_getD s.s_opaqueRenderableList 0 (fun p => (s.heap p).m_mesh),
    map_range_getD s.s_transparentRenderableList 0 (fun p => (s.heap p).m_mesh)]
  simp

/-- The textures set by a frame, loop by loop. -/
theorem textureCalls_Render (s : Registry) :
    textureCalls (Render s) =
      (List.range s.s_opaqueRenderableList.length).map
        (fun k => ((s.heap (s.s_opaqueRenderableList.getD k 0)).m_material, k)) ++
      (List.range s.s_transparentRenderableList.length).map
        (fun j => ((s.heap (s.s_transparentRenderableList.getD j 0)).m_material,
          j + s.s_opaqueRenderableList.length)) := by
  have h1 := filterMap_flatMap_range
    (fun c => match c with
      | GraphicsCall.SetTexture m i => some (m, i)
      | _ => none)
    (fun i => renderOne (s.heap (s.s_opaqueRenderableList.getD i 0)) i)
    (fun k => ((s.heap (s.s_opaqueRenderableList.getD k 0)).m_material, k))
    (fun i => textureCalls_renderOne _ _) s.s_opaqueRenderableList.length
  have h2 := filterMap_flatMap_range
    (fun c => match c with
      | GraphicsCall.SetTexture m i => some (m, i)
      | _ => none)
    (fun i => renderOne (s.heap (s.s_transparentRenderableList.getD i 0))
      (i + s.s_opaqueRenderableList.length))
    (fun j => ((s.heap (s.s_transparentRenderableList.getD j 0)).m_material,
      j + s.s_opaqueRenderableList.length))
    (fun i => textureCalls_renderOne _ _) s.s_transparentRenderableList.length
  unfold textureCalls Render
  simp only [List.filterMap_append]
  rw [h1, h2]
  simp

/-- The indices passed to `SetTexture` in a frame are 0, 1, 2, ... in call order. -/
theorem textureIndices_Render (s : Registry) :
    (textureCalls (Render s)).map Prod.snd =
      List.range (s.s_opaqueRenderableList.length + s.s_transparentRenderableList.length) := by
  rw [textureCalls_Render, List.map_append, List.map_map, List.map_map, List.range_add]
  congr 1
  · simp [Function.comp_def]
  · apply List.map_congr_left
    intro j _
    simp [Nat.add_comm]

/-! ## C3: draw order -/

/-- C3: for every pair of lists, the meshes passed to `DrawMesh` by one call of `Render` are
the meshes of the opaque list in list order followed by those of the transparent list in
list order; there are `opaque.size + transparent.size` draws; the first `opaque.size` draws
are the opaque ones and every later draw is a transparent one, so no opaque draw follows a
transparent draw. -/
theorem Render_draw_order (s : Registry) :
    drawnMeshes (Render s) =
      s.s_opaqueRenderableList.map (fun p => (s.heap p).m_mesh) ++
      s.s_transparentRenderableList.map (fun p => (s.heap p).m_mesh) ∧
    (drawnMeshes (Render s)).length =
      s.s_opaqueRenderableList.length + s.s_transparentRenderableList.length ∧
    (drawnMeshes (Render s)).take s.s_opaqueRenderableList.length =
      s.s_opaqueRenderableList.map (fun p => (s.heap p).m_mesh) ∧
    (drawnMeshes (Render s)).drop s.s_opaqueRenderableList.length =
      s.s_transparentRenderableList.map (fun p => (s.heap p).m_mesh) := by
  rw [drawnMeshes_Render]
  refine ⟨rfl, by simp, ?_, ?_⟩
  · rw [List.take_append_of_le_length (by simp)]
    simp
  · rw [List.drop_append_of_le_length (by simp)]
    simp

/-! ## C7: texture indices of a frame -/

/-- C7: within one call of `Render` the index passed to `SetTexture` is `k` for the `k`-th
opaque renderable and `opaqueCount + j` for the `j`-th transparent one, each time with that
renderable's material; the indices of the frame are `0 .. opaqueCount + transparentCount - 1`
in call order, so no two draws get the same index, and the texture units the OpenGL
`SetTexture` activates for them (`GL_TEXTURE0 + index`) are pairwise distinct as well. -/
theorem Render_texture_indices (s : Registry) :
    (∀ k, k < s.s_opaqueRenderableList.length →
      (textureCalls (Render s))[k]? =
        some ((s.heap (s.s_opaqueRenderableList.getD k 0)).m_material, k)) ∧
    (∀ j, j < s.s_transparentRenderableList.length →
      (textureCalls (Render s))[s.s_opaqueRenderableList.length + j]? =
        some ((s.heap (s.s_transparentRenderableList.getD j 0)).m_material,
          s.s_opaqueRenderableList.length + j)) ∧
    (textureCalls (Render s)).length =
      s.s_opaqueRenderableList.length + s.s_transparentRenderableList.length ∧
    ((textureCalls (Render s)).map Prod.snd).Nodup ∧
    ((textureCalls (Render s)).map (fun c => OpenGL.activatedUnit c.2)).Nodup ∧
    (∀ (m : Material) (i : Nat), (OpenGL.SetTexture m i).head? =
      some (OpenGL.TextureCall.glActiveTexture (OpenGL.activatedUnit i))) := by
  refine ⟨?_, ?_, ?_, ?_, ?_, fun m i => rfl⟩
  · intro k hk
    rw [textureCalls_Render, List.getElem?_append_left (by simpa using hk)]
    simp [hk]
  · intro j hj
    rw [textureCalls_Render, List.getElem?_append_right (by simp)]
    simp [hj, Nat.add_comm]
  · rw [textureCalls_Render]
    simp
  · rw [textureIndices_Render]
    exact List.nodup_range _
  · have h : (textureCalls (Render s)).map (fun c => OpenGL.activatedUnit c.2) =
        ((textureCalls (Render s)).map Prod.snd).map OpenGL.activatedUnit := by
      rw [List.map_map]
      rfl
    rw [h, textureIndices_Render]
    refine (List.nodup_range _).map ?_
    intro a b hab
    unfold OpenGL.activatedUnit at hab
    omega

/-! ## C5: `RemoveRenderable` -/

/-- The list picked for a renderable, after `RemoveRenderable`: the first occurrence is
erased from the list picked by the renderable's own alpha bit, the other list is kept. -/
theorem listFor_RemoveRenderable (r : RenderablePtr) (s : Registry) (b : Bool) :
    (RemoveRenderable r s).listFor b =
      if b = (s.renderStates r).testBit 0 then (s.listFor b).erase r else s.listFor b := by
  unfold Registry.listFor
  rw [opaque_RemoveRenderable, transparent_RemoveRenderable]
  cases b <;> cases (s.renderStates r).testBit 0 <;> rfl

/-- The heap is untouched by `RemoveRenderable`. -/
theorem heap_RemoveRenderable (r : RenderablePtr) (s : Registry) :
    (RemoveRenderable r s).heap = s.heap := by
  unfold RemoveRenderable
  split <;> rfl

/-- Nothing is printed by `RemoveRenderable`. -/
theorem output_RemoveRenderable (r : RenderablePtr) (s : Registry) :
    (RemoveRenderable r s).output = s.output := by
  unfold RemoveRenderable
  split <;> rfl

/-- C5: `RemoveRenderable r` leaves the list not selected by the alpha bit of `r` unchanged;
in the selected list it erases exactly the first occurrence of `r` (the list splits as
`pre ++ r :: post` with `r` not in `pre`, and becomes `pre ++ post`), so all other elements
keep their relative order; when `r` is not in the selected list that list is unchanged too;
in particular when `r` is in neither list both lists are unchanged, and in every case
nothing is printed and the objects are not modified. -/
theorem RemoveRenderable_erases_first (r : RenderablePtr) (s : Registry) :
    (RemoveRenderable r s).listFor (!(s.renderStates r).testBit 0)
        = s.listFor (!(s.renderStates r).testBit 0) ∧
    (r ∈ s.listFor ((s.renderStates r).testBit 0) →
      ∃ pre post, s.listFor ((s.renderStates r).testBit 0) = pre ++ r :: post ∧ r ∉ pre ∧
        (RemoveRenderable r s).listFor ((s.renderStates r).testBit 0) = pre ++ post) ∧
    (r ∉ s.listFor ((s.renderStates r).testBit 0) →
      (RemoveRenderable r s).listFor ((s.renderStates r).testBit 0)
        = s.listFor ((s.renderStates r).testBit 0)) ∧
    (r ∉ s.s_opaqueRenderableList → r ∉ s.s_transparentRenderableList →
      (RemoveRenderable r s).s_opaqueRenderableList = s.s_opaqueRenderableList ∧
      (RemoveRenderable r s).s_transparentRenderableList = s.s_transparentRenderableList) ∧
    (RemoveRenderable r s).output = s.output ∧
    (RemoveRenderable r s).heap = s.heap := by
  refine ⟨?_, ?_, ?_, ?_, output_RemoveRenderable r s, heap_RemoveRenderable r s⟩
  · rw [listFor_RemoveRenderable]
    cases (s.renderStates r).testBit 0 <;> rfl
  · intro hmem
    obtain ⟨pre, post, hpre, hsplit, herase⟩ := List.exists_erase_eq hmem
    refine ⟨pre, post, hsplit, hpre, ?_⟩
    rw [listFor_RemoveRenderable, if_pos rfl, herase]
  · intro hnot
    rw [listFor_RemoveRenderable, if_pos rfl, List.erase_of_not_mem hnot]
  · intro ho ht
    rw [opaque_RemoveRenderable, transparent_RemoveRenderable]
    constructor
    · split
      · rfl
      · exact List.erase_of_not_mem ho
    · split
      · exact List.erase_of_not_mem ht
      · rfl

/-- Witness for C5: with opaque = [7, 8, 7], transparent = [9] and 7 opaque, the opaque list
splits around the first 7 and loses exactly that element; the transparent list is kept. -/
theorem RemoveRenderable_erases_first_witness :
    (7 : RenderablePtr) ∈ [7, 8, 7] ∧
    (∃ pre post, ([7, 8, 7] : List RenderablePtr) = pre ++ 7 :: post ∧ 7 ∉ pre ∧
      (RemoveRenderable 7 ⟨zeroHeap, [7, 8, 7], [9], []⟩).s_opaqueRenderableList
        = pre ++ post) ∧
    (RemoveRenderable 7 ⟨zeroHeap, [7, 8, 7], [9], []⟩).s_transparentRenderableList = [9] :=
  ⟨by decide,
   (RemoveRenderable_erases_first 7 ⟨zeroHeap, [7, 8, 7], [9], []⟩).2.1 (by decide),
   (RemoveRenderable_erases_first 7 ⟨zeroHeap, [7, 8, 7], [9], []⟩).1⟩

/-! ## C4: removing and adding again -/

/-- Erasing the first occurrence of an element that occurs at most once removes all of its
occurrences. -/
theorem erase_eq_filter_of_count_le_one (r : RenderablePtr) (l : List RenderablePtr)
    (h : l.count r ≤ 1) : l.erase r = l.filter (fun x => x != r) := by
  induction l with
  | nil => rfl
  | cons x rest ih =>
    by_cases hx : x = r
    · subst hx
      have hc : rest.count x = 0 := by
        rw [List.count_cons_self] at h
        omega
      have hnot : x ∉ rest := List.count_eq_zero.1 hc
      have hfil : rest.filter (fun y => y != x) = rest := by
        apply List.filter_eq_self.2
        intro a ha
        have : a ≠ x := fun hax => hnot (hax ▸ ha)
        simpa using this
      simp [hfil]
    · have hc : rest.count r ≤ 1 := by
        rw [List.count_cons_of_ne (Ne.symm hx)] at h
        exact h
      have hbeq : (x == r) = false := by simpa using hx
      have hbne : (x != r) = true := by simpa using hx
      rw [List.erase_cons, hbeq, List.filter_cons, hbne, ih hc]
      simp

/-- The list picked by a given alpha bit, after `AddRenderable`. -/
theorem listFor_AddRenderable (mw : MeshWorld) (w : MaterialWorld)
    (r : RenderablePtr) (s : Registry) (b : Bool) :
    (AddRenderable mw w r s).listFor b =
      if b = ((LoadMaterial w (s.heap r).m_material).value.m_effect.m_renderStates).testBit 0 then
        s.listFor b ++ [r]
      else s.listFor b := by
  unfold Registry.listFor
  rw [opaque_AddRenderable, transparent_AddRenderable]
  cases b <;>
    cases ((LoadMaterial w (s.heap r).m_material).value.m_effect.m_renderStates).testBit 0 <;> rfl

/-- C4: in a registry state in which the renderable `r` occurs exactly once, calling
`RemoveRenderable r` and then `AddRenderable` for `r` with a material whose alpha bit equals
the one `r` has, gives, for the list selected by that alpha bit: the old list without `r`,
followed by `r` (so `r` is its last element and all other members keep their relative
order); the other list is unchanged. -/
theorem remove_then_add_moves_to_end (mw : MeshWorld) (w : MaterialWorld) (r : RenderablePtr)
    (s : Registry)
    (honce : (s.s_opaqueRenderableList ++ s.s_transparentRenderableList).count r = 1)
    (hsame : ((LoadMaterial w (s.heap r).m_material).value.m_effect.m_renderStates).testBit 0
      = (s.renderStates r).testBit 0) :
    (AddRenderable mw w r (RemoveRenderable r s)).listFor ((s.renderStates r).testBit 0)
        = (s.listFor ((s.renderStates r).testBit 0)).filter (fun x => x != r) ++ [r] ∧
    ((AddRenderable mw w r (RemoveRenderable r s)).listFor
        ((s.renderStates r).testBit 0)).getLast? = some r ∧
    ((AddRenderable mw w r (RemoveRenderable r s)).listFor
        ((s.renderStates r).testBit 0)).filter (fun x => x != r)
        = (s.listFor ((s.renderStates r).testBit 0)).filter (fun x => x != r) ∧
    (AddRenderable mw w r (RemoveRenderable r s)).listFor (!(s.renderStates r).testBit 0)
        = s.listFor (!(s.renderStates r).testBit 0) := by
  have hcount : (s.listFor ((s.renderStates r).testBit 0)).count r ≤ 1 := by
    rw [List.count_append] at honce
    unfold Registry.listFor
    split <;> omega
  have hmain :
      (AddRenderable mw w r (RemoveRenderable r s)).listFor ((s.renderStates r).testBit 0)
        = (s.listFor ((s.renderStates r).testBit 0)).filter (fun x => x != r) ++ [r] := by
    rw [listFor_AddRenderable, heap_RemoveRenderable, hsame, if_pos rfl,
      listFor_RemoveRenderable, if_pos rfl, erase_eq_filter_of_count_le_one r _ hcount]
  refine ⟨hmain, ?_, ?_, ?_⟩
  · rw [hmain]
    simp
  · rw [hmain]
    simp [List.filter_append, List.filter_filter]
  · rw [listFor_AddRenderable, heap_RemoveRenderable, hsame, listFor_RemoveRenderable]
    cases (s.renderStates r).testBit 0 <;> rfl

/-- Witness for C4: lists opaque = [7, 8], transparent = [9] with 7 opaque; 7 is removed and
added again with an opaque material (mask 2). -/
theorem remove_then_add_moves_to_end_witness :
    (([7, 8] : List RenderablePtr) ++ [9]).count 7 = 1 ∧
    (AddRenderable quadMeshWorld (materialWorldWithMask 2) 7
        (RemoveRenderable 7 ⟨zeroHeap, [7, 8], [9], []⟩)).listFor false = [8, 7] :=
  ⟨by decide,
   (remove_then_add_moves_to_end quadMeshWorld (materialWorldWithMask 2) 7
      ⟨zeroHeap, [7, 8], [9], []⟩ (by decide) (by decide)).1⟩

/-! ## C6: load failures -/

/-- A failed `LoadMesh` leaves the mesh as it was, and a failed `LoadMaterial` leaves the
material (and with it the effect mask) as it was. -/
theorem failed_load_keeps_value (mw : MeshWorld) (w : MaterialWorld) (mesh : Mesh)
    (material : Material) :
    ((LoadMesh mw mesh).ok = false → (LoadMesh mw mesh).value = mesh) ∧
    ((LoadMaterial w material).ok = false → (LoadMaterial w material).value = material) := by
  constructor
  · unfold LoadMesh
    split
    · intro _; rfl
    · split
      · intro _; rfl
      · intro h; exact Bool.noConfusion h
  · unfold LoadMaterial
    split
    · intro _; rfl
    · split
      · intro _; rfl
      · intro h; exact Bool.noConfusion h

/-- C6, as stated, fails: with a mesh path and a material path that both cannot be opened,
`LoadMesh` and `LoadMaterial` return failure and `AddRenderable` still appends the
renderable (address 7) to the opaque list, which was empty. -/
theorem AddRenderable_failed_load_counterexample :
    (LoadMesh missingMeshWorld (zeroHeap 7).m_mesh).ok = false ∧
    (LoadMaterial missingMaterialWorld (zeroHeap 7).m_material).ok = false ∧
    (Registry.empty zeroHeap).s_opaqueRenderableList = [] ∧
    (AddRenderable missingMeshWorld missingMaterialWorld 7
      (Registry.empty zeroHeap)).s_opaqueRenderableList = [7] := by
  decide

/-- C6, amended: `AddRenderable` discards the results of the loaders; in every call in which
`LoadMesh` or `LoadMaterial` returns failure the renderable is still appended to the list
selected by bit 0 of the effect mask it holds after the two loads (the mask it held before
the call when it is `LoadMaterial` that failed), and the other list is unchanged. -/
theorem AddRenderable_registers_after_failed_load (mw : MeshWorld) (w : MaterialWorld)
    (r : RenderablePtr) (s : Registry)
    (hfail : (LoadMesh mw (s.heap r).m_mesh).ok = false ∨
      (LoadMaterial w (s.heap r).m_material).ok = false) :
    (AddRenderable mw w r s).listFor (((AddRenderable mw w r s).renderStates r).testBit 0)
        = s.listFor (((AddRenderable mw w r s).renderStates r).testBit 0) ++ [r] ∧
    (AddRenderable mw w r s).listFor (!((AddRenderable mw w r s).renderStates r).testBit 0)
        = s.listFor (!((AddRenderable mw w r s).renderStates r).testBit 0) ∧
    ((LoadMaterial w (s.heap r).m_material).ok = false →
      (AddRenderable mw w r s).renderStates r = s.renderStates r) := by
  have hm := renderStates_AddRenderable mw w r r s
  simp only [if_true] at hm
  have hlists :
      (AddRenderable mw w r s).listFor (((AddRenderable mw w r s).renderStates r).testBit 0)
          = s.listFor (((AddRenderable mw w r s).renderStates r).testBit 0) ++ [r] ∧
      (AddRenderable mw w r s).listFor (!((AddRenderable mw w r s).renderStates r).testBit 0)
          = s.listFor (!((AddRenderable mw w r s).renderStates r).testBit 0) := by
    rcases hfail with _ | _ <;>
    · rw [hm, listFor_AddRenderable, listFor_AddRenderable, if_pos rfl]
      refine ⟨rfl, ?_⟩
      cases ((LoadMaterial w (s.heap r).m_material).value.m_effect.m_renderStates).testBit 0 <;>
        rfl
  refine ⟨hlists.1, hlists.2, fun hmat => ?_⟩
  rw [hm, (failed_load_keeps_value mw w (s.heap r).m_mesh (s.heap r).m_material).2 hmat]
  rfl

/-- Witness for C6 amended: the mesh file cannot be opened, the material (mask 1) loads, and
the renderable is appended to the transparent list. -/
theorem AddRenderable_registers_after_failed_load_witness :
    ((LoadMesh missingMeshWorld (zeroHeap 7).m_mesh).ok = false ∨
      (LoadMaterial (materialWorldWithMask 1) (zeroHeap 7).m_material).ok = false) ∧
    (AddRenderable missingMeshWorld (materialWorldWithMask 1) 7
      ⟨zeroHeap, [3], [4], []⟩).s_transparentRenderableList = [4, 7] :=
  ⟨by decide,
   (AddRenderable_registers_after_failed_load missingMeshWorld (materialWorldWithMask 1) 7
      ⟨zeroHeap, [3], [4], []⟩ (by decide)).1⟩

/-! ## C8 and C9: `BindEffect` -/

/-- The four mask tests of `BindEffect` read bits 0 to 3. -/
theorem mask_tests (m : Nat) :
    (m &&& alpha ≠ 0 ↔ m.testBit 0 = true) ∧
    (m &&& depthtest ≠ 0 ↔ m.testBit 1 = true) ∧
    (m &&& depthwrite ≠ 0 ↔ m.testBit 2 = true) ∧
    (m &&& faceculling ≠ 0 ↔ m.testBit 3 = true) :=
  ⟨land_shift_ne_zero_iff m 0, land_shift_ne_zero_iff m 1,
   land_shift_ne_zero_iff m 2, land_shift_ne_zero_iff m 3⟩

/-- The OpenGL context after `BindEffect`, field by field. -/
theorem OpenGL.BindEffect_gl_fields (e : Effect) (g : OpenGL.State) :
    OpenGL.BindEffect e g =
      { currentProgram := e.m_programID
        blend := e.m_renderStates.testBit 0
        blendSrc := if e.m_renderStates.testBit 0 then OpenGL.GL_SRC_ALPHA else g.blendSrc
        blendDst :=
          if e.m_renderStates.testBit 0 then OpenGL.GL_ONE_MINUS_SRC_ALPHA else g.blendDst
        depthTest := e.m_renderStates.testBit 1
        depthFunc := if e.m_renderStates.testBit 1 then OpenGL.GL_LEQUAL else g.depthFunc
        depthMask := e.m_renderStates.testBit 2
        cullFace := e.m_renderStates.testBit 3
        frontFace := if e.m_renderStates.testBit 3 then OpenGL.GL_CCW else g.frontFace } := by
  obtain ⟨h0, h1, h2, h3⟩ := mask_tests e.m_renderStates
  unfold OpenGL.BindEffect
  simp only [h0, h1, h2, h3]
  cases e.m_renderStates.testBit 0 <;> cases e.m_renderStates.testBit 1 <;>
    cases e.m_renderStates.testBit 2 <;> cases e.m_renderStates.testBit 3 <;> rfl

/-- The Direct3D device state after `BindEffect`, field by field. -/
theorem Direct3D.BindEffect_d3d_fields (e : Effect) (d : Direct3D.State) :
    Direct3D.BindEffect e d =
      { vertexShader := e.m_vertexShader
        pixelShader := e.m_pixelShader
        alphaBlendEnable := if e.m_renderStates.testBit 0 then Direct3D.TRUE else Direct3D.FALSE
        srcBlend := if e.m_renderStates.testBit 0 then Direct3D.D3DBLEND_SRCALPHA else d.srcBlend
        destBlend :=
          if e.m_renderStates.testBit 0 then Direct3D.D3DBLEND_INVSRCALPHA else d.destBlend
        zEnable := if e.m_renderStates.testBit 1 then Direct3D.D3DZB_TRUE else Direct3D.D3DZB_FALSE
        zFunc := if e.m_renderStates.testBit 1 then Direct3D.D3DCMP_LESSEQUAL else d.zFunc
        zWriteEnable := if e.m_renderStates.testBit 2 then Direct3D.TRUE else Direct3D.FALSE
        cullMode :=
          if e.m_renderStates.testBit 3 then Direct3D.D3DCULL_CCW
          else Direct3D.D3DCULL_NONE } := by
  obtain ⟨h0, h1, h2, h3⟩ := mask_tests e.m_renderStates
  unfold Direct3D.BindEffect
  simp only [h0, h1, h2, h3]
  cases e.m_renderStates.testBit 0 <;> cases e.m_renderStates.testBit 1 <;>
    cases e.m_renderStates.testBit 2 <;> cases e.m_renderStates.testBit 3 <;> rfl

/-- C8: for every prior GPU state and every mask, after `BindEffect` blending is on iff bit 0
is set (with factors src-alpha and one-minus-src-alpha when on, the old factors kept when
off), the depth test is on iff bit 1 is set (comparison less-or-equal when on, the old
comparison kept when off), depth writes are on iff bit 2 is set and face culling is on iff
bit 3 is set, in the OpenGL backend and in the Direct3D backend; with mask 0b1011 blending
is on, the depth test is on, depth writes are off and culling is on. -/
theorem BindEffect_sets_four_states (e : Effect) (g : OpenGL.State) (d : Direct3D.State) :
    ((OpenGL.BindEffect e g).blend = e.m_renderStates.testBit 0 ∧
     ((OpenGL.BindEffect e g).blendSrc =
        if e.m_renderStates.testBit 0 then OpenGL.GL_SRC_ALPHA else g.blendSrc) ∧
     ((OpenGL.BindEffect e g).blendDst =
        if e.m_renderStates.testBit 0 then OpenGL.GL_ONE_MINUS_SRC_ALPHA else g.blendDst) ∧
     (OpenGL.BindEffect e g).depthTest = e.m_renderStates.testBit 1 ∧
     ((OpenGL.BindEffect e g).depthFunc =
        if e.m_renderStates.testBit 1 then OpenGL.GL_LEQUAL else g.depthFunc) ∧
     (OpenGL.BindEffect e g).depthMask = e.m_renderStates.testBit 2 ∧
     (OpenGL.BindEffect e g).cullFace = e.m_renderStates.testBit 3) ∧
    (((Direct3D.BindEffect e d).alphaBlendEnable =
        if e.m_renderStates.testBit 0 then Direct3D.TRUE else Direct3D.FALSE) ∧
     ((Direct3D.BindEffect e d).srcBlend =
        if e.m_renderStates.testBit 0 then Direct3D.D3DBLEND_SRCALPHA else d.srcBlend) ∧
     ((Direct3D.BindEffect e d).destBlend =
        if e.m_renderStates.testBit 0 then Direct3D.D3DBLEND_INVSRCALPHA else d.destBlend) ∧
     ((Direct3D.BindEffect e d).zEnable =
        if e.m_renderStates.testBit 1 then Direct3D.D3DZB_TRUE else Direct3D.D3DZB_FALSE) ∧
     ((Direct3D.BindEffect e d).zFunc =
        if e.m_renderStates.testBit 1 then Direct3D.D3DCMP_LESSEQUAL else d.zFunc) ∧
     ((Direct3D.BindEffect e d).zWriteEnable =
        if e.m_renderStates.testBit 2 then Direct3D.TRUE else Direct3D.FALSE) ∧
     ((Direct3D.BindEffect e d).cullMode =
        if e.m_renderStates.testBit 3 then Direct3D.D3DCULL_CCW
        else Direct3D.D3DCULL_NONE)) ∧
    ((OpenGL.BindEffect { e with m_renderStates := 0b1011 } g).blend = true ∧
     (OpenGL.BindEffect { e with m_renderStates := 0b1011 } g).depthTest = true ∧
     (OpenGL.BindEffect { e with m_renderStates := 0b1011 } g).depthMask = false ∧
     (OpenGL.BindEffect { e with m_renderStates := 0b1011 } g).cullFace = true) ∧
    ((Direct3D.BindEffect { e with m_renderStates := 0b1011 } d).alphaBlendEnable
        = Direct3D.TRUE ∧
     (Direct3D.BindEffect { e with m_renderStates := 0b1011 } d).zEnable
        = Direct3D.D3DZB_TRUE ∧
     (Direct3D.BindEffect { e with m_renderStates := 0b1011 } d).zWriteEnable
        = Direct3D.FALSE ∧
     (Direct3D.BindEffect { e with m_renderStates := 0b1011 } d).cullMode
        = Direct3D.D3DCULL_CCW) := by
  refine ⟨?_, ?_, ?_, ?_⟩
  · rw [OpenGL.BindEffect_gl_fields]
    exact ⟨rfl, rfl, rfl, rfl, rfl, rfl, rfl⟩
  · rw [Direct3D.BindEffect_d3d_fields]
    exact ⟨rfl, rfl, rfl, rfl, rfl, rfl, rfl⟩
  · have h0 : Nat.testBit 0b1011 0 = true := by decide
    have h1 : Nat.testBit 0b1011 1 = true := by decide
    have h2 : Nat.testBit 0b1011 2 = false := by decide
    have h3 : Nat.testBit 0b1011 3 = true := by decide
    simp only [OpenGL.BindEffect_gl_fields, h0, h1, h2, h3, and_self]
  · have h0 : Nat.testBit 0b1011 0 = true := by decide
    have h1 : Nat.testBit 0b1011 1 = true := by decide
    have h2 : Nat.testBit 0b1011 2 = false := by decide
    have h3 : Nat.testBit 0b1011 3 = true := by decide
    simp only [Direct3D.BindEffect_d3d_fields, h0, h1, h2, h3, if_true, Bool.false_eq_true,
      if_false, and_self]

/-- C9: for every prior GPU state and every effect, the modelled state (bound program or
shaders, the on/off flags, blend factors, depth function, front face or cull mode) after
two consecutive `BindEffect` calls with the same effect equals the state after one, in the
OpenGL backend and in the Direct3D backend. -/
theorem BindEffect_idempotent (e : Effect) (g : OpenGL.State) (d : Direct3D.State) :
    OpenGL.BindEffect e (OpenGL.BindEffect e g) = OpenGL.BindEffect e g ∧
    Direct3D.BindEffect e (Direct3D.BindEffect e d) = Direct3D.BindEffect e d := by
  constructor
  · rw [OpenGL.BindEffect_gl_fields e (OpenGL.BindEffect e g), OpenGL.BindEffect_gl_fields e g]
    cases e.m_renderStates.testBit 0 <;> cases e.m_renderStates.testBit 1 <;>
      cases e.m_renderStates.testBit 3 <;> rfl
  · rw [Direct3D.BindEffect_d3d_fields e (Direct3D.BindEffect e d),
      Direct3D.BindEffect_d3d_fields e d]
    cases e.m_renderStates.testBit 0 <;> cases e.m_renderStates.testBit 1 <;> rfl

end Graphics
end eae6320

namespace eae6320
namespace cEffectBuilder

/-! ## C10: the mask byte written by the effect builder -/

/-- The byte computed from a render-states table of four booleans. -/
theorem renderStatesByte_eq (main other : Lua.Key → Lua.Value) (a dt dw fc : Bool) :
    renderStatesByte (assetTable main (renderstatesTable other a dt dw fc)) =
      a.toNat + 2 * dt.toNat + 4 * dw.toNat + 8 * fc.toNat := by
  cases a <;> cases dt <;> cases dw <;> cases fc <;>
    simp [renderStatesByte, readRenderStates, readFlag, assetTable, renderstatesTable,
      Lua.lua_gettable, Lua.lua_pushstring, Lua.lua_toboolean, Lua.lua_istable, Lua.lua_pop,
      Lua.withField, Lua.Value.toKey, alpha, depthtest, depthwrite, faceculling]

/-- The bits of the byte computed from a render-states table of four booleans. -/
theorem renderStatesByte_bits (main other : Lua.Key → Lua.Value) (a dt dw fc : Bool) :
    (renderStatesByte (assetTable main (renderstatesTable other a dt dw fc))).testBit 0 = a ∧
    (renderStatesByte (assetTable main (renderstatesTable other a dt dw fc))).testBit 1 = dt ∧
    (renderStatesByte (assetTable main (renderstatesTable other a dt dw fc))).testBit 2 = dw ∧
    (renderStatesByte (assetTable main (renderstatesTable other a dt dw fc))).testBit 3 = fc ∧
    renderStatesByte (assetTable main (renderstatesTable other a dt dw fc)) < 16 := by
  rw [renderStatesByte_eq]
  cases a <;> cases dt <;> cases dw <;> cases fc <;> decide

/-- C10: for every choice of the four booleans in the description's `renderstates` table
(whatever else the tables hold), the mask byte the effect builder writes has bit 0 = alpha,
bit 1 = depthtest, bit 2 = depthwrite, bit 3 = faceculling and bits 4 and up clear, so it is
below 16 and two descriptions with the same byte have the same four flags; the flags
(true, true, false, true) give 0b1011; and the builder's enumerators equal those of the
runtime `RenderStates`. -/
theorem effect_builder_mask_encoding (main other : Lua.Key → Lua.Value) (a dt dw fc : Bool) :
    (renderStatesByte (assetTable main (renderstatesTable other a dt dw fc))).testBit 0 = a ∧
    (renderStatesByte (assetTable main (renderstatesTable other a dt dw fc))).testBit 1 = dt ∧
    (renderStatesByte (assetTable main (renderstatesTable other a dt dw fc))).testBit 2 = dw ∧
    (renderStatesByte (assetTable main (renderstatesTable other a dt dw fc))).testBit 3 = fc ∧
    (∀ k, 4 ≤ k →
      (renderStatesByte (assetTable main (renderstatesTable other a dt dw fc))).testBit k
        = false) ∧
    renderStatesByte (assetTable main (renderstatesTable other a dt dw fc)) < 16 ∧
    (∀ (main2 other2 : Lua.Key → Lua.Value) (a2 dt2 dw2 fc2 : Bool),
      renderStatesByte (assetTable main (renderstatesTable other a dt dw fc)) =
        renderStatesByte (assetTable main2 (renderstatesTable other2 a2 dt2 dw2 fc2)) →
      a = a2 ∧ dt = dt2 ∧ dw = dw2 ∧ fc = fc2) ∧
    renderStatesByte (assetTable main (renderstatesTable other true true false true))
      = 0b1011 ∧
    (alpha = Graphics.alpha ∧ depthtest = Graphics.depthtest ∧
      depthwrite = Graphics.depthwrite ∧ faceculling = Graphics.faceculling) := by
  obtain ⟨h0, h1, h2, h3, hlt⟩ := renderStatesByte_bits main other a dt dw fc
  refine ⟨h0, h1, h2, h3, ?_, hlt, ?_, ?_, ⟨rfl, rfl, rfl, rfl⟩⟩
  · intro k hk
    apply Nat.testBit_lt_two_pow
    calc renderStatesByte (assetTable main (renderstatesTable other a dt dw fc))
        < 2 ^ 4 := hlt
      _ ≤ 2 ^ k := Nat.pow_le_pow_right (by decide) hk
  · intro main2 other2 a2 dt2 dw2 fc2 heq
    obtain ⟨g0, g1, g2, g3, _⟩ := renderStatesByte_bits main2 other2 a2 dt2 dw2 fc2
    rw [← heq] at g0 g1 g2 g3
    exact ⟨h0.symm.trans g0, h1.symm.trans g1, h2.symm.trans g2, h3.symm.trans g3⟩
  · rw [renderStatesByte_eq]
    rfl

end cEffectBuilder
end eae6320

namespace eae6320
namespace Binary

/-- The four base-256 digits of a 32-bit value add up to it. -/
theorem u32_digits (n : Nat) (h : n < 2 ^ 32) :
    n % 256 + 256 * (n / 256 % 256) + 65536 * (n / 65536 % 256)
      + 16777216 * (n / 16777216 % 256) = n := by
  omega

/-- Four bytes written for a 32-bit value read back as that value. -/
theorem u32OfBytes_u32Bytes (n : Nat) (h : n < 2 ^ 32) : u32OfBytes (u32Bytes n) = n := by
  simp only [u32OfBytes, u32Bytes, List.getD_cons_zero, List.getD_cons_succ]
  exact u32_digits n h

/-- Every 32-bit value occupies four bytes. -/
theorem length_u32Bytes (n : Nat) : (u32Bytes n).length = 4 := rfl

/-- A chunk is found again at the offset it was written at. -/
theorem slice_append (pre chunk rest : List Nat) :
    slice (pre ++ chunk ++ rest) pre.length chunk.length = chunk := by
  unfold slice
  rw [List.append_assoc, List.drop_left, List.take_left]

/-- Total length of `n` chunks of `k` bytes each. -/
theorem length_flatMap_range (g : Nat → List Nat) (k : Nat) (hk : ∀ i, (g i).length = k)
    (n : Nat) : ((List.range n).flatMap g).length = n * k := by
  induction n with
  | zero => simp
  | succ m ih =>
    rw [List.range_succ, List.flatMap_append, List.length_append, ih]
    simp [hk, Nat.succ_mul]

/-- In an array of `n` records of `k` bytes each, written after `pre`, record `i` is found at
offset `pre.length + i * k`. -/
theorem slice_flatMap_range (g : Nat → List Nat) (k : Nat) (hk : ∀ i, (g i).length = k)
    (pre : List Nat) (n : Nat) :
    ∀ (rest : List Nat) (i : Nat), i < n →
      slice (pre ++ (List.range n).flatMap g ++ rest) (pre.length + i * k) k = g i := by
  induction n with
  | zero => intro rest i h; omega
  | succ m ih =>
    intro rest i h
    rw [List.range_succ, List.flatMap_append]
    by_cases hi : i < m
    · have := ih (g m ++ rest) i hi
      simpa [List.append_assoc] using this
    · have him : i = m := by omega
      subst him
      have hlen : (pre ++ (List.range i).flatMap g).length = pre.length + i * k := by
        rw [List.length_append, length_flatMap_range g k hk]
      have := slice_append (pre ++ (List.range i).flatMap g) (g i) rest
      rw [hlen, hk] at this
      simpa [List.append_assoc] using this

/-- Scanning a NUL-free string followed by a NUL stops exactly at the NUL. -/
theorem takeWhile_nul (s rest : List Nat) (hs : 0 ∉ s) :
    (s ++ 0 :: rest).takeWhile (fun b => b != 0) = s := by
  induction s with
  | nil => simp
  | cons c cs ih =>
    have hc : c ≠ 0 := fun h => hs (h ▸ List.mem_cons_self _ _)
    have hcs : 0 ∉ cs := fun h => hs (List.mem_cons_of_mem _ h)
    simp [List.takeWhile_cons, hc, ih hcs]

/-- A NUL-free string followed by a NUL is read back as a C string at the offset it was
written at. -/
theorem cstrAt_append (pre s rest : List Nat) (hs : 0 ∉ s) :
    cstrAt (pre ++ c_str s ++ rest) pre.length = s := by
  unfold cstrAt c_str
  rw [List.append_assoc, List.drop_left, List.append_assoc]
  exact takeWhile_nul s rest hs

/-- Length of a string as written, terminator included. -/
theorem length_c_str (s : List Nat) : (c_str s).length = s.length + 1 := by
  simp [c_str]

end Binary
end eae6320

namespace eae6320
namespace Graphics
open Binary

/-- Struct layout of `sVertex`: member offsets and size. -/
theorem sVertex_layout :
    Binary.offsetsFrom 0 sVertex.members = [0, 4, 8, 12, 16, 20, 21, 22, 23] ∧
    sVertex.sizeof = 24 := by
  decide

/-- Every vertex record occupies `sizeof (sVertex)` bytes. -/
theorem length_sVertex_toBytes (p : Platform) (vtx : sVertex) :
    (sVertex.toBytes p vtx).length = sVertex.sizeof := by
  rw [sVertex_layout.2]
  cases p <;> rfl

/-- A well-formed vertex is read back from its bytes. -/
theorem sVertex_ofBytes_toBytes (p : Platform) (vtx : sVertex) (h : vtx.WellFormed) :
    sVertex.ofBytes p (sVertex.toBytes p vtx) = vtx := by
  obtain ⟨hx, hy, hz, hu, hv, hr, hg, hb, ha⟩ := h
  cases vtx with
  | mk x y z u v r g b a =>
    simp only at hx hy hz hu hv hr hg hb ha
    cases p <;>
    · simp only [sVertex.ofBytes, sVertex.toBytes, sVertex.colorBytes, Binary.u32Bytes,
        Binary.u32At, Binary.slice, Binary.byteAt, Binary.u32OfBytes, List.cons_append,
        List.nil_append, List.drop_succ_cons, List.drop_zero, List.take_succ_cons,
        List.take_zero, List.getD_cons_zero, List.getD_cons_succ, sVertex.mk.injEq]
      exact ⟨Binary.u32_digits x hx, Binary.u32_digits y hy, Binary.u32_digits z hz,
        Binary.u32_digits u hu, Binary.u32_digits v hv, Nat.mod_eq_of_lt hr,
        Nat.mod_eq_of_lt hg, Nat.mod_eq_of_lt hb, Nat.mod_eq_of_lt ha⟩

end Graphics
end eae6320

namespace eae6320
namespace Graphics
open Binary

/-- Writing the elements of an array one index at a time writes every element in order. -/
theorem flatMap_range_getD {α : Type} (l : List α) (d : α) (f : α → List Nat) :
    (List.range l.length).flatMap (fun i => f (l.getD i d)) = l.flatMap f := by
  rw [List.flatMap_def, List.flatMap_def, map_range_getD l d f]

/-- The mesh file as the builder writes it, array by array. -/
theorem writeFile_mesh_eq (p : Platform) (vs : List sVertex) (is : List Nat) :
    cMeshBuilder.writeFile p vs.length is.length vs is =
      u32Bytes vs.length ++ u32Bytes is.length ++ vs.flatMap (sVertex.toBytes p) ++
        is.flatMap u32Bytes := by
  unfold cMeshBuilder.writeFile
  rw [flatMap_range_getD vs default (sVertex.toBytes p), flatMap_range_getD is 0 u32Bytes]

/-- The two counts of a mesh file are read back from its first eight bytes. -/
theorem readMeshFile_counts (p : Platform) (nv ni : Nat) (hnv : nv < 2 ^ 32)
    (hni : ni < 2 ^ 32) (rest : List Nat) :
    (readMeshFile p (u32Bytes nv ++ u32Bytes ni ++ rest)).o_noOfVertices = nv ∧
    (readMeshFile p (u32Bytes nv ++ u32Bytes ni ++ rest)).o_noOfIndices = ni := by
  have h0 : u32At (u32Bytes nv ++ u32Bytes ni ++ rest) 0 = nv := by
    have := slice_append [] (u32Bytes nv) (u32Bytes ni ++ rest)
    simp only [List.nil_append, List.length_nil, length_u32Bytes] at this
    rw [u32At, List.append_assoc, this, u32OfBytes_u32Bytes nv hnv]
  have h4 : u32At (u32Bytes nv ++ u32Bytes ni ++ rest) 4 = ni := by
    have := slice_append (u32Bytes nv) (u32Bytes ni) rest
    simp only [length_u32Bytes] at this
    rw [u32At, this, u32OfBytes_u32Bytes ni hni]
  exact ⟨h0, h4⟩

end Graphics
end eae6320

namespace eae6320
namespace Graphics
open Binary

/-- Reading back a mesh file the builder wrote gives the counts and arrays it was written
from. -/
theorem readMeshFile_writeFile (p : Platform) (vs : List sVertex) (is : List Nat)
    (hvc : vs.length < 2 ^ 32) (hic : is.length < 2 ^ 32)
    (hvs : ∀ vtx ∈ vs, vtx.WellFormed) (his : ∀ i ∈ is, i < 2 ^ 32) :
    readMeshFile p (cMeshBuilder.writeFile p vs.length is.length vs is) =
      { o_noOfVertices := vs.length, o_noOfIndices := is.length,
        o_vertexData := vs, o_indexData := is } := by
  have hk : ∀ i, (sVertex.toBytes p (vs.getD i default)).length = sVertex.sizeof :=
    fun i => length_sVertex_toBytes p _
  have hk4 : ∀ j, (u32Bytes (is.getD j 0)).length = 4 := fun j => rfl
  have hcounts := readMeshFile_counts p vs.length is.length hvc hic
    ((List.range vs.length).flatMap (fun i => sVertex.toBytes p (vs.getD i default)) ++
      (List.range is.length).flatMap (fun j => u32Bytes (is.getD j 0)))
  have hbuf : cMeshBuilder.writeFile p vs.length is.length vs is =
      u32Bytes vs.length ++ u32Bytes is.length ++
        ((List.range vs.length).flatMap (fun i => sVertex.toBytes p (vs.getD i default)) ++
          (List.range is.length).flatMap (fun j => u32Bytes (is.getD j 0))) := by
    simp [cMeshBuilder.writeFile, List.append_assoc]
  rw [hbuf]
  have hnv := hcounts.1
  have hni := hcounts.2
  have hverts : (readMeshFile p (u32Bytes vs.length ++ u32Bytes is.length ++
        ((List.range vs.length).flatMap (fun i => sVertex.toBytes p (vs.getD i default)) ++
          (List.range is.length).flatMap (fun j => u32Bytes (is.getD j 0))))).o_vertexData
      = vs := by
    show (List.range (readMeshFile p _).o_noOfVertices).map _ = vs
    rw [hnv]
    have hmap : ∀ i ∈ List.range vs.length,
        sVertex.ofBytes p (slice (u32Bytes vs.length ++ u32Bytes is.length ++
          ((List.range vs.length).flatMap (fun i => sVertex.toBytes p (vs.getD i default)) ++
            (List.range is.length).flatMap (fun j => u32Bytes (is.getD j 0))))
          (8 + i * sVertex.sizeof) sVertex.sizeof) = vs.getD i default := by
      intro i hi
      have hi' : i < vs.length := List.mem_range.1 hi
      have hs := slice_flatMap_range
        (fun i => sVertex.toBytes p (vs.getD i default)) sVertex.sizeof hk
        (u32Bytes vs.length ++ u32Bytes is.length) vs.length
        ((List.range is.length).flatMap (fun j => u32Bytes (is.getD j 0))) i hi'
      have hlen : (u32Bytes vs.length ++ u32Bytes is.length).length = 8 := rfl
      rw [hlen] at hs
      rw [← List.append_assoc, hs]
      apply sVertex_ofBytes_toBytes
      apply hvs
      rw [List.getD_eq_getElem?_getD, List.getElem?_eq_getElem hi']
      exact List.getElem_mem _
    rw [List.map_congr_left hmap]
    exact map_range_getD vs default id |>.trans (List.map_id vs)
  have hinds : (readMeshFile p (u32Bytes vs.length ++ u32Bytes is.length ++
        ((List.range vs.length).flatMap (fun i => sVertex.toBytes p (vs.getD i default)) ++
          (List.range is.length).flatMap (fun j => u32Bytes (is.getD j 0))))).o_indexData
      = is := by
    show (List.range (readMeshFile p _).o_noOfIndices).map
      (fun j => u32At _ (8 + (readMeshFile p _).o_noOfVertices * sVertex.sizeof + j * 4)) = is
    rw [hni, hnv]
    have hmap : ∀ j ∈ List.range is.length,
        u32At (u32Bytes vs.length ++ u32Bytes is.length ++
          ((List.range vs.length).flatMap (fun i => sVertex.toBytes p (vs.getD i default)) ++
            (List.range is.length).flatMap (fun j => u32Bytes (is.getD j 0))))
          (8 + vs.length * sVertex.sizeof + j * 4) = is.getD j 0 := by
      intro j hj
      have hj' : j < is.length := List.mem_range.1 hj
      have hs := slice_flatMap_range (fun j => u32Bytes (is.getD j 0)) 4 hk4
        (u32Bytes vs.length ++ u32Bytes is.length ++
          (List.range vs.length).flatMap (fun i => sVertex.toBytes p (vs.getD i default)))
        is.length [] j hj'
      have hlen : (u32Bytes vs.length ++ u32Bytes is.length ++
          (List.range vs.length).flatMap (fun i => sVertex.toBytes p (vs.getD i default))).length
            = 8 + vs.length * sVertex.sizeof := by
        rw [List.length_append, length_flatMap_range _ sVertex.sizeof hk]
        rfl
      rw [hlen, List.append_nil] at hs
      rw [u32At, ← List.append_assoc, hs]
      apply u32OfBytes_u32Bytes
      apply his
      rw [List.getD_eq_getElem?_getD, List.getElem?_eq_getElem hj']
      exact List.getElem_mem _
    rw [List.map_congr_left hmap]
    exact map_range_getD is 0 id |>.trans (List.map_id is)
  have hstruct : ∀ m : MeshView, m = ⟨m.o_noOfVertices, m.o_noOfIndices, m.o_vertexData,
      m.o_indexData⟩ := fun m => rfl
  rw [hstruct (readMeshFile p _), hnv, hni, hverts, hinds]

end Graphics
end eae6320

namespace eae6320
namespace Graphics
open Binary

/-! ## C11: the effect file -/

/-- Reading back an effect file with NUL-free paths gives the mask and the two paths. -/
theorem readEffectFile_writeFile (m : Nat) (vp fp : List Nat) (hm : m < 256)
    (hvp : 0 ∉ vp) (hfp : 0 ∉ fp) :
    readEffectFile (cEffectBuilder.writeFile m vp fp) =
      { m_renderStates := m, i_vertexPath := vp, i_fragmentPath := fp } := by
  have h1 : cstrAt (cEffectBuilder.writeFile m vp fp) 1 = vp := by
    have := cstrAt_append [m % 256] vp (c_str fp) hvp
    simpa [cEffectBuilder.writeFile] using this
  have h2 : cstrAt (cEffectBuilder.writeFile m vp fp) (1 + (vp.length + 1)) = fp := by
    have := cstrAt_append ([m % 256] ++ c_str vp) fp [] hfp
    rw [List.length_append, length_c_str] at this
    simpa [cEffectBuilder.writeFile] using this
  unfold readEffectFile
  simp only [h1, h2]
  simp [cEffectBuilder.writeFile, byteAt, Nat.mod_eq_of_lt hm]

/-- C11: for every mask byte `m` and NUL-free strings `vp`, `fp`, the effect builder writes
exactly `[m] ++ vp ++ [0] ++ fp ++ [0]`, and the parse of `LoadEffect` (mask at offset 0,
vertex path at offset 1, fragment path at offset `1 + len vp + 1`) recovers `(m, vp, fp)`. -/
theorem effect_file_round_trip (m : Nat) (vp fp : List Nat) (hm : m < 256)
    (hvp : 0 ∉ vp) (hfp : 0 ∉ fp) :
    cEffectBuilder.writeFile m vp fp = [m] ++ vp ++ [0] ++ fp ++ [0] ∧
    (readEffectFile (cEffectBuilder.writeFile m vp fp)).m_renderStates = m ∧
    (readEffectFile (cEffectBuilder.writeFile m vp fp)).i_vertexPath = vp ∧
    (readEffectFile (cEffectBuilder.writeFile m vp fp)).i_fragmentPath = fp ∧
    (readEffectFile (cEffectBuilder.writeFile m vp fp)).i_fragmentPath
      = cstrAt (cEffectBuilder.writeFile m vp fp) (1 + vp.length + 1) := by
  have h := readEffectFile_writeFile m vp fp hm hvp hfp
  refine ⟨?_, ?_, ?_, ?_, ?_⟩
  · simp [cEffectBuilder.writeFile, c_str, Nat.mod_eq_of_lt hm]
  · rw [h]
  · rw [h]
  · rw [h]
  · have hv : (readEffectFile (cEffectBuilder.writeFile m vp fp)).i_vertexPath = vp := by rw [h]
    show cstrAt _ (1 + ((readEffectFile _).i_vertexPath.length + 1)) = _
    rw [hv, Nat.add_assoc]

/-- Witness for C11: mask 0b1011, vertex path "v.s", fragment path "f". -/
theorem effect_file_round_trip_witness :
    (11 < 256 ∧ 0 ∉ [118, 46, 115] ∧ 0 ∉ [102]) ∧
    cEffectBuilder.writeFile 11 [118, 46, 115] [102] = [11, 118, 46, 115, 0, 102, 0] ∧
    (readEffectFile [11, 118, 46, 115, 0, 102, 0]).i_fragmentPath = [102] :=
  ⟨by decide,
   (effect_file_round_trip 11 [118, 46, 115] [102] (by decide) (by decide) (by decide)).1,
   (effect_file_round_trip 11 [118, 46, 115] [102] (by decide) (by decide)
      (by decide)).2.2.2.1⟩

/-! ## C12: the mesh file -/

/-- C12: for every array of `vc` well-formed vertices and `ic` 32-bit indices (both counts
representable in a `uint32_t`), the mesh builder writes the count `vc` and the count `ic` as
little-endian `uint32_t`, then the `vc` vertex records of `sizeof (sVertex)` bytes each, then
the `ic` indices as `uint32_t`, in total `8 + vc * sizeof (sVertex) + 4 * ic` bytes; and the
parse of `LoadMesh` recovers the two counts, the vertex records and the indices. -/
theorem mesh_file_round_trip (p : Platform) (vs : List sVertex) (is : List Nat)
    (hvc : vs.length < 2 ^ 32) (hic : is.length < 2 ^ 32)
    (hvs : ∀ vtx ∈ vs, vtx.WellFormed) (his : ∀ i ∈ is, i < 2 ^ 32) :
    cMeshBuilder.writeFile p vs.length is.length vs is =
      u32Bytes vs.length ++ u32Bytes is.length ++ vs.flatMap (sVertex.toBytes p) ++
        is.flatMap u32Bytes ∧
    (∀ vtx, (sVertex.toBytes p vtx).length = sVertex.sizeof) ∧
    (cMeshBuilder.writeFile p vs.length is.length vs is).length =
      8 + vs.length * sVertex.sizeof + 4 * is.length ∧
    readMeshFile p (cMeshBuilder.writeFile p vs.length is.length vs is) =
      { o_noOfVertices := vs.length, o_noOfIndices := is.length,
        o_vertexData := vs, o_indexData := is } := by
  refine ⟨writeFile_mesh_eq p vs is, length_sVertex_toBytes p, ?_,
    readMeshFile_writeFile p vs is hvc hic hvs his⟩
  unfold cMeshBuilder.writeFile
  simp only [List.length_append, length_u32Bytes]
  rw [length_flatMap_range _ sVertex.sizeof (fun i => length_sVertex_toBytes p _),
    length_flatMap_range _ 4 (fun j => length_u32Bytes _)]
  omega

/-- Witness for C12: one vertex and three indices in the OpenGL layout. -/
theorem mesh_file_round_trip_witness :
    (readMeshFile Platform.GL
      (cMeshBuilder.writeFile Platform.GL 1 3 [⟨1, 2, 3, 4, 5, 255, 0, 128, 255⟩]
        [0, 0, 0])).o_vertexData
      = [⟨1, 2, 3, 4, 5, 255, 0, 128, 255⟩] :=
  congrArg MeshView.o_vertexData
    (mesh_file_round_trip Platform.GL [⟨1, 2, 3, 4, 5, 255, 0, 128, 255⟩] [0, 0, 0]
      (by decide) (by decide)
      (by
        intro vtx hv
        rw [List.mem_singleton.1 hv]
        simp [sVertex.WellFormed])
      (by decide)).2.2.2

/-! ## C13: the size of a vertex record -/

/-- C13, as stated, fails: `sizeof (sVertex)` is not 20. -/
theorem sVertex_stride_counterexample : ¬ (sVertex.sizeof = 20) := by
  decide

/-- C13, amended: the vertex record has a fixed 24-byte stride.  Both declarations of
`sVertex` (engine and mesh builder) have size 24, with the position at offset 0, the texture
coordinates at offset 12 and the colour at offset 20; the builder writes 24 bytes per vertex,
`LoadMesh` locates the index data at `8 + vertexCount * 24`, and both backends use 24 as the
vertex-buffer stride with attribute offsets 0, 12, 20. -/
theorem sVertex_stride :
    sVertex.sizeof = 24 ∧
    Binary.sizeof cMeshBuilder.sVertex_members = 24 ∧
    Binary.offsetsFrom 0 sVertex.members = [0, 4, 8, 12, 16, 20, 21, 22, 23] ∧
    (∀ (p : Platform) (vtx : sVertex), (sVertex.toBytes p vtx).length = 24) ∧
    (∀ (p : Platform) (buf : List Nat),
      (readMeshFile p buf).o_indexData =
        (List.range (u32At buf 4)).map fun j => u32At buf (8 + u32At buf 0 * 24 + j * 4)) ∧
    OpenGL.vertexStride = 24 ∧ Direct3D.bufferStride = 24 ∧
    OpenGL.vertexAttributeOffsets = [0, 12, 20] ∧
    Direct3D.vertexElementOffsets = [0, 12, 20] := by
  refine ⟨by decide, by decide, by decide, ?_, ?_, by decide, by decide, by decide, by decide⟩
  · intro p vtx
    cases p <;> rfl
  · intro p buf
    have h24 : sVertex.sizeof = 24 := by decide
    simp only [readMeshFile, h24]

end Graphics
end eae6320

namespace eae6320
namespace Graphics
open Binary

/-- Struct layout of `sUniformHelper` for 4-byte and 8-byte handles: 24 and 32 bytes. -/
theorem sUniformHelper_sizeof :
    sUniformHelper.sizeof 4 = 24 ∧ sUniformHelper.sizeof 8 = 32 := by
  decide

/-- Every uniform record occupies `sizeof (sUniformHelper)` bytes. -/
theorem length_sUniformHelper_toBytes (hs : Nat) (hhs : hs = 4 ∨ hs = 8) (junk : List Nat)
    (h : sUniformHelper) :
    (sUniformHelper.toBytes hs junk h).length = sUniformHelper.sizeof hs := by
  rcases hhs with rfl | rfl
  · rw [sUniformHelper_sizeof.1]
    simp [sUniformHelper.toBytes, sUniformHelper_sizeof.1, leBytes, u32Bytes]
  · rw [sUniformHelper_sizeof.2]
    simp [sUniformHelper.toBytes, sUniformHelper_sizeof.2, leBytes, u32Bytes]

/-- The byte of a shader type is read back as that shader type. -/
theorem eShaderType_ofByte_toByte (t : eShaderType) : eShaderType.ofByte t.toByte = t := by
  cases t <;> rfl

/-- The values, the value count and the shader type of a record are read back from its
bytes. -/
theorem sUniformHelper_ofBytes_toBytes (hs : Nat) (hhs : hs = 4 ∨ hs = 8) (junk : List Nat)
    (h : sUniformHelper) (hlen : h.values.length = 4) (hval : ∀ x ∈ h.values, x < 2 ^ 32)
    (hcount : h.valueCountToSet < 256) :
    (sUniformHelper.ofBytes hs (sUniformHelper.toBytes hs junk h)).values = h.values ∧
    (sUniformHelper.ofBytes hs (sUniformHelper.toBytes hs junk h)).valueCountToSet
      = h.valueCountToSet ∧
    (sUniformHelper.ofBytes hs (sUniformHelper.toBytes hs junk h)).shaderType
      = h.shaderType := by
  cases h with
  | mk handle values count stage =>
    simp only at hlen hval hcount
    have hc := Nat.mod_eq_of_lt hcount
    match values, hlen with
    | [v0, v1, v2, v3], _ =>
      have h0 := u32_digits v0 (hval v0 (by simp))
      have h1 := u32_digits v1 (hval v1 (by simp))
      have h2 := u32_digits v2 (hval v2 (by simp))
      have h3 := u32_digits v3 (hval v3 (by simp))
      rcases hhs with rfl | rfl
      · simp only [sUniformHelper.ofBytes, sUniformHelper.toBytes, leBytes, u32Bytes, u32At,
          Binary.slice, byteAt, u32OfBytes, List.cons_append, List.nil_append, List.drop_succ_cons,
          List.drop_zero, List.take_succ_cons, List.take_zero, List.getD_cons_zero,
          List.getD_cons_succ, h0, h1, h2, h3, hc, eShaderType_ofByte_toByte, and_self]
      · simp only [sUniformHelper.ofBytes, sUniformHelper.toBytes, leBytes, u32Bytes, u32At,
          Binary.slice, byteAt, u32OfBytes, List.cons_append, List.nil_append, List.drop_succ_cons,
          List.drop_zero, List.take_succ_cons, List.take_zero, List.getD_cons_zero,
          List.getD_cons_succ, h0, h1, h2, h3, hc, eShaderType_ofByte_toByte, and_self]

/-- NUL-free names written one after the other are read back in the same order. -/
theorem readNames_append (names : List (List Nat)) (hnames : ∀ s ∈ names, 0 ∉ s) :
    ∀ (pre rest : List Nat),
      readNames (pre ++ names.flatMap c_str ++ rest) names.length pre.length = names := by
  induction names with
  | nil => intro pre rest; rfl
  | cons s ss ih =>
    intro pre rest
    have hs : 0 ∉ s := hnames s (List.mem_cons_self _ _)
    have hss : ∀ t ∈ ss, 0 ∉ t := fun t ht => hnames t (List.mem_cons_of_mem _ ht)
    have hhead : cstrAt (pre ++ (s :: ss).flatMap c_str ++ rest) pre.length = s := by
      have := cstrAt_append pre s (ss.flatMap c_str ++ rest) hs
      simpa [List.flatMap_cons, List.append_assoc] using this
    have htail := ih hss (pre ++ c_str s) rest
    rw [List.length_append, length_c_str, ← Nat.add_assoc] at htail
    simp only [List.length_cons, readNames, hhead]
    rw [show pre ++ (s :: ss).flatMap c_str ++ rest = pre ++ c_str s ++ ss.flatMap c_str ++ rest
      by simp [List.flatMap_cons, List.append_assoc], htail]

end Graphics
end eae6320

namespace eae6320
namespace Graphics
open Binary

/-- What a uniform record says about its uniform: values, value count and shader type. -/
theorem uniformContent_def (h : sUniformHelper) :
    uniformContent h = (h.values, h.valueCountToSet, h.shaderType) := rfl

/-- Reading back a material file the builder wrote gives the three strings, the count, the
content of every uniform record and the names it was written from. -/
theorem readMaterialFile_writeFile (hs : Nat) (hhs : hs = 4 ∨ hs = 8) (junk : Nat → List Nat)
    (ep th tp : List Nat) (us : List sUniformHelper) (names : List (List Nat))
    (hep : 0 ∉ ep) (hth : 0 ∉ th) (htp : 0 ∉ tp) (hn : us.length ≤ 255)
    (hlen : names.length = us.length)
    (hus : ∀ h ∈ us, h.values.length = 4 ∧ (∀ x ∈ h.values, x < 2 ^ 32) ∧
      h.valueCountToSet < 256)
    (hnames : ∀ s ∈ names, 0 ∉ s) :
    (readMaterialFile hs
      (cMaterialBuilder.writeFile hs junk ep th tp us.length us names)).i_effectPath = ep ∧
    (readMaterialFile hs
      (cMaterialBuilder.writeFile hs junk ep th tp us.length us names)).i_textureHandle = th ∧
    (readMaterialFile hs
      (cMaterialBuilder.writeFile hs junk ep th tp us.length us names)).i_texturePath = tp ∧
    (readMaterialFile hs
      (cMaterialBuilder.writeFile hs junk ep th tp us.length us names)).m_noOfUniforms
        = us.length ∧
    (readMaterialFile hs
      (cMaterialBuilder.writeFile hs junk ep th tp us.length us names)).m_uniforms.map
        uniformContent = us.map uniformContent ∧
    (readMaterialFile hs
      (cMaterialBuilder.writeFile hs junk ep th tp us.length us names)).uniformNamesArray
        = names := by
  -- the file, with the arrays as two blocks
  set recs := (List.range us.length).flatMap (fun i =>
    sUniformHelper.toBytes hs (junk i) (us.getD i default)) with hrecs
  have hk : ∀ i, (sUniformHelper.toBytes hs (junk i) (us.getD i default)).length
      = sUniformHelper.sizeof hs := fun i => length_sUniformHelper_toBytes hs hhs _ _
  have hnamesBlock : (List.range us.length).flatMap (fun i => c_str (names.getD i []))
      = names.flatMap c_str := by
    rw [← hlen]
    exact flatMap_range_getD names [] c_str
  have hbuf : cMaterialBuilder.writeFile hs junk ep th tp us.length us names =
      c_str ep ++ c_str th ++ c_str tp ++ [us.length] ++ recs ++ names.flatMap c_str := by
    unfold cMaterialBuilder.writeFile
    rw [hnamesBlock, Nat.mod_eq_of_lt (by omega : us.length < 256)]
  rw [hbuf]
  set buf := c_str ep ++ c_str th ++ c_str tp ++ [us.length] ++ recs ++ names.flatMap c_str
    with hbufdef
  -- the three strings
  have h1 : cstrAt buf 0 = ep := by
    have := cstrAt_append [] ep (c_str th ++ c_str tp ++ [us.length] ++ recs ++
      names.flatMap c_str) hep
    simpa [hbufdef, List.append_assoc] using this
  have h2 : cstrAt buf (ep.length + 1) = th := by
    have := cstrAt_append (c_str ep) th (c_str tp ++ [us.length] ++ recs ++
      names.flatMap c_str) hth
    rw [length_c_str] at this
    simpa [hbufdef, List.append_assoc] using this
  have h3 : cstrAt buf (ep.length + 1 + (th.length + 1)) = tp := by
    have := cstrAt_append (c_str ep ++ c_str th) tp ([us.length] ++ recs ++
      names.flatMap c_str) htp
    rw [List.length_append, length_c_str, length_c_str] at this
    simpa [hbufdef, List.append_assoc] using this
  -- the count byte
  have hpre3 : (c_str ep ++ c_str th ++ c_str tp).length
      = ep.length + 1 + (th.length + 1) + (tp.length + 1) := by
    simp only [List.length_append, length_c_str]
  have h4 : byteAt buf (ep.length + 1 + (th.length + 1) + (tp.length + 1)) = us.length := by
    unfold byteAt
    rw [hbufdef, ← hpre3, List.append_assoc, List.append_assoc,
      List.getD_append_right _ _ _ _ (Nat.le_refl _), Nat.sub_self]
    rfl
  have hpre4 : (c_str ep ++ c_str th ++ c_str tp ++ [us.length]).length
      = ep.length + 1 + (th.length + 1) + (tp.length + 1) + 1 := by
    rw [List.length_append, hpre3]
    rfl
  -- the records
  have h5 : ∀ i ∈ List.range us.length,
      uniformContent (sUniformHelper.ofBytes hs (Binary.slice buf
        (ep.length + 1 + (th.length + 1) + (tp.length + 1) + 1 + i * sUniformHelper.sizeof hs)
        (sUniformHelper.sizeof hs))) = uniformContent (us.getD i default) := by
    intro i hi
    have hi' : i < us.length := List.mem_range.1 hi
    have hsl := slice_flatMap_range (fun i => sUniformHelper.toBytes hs (junk i)
      (us.getD i default)) (sUniformHelper.sizeof hs) hk
      (c_str ep ++ c_str th ++ c_str tp ++ [us.length]) us.length (names.flatMap c_str) i hi'
    rw [hpre4] at hsl
    rw [hbufdef, hrecs, hsl]
    have hmem : us.getD i default ∈ us := by
      rw [List.getD_eq_getElem?_getD, List.getElem?_eq_getElem hi']
      exact List.getElem_mem _
    obtain ⟨hl, hv, hc⟩ := hus _ hmem
    obtain ⟨e1, e2, e3⟩ := sUniformHelper_ofBytes_toBytes hs hhs (junk i) _ hl hv hc
    rw [uniformContent_def, uniformContent_def, e1, e2, e3]
  -- the names
  have hpre5 : (c_str ep ++ c_str th ++ c_str tp ++ [us.length] ++ recs).length
      = ep.length + 1 + (th.length + 1) + (tp.length + 1) + 1
        + sUniformHelper.sizeof hs * us.length := by
    rw [List.length_append, hpre4, hrecs, length_flatMap_range _ _ hk, Nat.mul_comm]
  have h6 : readNames buf us.length (ep.length + 1 + (th.length + 1) + (tp.length + 1) + 1
      + sUniformHelper.sizeof hs * us.length) = names := by
    have := readNames_append names hnames
      (c_str ep ++ c_str th ++ c_str tp ++ [us.length] ++ recs) []
    rw [hpre5, hlen, List.append_nil] at this
    exact this
  -- assemble
  unfold readMaterialFile
  simp only [h1, h2, h3, h4, h6, List.map_map, true_and]
  rw [List.map_congr_left (fun i hi => by
    simpa [Function.comp_def] using h5 i hi)]
  refine ⟨?_, trivial⟩
  have := map_range_getD us default uniformContent
  simpa [List.getD_eq_getElem?_getD] using this

end Graphics
end eae6320

namespace eae6320
namespace Graphics
open Binary

/-! ## C14: the material file -/

/-- C14: for every material with NUL-free effect path, sampler name and texture path and
`n ≤ 255` uniform records (each with four 32-bit value slots, a value count from 1 to 4 and a
NUL-free name), the material builder writes the three strings back to back with their
terminators, then the byte `n`, then the `n` records of `sizeof (sUniformHelper)` bytes each,
then the `n` names with their terminators in the same order; and the running-offset parse of
`LoadMaterial` recovers the three strings, `n`, the values, value count and shader type of
every record, and the names, the i-th name next to the i-th record. -/
theorem material_file_round_trip (hs : Nat) (hhs : hs = 4 ∨ hs = 8) (junk : Nat → List Nat)
    (ep th tp : List Nat) (us : List sUniformHelper) (names : List (List Nat))
    (hep : 0 ∉ ep) (hth : 0 ∉ th) (htp : 0 ∉ tp) (hn : us.length ≤ 255)
    (hlen : names.length = us.length)
    (hus : ∀ h ∈ us, h.values.length = 4 ∧ (∀ x ∈ h.values, x < 2 ^ 32) ∧
      1 ≤ h.valueCountToSet ∧ h.valueCountToSet ≤ 4)
    (hnames : ∀ s ∈ names, 0 ∉ s) :
    cMaterialBuilder.writeFile hs junk ep th tp us.length us names =
      ep ++ [0] ++ th ++ [0] ++ tp ++ [0] ++ [us.length] ++
        (List.range us.length).flatMap (fun i =>
          sUniformHelper.toBytes hs (junk i) (us.getD i default)) ++
        names.flatMap (fun s => s ++ [0]) ∧
    (∀ i, (sUniformHelper.toBytes hs (junk i) (us.getD i default)).length
      = sUniformHelper.sizeof hs) ∧
    (readMaterialFile hs
      (cMaterialBuilder.writeFile hs junk ep th tp us.length us names)).i_effectPath = ep ∧
    (readMaterialFile hs
      (cMaterialBuilder.writeFile hs junk ep th tp us.length us names)).i_textureHandle = th ∧
    (readMaterialFile hs
      (cMaterialBuilder.writeFile hs junk ep th tp us.length us names)).i_texturePath = tp ∧
    (readMaterialFile hs
      (cMaterialBuilder.writeFile hs junk ep th tp us.length us names)).m_noOfUniforms
        = us.length ∧
    (readMaterialFile hs
      (cMaterialBuilder.writeFile hs junk ep th tp us.length us names)).m_uniforms.map
        uniformContent = us.map uniformContent ∧
    (readMaterialFile hs
      (cMaterialBuilder.writeFile hs junk ep th tp us.length us names)).uniformNamesArray
        = names ∧
    ((readMaterialFile hs
      (cMaterialBuilder.writeFile hs junk ep th tp us.length us names)).m_uniforms.map
        uniformContent).zip
      (readMaterialFile hs
        (cMaterialBuilder.writeFile hs junk ep th tp us.length us names)).uniformNamesArray
      = (us.map uniformContent).zip names := by
  have hus' : ∀ h ∈ us, h.values.length = 4 ∧ (∀ x ∈ h.values, x < 2 ^ 32) ∧
      h.valueCountToSet < 256 := by
    intro h hh
    obtain ⟨a, b, _, d⟩ := hus h hh
    exact ⟨a, b, by omega⟩
  obtain ⟨r1, r2, r3, r4, r5, r6⟩ :=
    readMaterialFile_writeFile hs hhs junk ep th tp us names hep hth htp hn hlen hus' hnames
  refine ⟨?_, fun i => length_sUniformHelper_toBytes hs hhs _ _, r1, r2, r3, r4, r5, r6, ?_⟩
  · unfold cMaterialBuilder.writeFile
    rw [← hlen, flatMap_range_getD names [] c_str, hlen,
      Nat.mod_eq_of_lt (by omega : us.length < 256)]
    have hc : c_str = fun s => s ++ [0] := rfl
    simp only [hc, List.append_assoc]
  · rw [r5, r6]

/-- Witness for C14: one uniform with two values on the fragment stage, 4-byte handles. -/
theorem material_file_round_trip_witness :
    (readMaterialFile 4
      (cMaterialBuilder.writeFile 4 (fun _ => []) [101] [116] [112] 1
        [⟨0, [1, 2, 3, 4], 2, eShaderType.fragment⟩] [[110]])).uniformNamesArray = [[110]] :=
  (material_file_round_trip 4 (Or.inl rfl) (fun _ => []) [101] [116] [112]
    [⟨0, [1, 2, 3, 4], 2, eShaderType.fragment⟩] [[110]]
    (by decide) (by decide) (by decide) (by decide) rfl
    (by
      intro h hh
      rw [List.mem_singleton.1 hh]
      refine ⟨rfl, ?_, by decide, by decide⟩
      intro x hx
      simp only [List.mem_cons, List.mem_singleton, List.not_mem_nil, or_false] at hx
      rcases hx with rfl | rfl | rfl | rfl <;> decide)
    (by decide)).2.2.2.2.2.2.2.1

end Graphics
end eae6320

namespace eae6320

/-! ## How builder steps compose -/

/-- A composed step succeeds exactly when both parts do. -/
theorem Outcome.andThen_eq_success {α β : Type} (o : Outcome α) (f : α → Outcome β)
    (b : β) :
    o.andThen f = .success b ↔ ∃ a, o = .success a ∧ f a = .success b := by
  cases o <;> simp [Outcome.andThen]

/-- A table access that went through gave a value. -/
theorem Outcome.ofIndex_eq_success (v : Option Lua.Value) (x : Lua.Value) :
    Outcome.ofIndex v = .success x ↔ v = some x := by
  cases v <;> simp [Outcome.ofIndex]

/-- A length that was taken raised no error. -/
theorem Outcome.ofLen_eq_success (n : Option Nat) (x : Nat) :
    Outcome.ofLen n = .success x ↔ n = some x := by
  cases n <;> simp [Outcome.ofLen]

/-- The loop counter values are `1` to `count`. -/
theorem mem_fromOne (count j : Nat) : j ∈ fromOne count ↔ 1 ≤ j ∧ j ≤ count := by
  simp only [fromOne, List.mem_map, List.mem_range]
  constructor
  · rintro ⟨k, hk, rfl⟩
    omega
  · rintro ⟨h1, h2⟩
    exact ⟨j - 1, by omega, by omega⟩

namespace Lua

/-- The border search never goes past its fuel. -/
theorem lengthFrom_le (get : Key → Value) :
    ∀ fuel n, lengthFrom get fuel n ≤ n + fuel := by
  intro fuel
  induction fuel with
  | zero => intro n; simp [lengthFrom]
  | succ k ih =>
    intro n
    simp only [lengthFrom]
    split
    · omega
    · have := ih (n + 1)
      omega

/-- A length fits the `int` it is stored in. -/
theorem len_le_maxLength (v : Value) (n : Nat) (h : len v = some n) (ht : ∃ get, v = .table get) :
    n ≤ maxLength := by
  obtain ⟨get, rfl⟩ := ht
  simp only [len, Option.some.injEq] at h
  have := lengthFrom_le get maxLength 0
  omega

end Lua
end eae6320

namespace eae6320
namespace cMaterialBuilder
open Graphics

end cMaterialBuilder
end eae6320

namespace eae6320
namespace cMaterialBuilder
open Graphics Examples

end cMaterialBuilder
end eae6320

namespace eae6320
namespace cMeshBuilder
open Graphics Examples Binary

/-- What a successful index load returned: the length of the `indices` table, a table. -/
theorem LoadIndices_success (c : Lua.Conversions) (p : Platform) (asset : Lua.Value)
    (r : Nat × List Nat) (h : LoadIndices c p asset = .success r) :
    ∃ indices, Lua.index asset (.str "indices") = some indices ∧
      Lua.len indices = some r.1 ∧ r.1 < 2 ^ 32 := by
  unfold LoadIndices at h
  obtain ⟨indices, hi, h1⟩ := (Outcome.andThen_eq_success _ _ _).1 h
  cases indices with
  | table get =>
    simp only at h1
    obtain ⟨indexCount, hlen, h2⟩ := (Outcome.andThen_eq_success _ _ _).1 h1
    obtain ⟨data, _, h3⟩ := (Outcome.andThen_eq_success _ _ _).1 h2
    simp only [Outcome.success.injEq] at h3
    subst h3
    have hlen' := (Outcome.ofLen_eq_success _ _).1 hlen
    have hle := Lua.len_le_maxLength _ _ hlen' ⟨get, rfl⟩
    refine ⟨_, (Outcome.ofIndex_eq_success _ _).1 hi, hlen', ?_⟩
    have : Lua.maxLength < 2 ^ 32 := by decide
    exact Nat.lt_of_le_of_lt hle this
  | nil => simp at h1
  | boolean b => simp at h1
  | number q => simp at h1
  | string s => simp at h1

/-- What a successful vertex load returned: a count below `2 ^ 32`. -/
theorem LoadVertices_success (c : Lua.Conversions) (asset : Lua.Value)
    (r : Nat × List sVertex) (h : LoadVertices c asset = .success r) : r.1 < 2 ^ 32 := by
  unfold LoadVertices at h
  obtain ⟨vertices, _, h1⟩ := (Outcome.andThen_eq_success _ _ _).1 h
  cases vertices with
  | table get =>
    simp only at h1
    obtain ⟨vertexCount, hlen, h2⟩ := (Outcome.andThen_eq_success _ _ _).1 h1
    obtain ⟨data, _, h3⟩ := (Outcome.andThen_eq_success _ _ _).1 h2
    simp only [Outcome.success.injEq] at h3
    subst h3
    have hle := Lua.len_le_maxLength _ _ ((Outcome.ofLen_eq_success _ _).1 hlen) ⟨get, rfl⟩
    have : Lua.maxLength < 2 ^ 32 := by decide
    exact Nat.lt_of_le_of_lt hle this
  | nil => simp at h1
  | boolean b => simp at h1
  | number q => simp at h1
  | string s => simp at h1

/-- The index count in the header of a built mesh file is the length of the `indices` table
of the description. -/
theorem Build_index_count (c : Lua.Conversions) (p : Platform) (asset : Lua.Value)
    (bytes : List Nat) (h : Build c p asset = .success bytes) :
    ∃ indices n, Lua.index asset (.str "indices") = some indices ∧
      Lua.len indices = some n ∧ (readMeshFile p bytes).o_noOfIndices = n := by
  unfold Build at h
  cases asset with
  | table get =>
    simp only at h
    obtain ⟨vertices, hv, h1⟩ := (Outcome.andThen_eq_success _ _ _).1 h
    obtain ⟨indices, hi, h2⟩ := (Outcome.andThen_eq_success _ _ _).1 h1
    simp only [Outcome.success.injEq] at h2
    subst h2
    obtain ⟨t, ht, hlen, hlt⟩ := LoadIndices_success c p _ _ hi
    refine ⟨t, indices.1, ht, hlen, ?_⟩
    unfold writeFile
    rw [List.append_assoc (u32Bytes vertices.1 ++ u32Bytes indices.1)]
    exact (readMeshFile_counts p _ _ (LoadVertices_success c _ _ hv) hlt _).2
  | nil => simp at h
  | boolean b => simp at h
  | number q => simp at h
  | string s => simp at h

/-- C18 as stated fails: the description `fourIndexMesh` (four indices) is built by the mesh
builder of either platform, the header of the file carries the index count 4, `LoadMesh`
accepts the file and records 4, and 3 does not divide 4. -/
theorem index_count_multiple_of_three_counterexample :
    Build zeroConversions .GL fourIndexMesh
      = .success ([4, 0, 0, 0, 4, 0, 0, 0] ++ List.replicate 112 0) ∧
    Build zeroConversions .D3D fourIndexMesh
      = .success ([4, 0, 0, 0, 4, 0, 0, 0] ++ List.replicate 112 0) ∧
    (LoadMesh (meshWorldOfFile .GL ([4, 0, 0, 0, 4, 0, 0, 0] ++ List.replicate 112 0)
      createBuffersOk) default).ok = true ∧
    (LoadMesh (meshWorldOfFile .GL ([4, 0, 0, 0, 4, 0, 0, 0] ++ List.replicate 112 0)
      createBuffersOk) default).value.m_noOfIndices = 4 ∧
    ¬ 3 ∣ (LoadMesh (meshWorldOfFile .GL ([4, 0, 0, 0, 4, 0, 0, 0] ++ List.replicate 112 0)
      createBuffersOk) default).value.m_noOfIndices := by
  refine ⟨by decide, by decide, by decide, by decide, by decide⟩

/-- C18 (amended): the recorded index count is the length of the description's `indices`
table, whatever that is.  For every mesh description the builder builds into `bytes`, with an
`indices` table of length `n`, the header of the file carries `n`; `LoadMesh` on a file with
this content (that opens, with memory obtained, and a `CreateBuffers` that leaves the count
alone) succeeds and records `n`; so the recorded count is a multiple of 3 exactly when `n`
is. -/
theorem index_count_recorded (c : Lua.Conversions) (p : Platform) (asset indices : Lua.Value)
    (n : Nat) (bytes : List Nat) (CreateBuffers : Mesh → Loaded Mesh) (i_mesh : Mesh)
    (hbuild : Build c p asset = .success bytes)
    (hi : Lua.index asset (.str "indices") = some indices)
    (hn : Lua.len indices = some n)
    (hcb : ∀ m, (CreateBuffers m).value.m_noOfIndices = m.m_noOfIndices) :
    (readMeshFile p bytes).o_noOfIndices = n ∧
    (LoadMesh (meshWorldOfFile p bytes CreateBuffers) i_mesh).ok = true ∧
    (LoadMesh (meshWorldOfFile p bytes CreateBuffers) i_mesh).value.m_noOfIndices = n ∧
    (3 ∣ (LoadMesh (meshWorldOfFile p bytes CreateBuffers) i_mesh).value.m_noOfIndices
      ↔ 3 ∣ n) := by
  obtain ⟨indices', n', hi', hn', hcount⟩ := Build_index_count c p asset bytes hbuild
  rw [hi, Option.some.injEq] at hi'
  subst hi'
  rw [hn, Option.some.injEq] at hn'
  subst hn'
  have hrec : (LoadMesh (meshWorldOfFile p bytes CreateBuffers) i_mesh).value.m_noOfIndices
      = n := by
    simp only [LoadMesh, meshWorldOfFile, Bool.true_eq_false, if_false, hcb]
    exact hcount
  refine ⟨hcount, ?_, hrec, by rw [hrec]⟩
  simp [LoadMesh, meshWorldOfFile]

/-- Witness for C18: the description `fourIndexMesh` on OpenGL. -/
theorem index_count_recorded_witness :
    (readMeshFile .GL ([4, 0, 0, 0, 4, 0, 0, 0] ++ List.replicate 112 0)).o_noOfIndices = 4 :=
  (index_count_recorded zeroConversions .GL fourIndexMesh
    (Lua.sequence [.number 0, .number 1, .number 2, .number 3]) 4
    ([4, 0, 0, 0, 4, 0, 0, 0] ++ List.replicate 112 0) createBuffersOk default
    (by decide) rfl (by decide) (fun _ => rfl)).1

end cMeshBuilder
end eae6320

namespace eae6320
namespace FloatingPoint

/-- Rounding to an integer leaves an integer alone. -/
theorem roundHalfEven_intCast (z : Int) : roundHalfEven (z : ℚ) = z := by
  simp [roundHalfEven]

/-- Rounding to an integer moves a value by at most one half. -/
theorem abs_roundHalfEven_sub (q : ℚ) : |(roundHalfEven q : ℚ) - q| ≤ 1 / 2 := by
  have h0 := Int.floor_le q
  have h1 := Int.lt_floor_add_one q
  unfold roundHalfEven
  rw [abs_le]
  split_ifs <;> push_cast <;> constructor <;> linarith

/-- A natural number below `2 ^ p` is a `float` of `p` bits of significand. -/
theorem round_natCast (p m : Nat) (h : m < 2 ^ p) : round p (m : ℚ) = m := by
  unfold round
  by_cases hm : (m : ℚ) = 0
  · rw [if_pos hm, hm]
  rw [if_neg hm]
  have hm0 : m ≠ 0 := by exact_mod_cast hm
  have hlog : Nat.log 2 m < p := Nat.log_lt_of_lt_pow hm0 h
  have he : ulpExponent p (m : ℚ) = -((p - 1 - Nat.log 2 m : Nat) : Int) := by
    unfold ulpExponent
    rw [abs_of_nonneg (by positivity), Int.log_natCast]
    omega
  rw [he, zpow_neg, zpow_natCast, div_inv_eq_mul]
  have hcast : (m : ℚ) * 2 ^ (p - 1 - Nat.log 2 m) =
      ((m * 2 ^ (p - 1 - Nat.log 2 m) : Int) : ℚ) := by push_cast; rfl
  rw [hcast, roundHalfEven_intCast]
  push_cast
  field_simp

/-- Below `2 ^ (p - 1)` the spacing of the `float` values is at most one half, so rounding
moves a value by at most one quarter. -/
theorem abs_round_sub (p : Nat) (q : ℚ) (h0 : 0 < q) (h : q < 2 ^ ((p : Int) - 1)) :
    |round p q - q| ≤ 1 / 4 := by
  unfold round
  rw [if_neg (ne_of_gt h0)]
  have hlog : Int.log 2 |q| < (p : Int) - 1 := by
    rw [abs_of_pos h0]
    exact (Int.lt_zpow_iff_log_lt (by norm_num) h0).1 (by exact_mod_cast h)
  have he : ulpExponent p q ≤ -1 := by
    unfold ulpExponent
    omega
  have hpos : (0 : ℚ) < 2 ^ ulpExponent p q := by positivity
  have hsmall : (2 : ℚ) ^ ulpExponent p q ≤ 2 ^ (-1 : Int) :=
    zpow_le_zpow_right₀ (by norm_num) he
  have hhalf : (2 : ℚ) ^ (-1 : Int) = 1 / 2 := by norm_num
  rw [hhalf] at hsmall
  have hr := abs_roundHalfEven_sub (q / 2 ^ ulpExponent p q)
  have heq : (roundHalfEven (q / 2 ^ ulpExponent p q) : ℚ) * 2 ^ ulpExponent p q - q =
      ((roundHalfEven (q / 2 ^ ulpExponent p q) : ℚ) - q / 2 ^ ulpExponent p q)
        * 2 ^ ulpExponent p q := by
    field_simp
  rw [heq, abs_mul, abs_of_pos hpos]
  calc |(roundHalfEven (q / 2 ^ ulpExponent p q) : ℚ) - q / 2 ^ ulpExponent p q|
          * 2 ^ ulpExponent p q
      ≤ 1 / 2 * (1 / 2) := mul_le_mul hr hsmall (le_of_lt hpos) (by norm_num)
    _ = 1 / 4 := by norm_num

/-- The quotient `n / 3.0f` converted to an integer is the integer quotient, for every index
count below `2 ^ 24` and every significand of at least 24 bits. -/
theorem toInt_div_three (p : Nat) (hp : 24 ≤ p) (n : Nat) (hn : n < 2 ^ 24) :
    toInt (div p (ofNat p n) 3) = ((n / 3 : Nat) : Int) := by
  have hpow : (2 : Nat) ^ 24 ≤ 2 ^ p := Nat.pow_le_pow_right (by decide) hp
  unfold div ofNat
  rw [round_natCast p n (by omega)]
  have hdecomp : n = 3 * (n / 3) + n % 3 := (Nat.div_add_mod n 3).symm
  have hq : ((n : ℚ) / 3) = ((n / 3 : Nat) : ℚ) + ((n % 3 : Nat) : ℚ) / 3 := by
    have : (n : ℚ) = 3 * ((n / 3 : Nat) : ℚ) + ((n % 3 : Nat) : ℚ) := by
      exact_mod_cast hdecomp
    rw [this]
    field_simp
    ring
  by_cases hr : n % 3 = 0
  · rw [hq, hr]
    simp only [Nat.cast_zero, zero_div, add_zero]
    rw [round_natCast p (n / 3) (by omega)]
    simp [toInt]
  · have hk0 : (0 : ℚ) ≤ ((n / 3 : Nat) : ℚ) := by positivity
    have hr1 : (1 : ℚ) ≤ ((n % 3 : Nat) : ℚ) := by
      have : 1 ≤ n % 3 := by omega
      exact_mod_cast this
    have hr2 : ((n % 3 : Nat) : ℚ) ≤ 2 := by
      have : n % 3 ≤ 2 := by omega
      exact_mod_cast this
    have hpos : (0 : ℚ) < (n : ℚ) / 3 := by rw [hq]; linarith
    have hlt : (n : ℚ) / 3 < 2 ^ ((p : Int) - 1) := by
      have h23 : (2 : ℚ) ^ (23 : Int) ≤ 2 ^ ((p : Int) - 1) :=
        zpow_le_zpow_right₀ (by norm_num) (by omega)
      have hn' : (n : ℚ) < 2 ^ 24 := by exact_mod_cast hn
      have : (2 : ℚ) ^ (23 : Int) = 8388608 := by norm_num
      rw [this] at h23
      have : (2 : ℚ) ^ 24 = 16777216 := by norm_num
      rw [this] at hn'
      linarith
    have herr := abs_le.1 (abs_round_sub p ((n : ℚ) / 3) hpos hlt)
    have hlo : ((n / 3 : Nat) : ℚ) ≤ round p ((n : ℚ) / 3) := by
      rw [hq] at herr ⊢
      linarith [herr.1]
    have hhi : round p ((n : ℚ) / 3) < ((n / 3 : Nat) : ℚ) + 1 := by
      rw [hq] at herr ⊢
      linarith [herr.2]
    have hnonneg : (0 : ℚ) ≤ round p ((n : ℚ) / 3) := le_trans hk0 hlo
    unfold toInt
    rw [if_pos hnonneg, Int.floor_eq_iff]
    exact ⟨by exact_mod_cast hlo, by exact_mod_cast hhi⟩

end FloatingPoint
end eae6320

namespace eae6320
namespace Graphics

/-- C17: for every mesh with index count `n < 2 ^ 24`, and `float` arithmetic with a
significand of at least 24 bits, `DrawMesh` on Direct3D binds the vertex buffer on stream 0 at
offset 0 with stride `sizeof (sVertex)`, binds the index buffer, and issues one indexed
triangle-list draw of `n / 3` primitives (integer quotient) from vertex 0 and index 0; on
OpenGL it binds the vertex array and issues one `GL_TRIANGLES` draw of `3 * (n / 3)` indices
of type `GL_UNSIGNED_INT` from offset 0. -/
theorem DrawMesh_primitive_count (p : Nat) (hp : 24 ≤ p) (i_Mesh : Mesh)
    (hn : i_Mesh.m_noOfIndices < 2 ^ 24) :
    Direct3D.DrawMesh p i_Mesh =
      [.SetStreamSource 0 i_Mesh.m_vertexArrayID 0 sVertex.sizeof,
       .SetIndices i_Mesh.m_vertexArrayID,
       .DrawIndexedPrimitive Direct3D.D3DPT_TRIANGLELIST 0 0 i_Mesh.m_noOfVertices 0
         (i_Mesh.m_noOfIndices / 3)] ∧
    OpenGL.DrawMesh p i_Mesh =
      [.glBindVertexArray i_Mesh.m_vertexArrayID,
       .glDrawElements OpenGL.GL_TRIANGLES ((3 * (i_Mesh.m_noOfIndices / 3) : Nat) : Int)
         OpenGL.GL_UNSIGNED_INT 0] := by
  have hq := FloatingPoint.toInt_div_three p hp i_Mesh.m_noOfIndices hn
  have hk : i_Mesh.m_noOfIndices / 3 < 2 ^ 24 :=
    Nat.lt_of_le_of_lt (Nat.div_le_self _ _) hn
  have h32 : FloatingPoint.toInt32 ((i_Mesh.m_noOfIndices / 3 : Nat) : Int)
      = ((i_Mesh.m_noOfIndices / 3 : Nat) : Int) := by
    unfold FloatingPoint.toInt32
    omega
  constructor
  · simp only [Direct3D.DrawMesh, hq, h32, Direct3D.bufferStride]
    have : (((i_Mesh.m_noOfIndices / 3 : Nat) : Int) % 4294967296).toNat
        = i_Mesh.m_noOfIndices / 3 := by omega
    rw [this]
    rfl
  · simp only [OpenGL.DrawMesh, hq, h32]
    have : FloatingPoint.toInt32 (((i_Mesh.m_noOfIndices / 3 : Nat) : Int) * 3)
        = ((3 * (i_Mesh.m_noOfIndices / 3) : Nat) : Int) := by
      unfold FloatingPoint.toInt32
      omega
    rw [this]

/-- Witness for C17: a mesh with 4 vertices and 6 indices is drawn as 2 primitives on
Direct3D, single precision. -/
theorem DrawMesh_primitive_count_witness :
    Direct3D.DrawMesh 24 ⟨6, 4, 1⟩ =
      [.SetStreamSource 0 1 0 24, .SetIndices 1,
       .DrawIndexedPrimitive Direct3D.D3DPT_TRIANGLELIST 0 0 4 0 2] :=
  (DrawMesh_primitive_count 24 (by decide) ⟨6, 4, 1⟩ (by decide)).1

/-- C19 fails on OpenGL: for a binding of one value on handle 5, `SetMaterialUniform` issues
`glUniform1fv` on the handle and then a second uniform-set call, `glUniform2fv` with count 1
(two floats), on the same handle; for three values the second call is `glUniform2fv` with
count 3 (six floats).  The Direct3D backend issues the single `SetFloatArray` call of the
binding's count on the binding's stage. -/
theorem SetMaterialUniform_gl_second_call :
    OpenGL.SetMaterialUniform [10, 20, 30, 40] 1 5 eShaderType.fragment =
      [.glUniform1fv 5 1 [10, 20, 30, 40], .glUniform2fv 5 1 [10, 20, 30, 40]] ∧
    OpenGL.SetMaterialUniform [10, 20, 30, 40] 3 5 eShaderType.vertex =
      [.glUniform3fv 5 1 [10, 20, 30, 40], .glUniform2fv 5 3 [10, 20, 30, 40]] ∧
    Direct3D.SetMaterialUniform [10, 20, 30, 40] 1 5 eShaderType.fragment =
      [.SetFloatArray .fragmentShaderConstantTable 5 [10, 20, 30, 40] 1] ∧
    Direct3D.SetMaterialUniform [10, 20, 30, 40] 3 5 eShaderType.vertex =
      [.SetFloatArray .vertexShaderConstantTable 5 [10, 20, 30, 40] 3] := by
  refine ⟨rfl, rfl, rfl, rfl⟩

/-- C20 fails: whenever the file opens and the buffer is allocated, `LoadMesh` returns
success, whatever `CreateBuffers` returns; the messages are those of `CreateBuffers`. -/
theorem LoadMesh_discards_CreateBuffers (w : MeshWorld) (i_mesh : Mesh)
    (hopen : w.fopenOk = true) (hmalloc : w.mallocOk = true) :
    (LoadMesh w i_mesh).ok = true ∧
    (LoadMesh w i_mesh).printed =
      (w.CreateBuffers { i_mesh with m_noOfVertices := w.o_noOfVertices,
                                     m_noOfIndices := w.o_noOfIndices }).printed := by
  simp [LoadMesh, hopen, hmalloc]

/-- Witness for C20: the quad file with a `CreateBuffers` that fails to create the index
buffer; `CreateBuffers` returns failure and `LoadMesh` returns success. -/
theorem LoadMesh_discards_CreateBuffers_witness :
    (createBuffersFailing { (default : Mesh) with m_noOfVertices := 4, m_noOfIndices := 6 }).ok
      = false ∧
    (LoadMesh { quadMeshWorld with CreateBuffers := createBuffersFailing } default).ok = true ∧
    (LoadMesh { quadMeshWorld with CreateBuffers := createBuffersFailing } default).printed =
      ["Direct3D failed to create an index buffer"] :=
  ⟨rfl, LoadMesh_discards_CreateBuffers
    { quadMeshWorld with CreateBuffers := createBuffersFailing } default rfl rfl⟩

end Graphics
end eae6320

namespace eae6320
namespace Graphics

/-- When the OpenGL `LoadEffect` succeeds. -/
theorem OpenGL.LoadEffect_gl_ok_iff (w : OpenGL.LoadEffectWorld) (i_effect : Effect) :
    (OpenGL.LoadEffect w i_effect).ok = true ↔
      OpenGL.steps.find? (OpenGL.stepFails w) = none ∧
      w.glGetUniformLocation "g_transform_localToWorld" ≠ -1 ∧
      w.glGetUniformLocation "g_transform_worldToView" ≠ -1 ∧
      w.glGetUniformLocation "g_transform_viewToScreen" ≠ -1 := by
  unfold OpenGL.LoadEffect
  cases hfind : OpenGL.steps.find? (OpenGL.stepFails w) with
  | some step => simp
  | none =>
    simp only [true_and]
    split_ifs with h
    · simp only [Bool.false_eq_true, false_iff]
      tauto
    · simp only [true_iff]
      tauto

/-- When the Direct3D `LoadEffect` succeeds. -/
theorem Direct3D.LoadEffect_d3d_ok_iff (w : Direct3D.LoadEffectWorld) (i_effect : Effect) :
    (Direct3D.LoadEffect w i_effect).ok = true ↔
      w.fopenOk = true ∧ w.mallocOk = true ∧ w.fragmentOpenOk = true ∧
      w.fragmentMallocOk = true ∧ w.createPixelShaderOk = true ∧ w.vertexOpenOk = true ∧
      w.vertexMallocOk = true ∧ w.createVertexShaderOk = true ∧
      w.GetConstantByName "g_transform_localToWorld" ≠ 0 ∧
      w.GetConstantByName "g_transform_worldToView" ≠ 0 ∧
      w.GetConstantByName "g_transform_viewToScreen" ≠ 0 := by
  unfold Direct3D.LoadEffect
  cases w.fopenOk <;> cases w.mallocOk <;> cases w.fragmentOpenOk <;>
    cases w.fragmentMallocOk <;> cases w.createPixelShaderOk <;> cases w.vertexOpenOk <;>
    cases w.vertexMallocOk <;> cases w.createVertexShaderOk <;> simp [and_assoc]

/-- C22: in both backends `LoadEffect` returns success exactly when every earlier step
succeeded and the three lookups for `g_transform_localToWorld`, `g_transform_worldToView` and
`g_transform_viewToScreen` all returned a valid handle (not `-1` in OpenGL, not `NULL` in
Direct3D); so whenever one of the three lookups returns the invalid handle `LoadEffect`
returns failure, and after a success the three handles stored in the effect are the valid
ones the lookups returned. -/
theorem LoadEffect_requires_transform_uniforms (wg : OpenGL.LoadEffectWorld)
    (wd : Direct3D.LoadEffectWorld) (i_effect : Effect) :
    ((OpenGL.LoadEffect wg i_effect).ok = true ↔
      OpenGL.steps.find? (OpenGL.stepFails wg) = none ∧
      wg.glGetUniformLocation "g_transform_localToWorld" ≠ -1 ∧
      wg.glGetUniformLocation "g_transform_worldToView" ≠ -1 ∧
      wg.glGetUniformLocation "g_transform_viewToScreen" ≠ -1) ∧
    ((wg.glGetUniformLocation "g_transform_localToWorld" = -1 ∨
      wg.glGetUniformLocation "g_transform_worldToView" = -1 ∨
      wg.glGetUniformLocation "g_transform_viewToScreen" = -1) →
      (OpenGL.LoadEffect wg i_effect).ok = false) ∧
    ((OpenGL.LoadEffect wg i_effect).ok = true →
      (OpenGL.LoadEffect wg i_effect).value.localToWorld ≠ -1 ∧
      (OpenGL.LoadEffect wg i_effect).value.worldToView ≠ -1 ∧
      (OpenGL.LoadEffect wg i_effect).value.viewToScreen ≠ -1) ∧
    ((Direct3D.LoadEffect wd i_effect).ok = true ↔
      wd.fopenOk = true ∧ wd.mallocOk = true ∧ wd.fragmentOpenOk = true ∧
      wd.fragmentMallocOk = true ∧ wd.createPixelShaderOk = true ∧ wd.vertexOpenOk = true ∧
      wd.vertexMallocOk = true ∧ wd.createVertexShaderOk = true ∧
      wd.GetConstantByName "g_transform_localToWorld" ≠ 0 ∧
      wd.GetConstantByName "g_transform_worldToView" ≠ 0 ∧
      wd.GetConstantByName "g_transform_viewToScreen" ≠ 0) ∧
    ((wd.GetConstantByName "g_transform_localToWorld" = 0 ∨
      wd.GetConstantByName "g_transform_worldToView" = 0 ∨
      wd.GetConstantByName "g_transform_viewToScreen" = 0) →
      (Direct3D.LoadEffect wd i_effect).ok = false) ∧
    ((Direct3D.LoadEffect wd i_effect).ok = true →
      (Direct3D.LoadEffect wd i_effect).value.localToWorld ≠ 0 ∧
      (Direct3D.LoadEffect wd i_effect).value.worldToView ≠ 0 ∧
      (Direct3D.LoadEffect wd i_effect).value.viewToScreen ≠ 0) := by
  have hg := OpenGL.LoadEffect_gl_ok_iff wg i_effect
  have hd := Direct3D.LoadEffect_d3d_ok_iff wd i_effect
  refine ⟨hg, ?_, ?_, hd, ?_, ?_⟩
  · intro h
    cases hok : (OpenGL.LoadEffect wg i_effect).ok with
    | false => rfl
    | true =>
      obtain ⟨_, h1, h2, h3⟩ := hg.1 hok
      rcases h with h | h | h
      · exact absurd h h1
      · exact absurd h h2
      · exact absurd h h3
  · intro hok
    obtain ⟨hfind, h1, h2, h3⟩ := hg.1 hok
    have hv : (OpenGL.LoadEffect wg i_effect).value =
        { i_effect with
          m_renderStates := wg.renderStatesByte % 256
          m_programID := wg.programID
          localToWorld := wg.glGetUniformLocation "g_transform_localToWorld"
          worldToView := wg.glGetUniformLocation "g_transform_worldToView"
          viewToScreen := wg.glGetUniformLocation "g_transform_viewToScreen" } := by
      unfold OpenGL.LoadEffect
      rw [hfind]
      simp only
      split_ifs <;> rfl
    rw [hv]
    exact ⟨h1, h2, h3⟩
  · intro h
    cases hok : (Direct3D.LoadEffect wd i_effect).ok with
    | false => rfl
    | true =>
      obtain ⟨_, _, _, _, _, _, _, _, h1, h2, h3⟩ := hd.1 hok
      rcases h with h | h | h
      · exact absurd h h1
      · exact absurd h h2
      · exact absurd h h3
  · intro hok
    obtain ⟨a1, a2, a3, a4, _, a6, a7, _, h1, h2, h3⟩ := hd.1 hok
    have hv : (Direct3D.LoadEffect wd i_effect).value.localToWorld
          = wd.GetConstantByName "g_transform_localToWorld" ∧
        (Direct3D.LoadEffect wd i_effect).value.worldToView
          = wd.GetConstantByName "g_transform_worldToView" ∧
        (Direct3D.LoadEffect wd i_effect).value.viewToScreen
          = wd.GetConstantByName "g_transform_viewToScreen" := by
      unfold Direct3D.LoadEffect
      simp [a1, a2, a3, a4, a6, a7]
    rw [hv.1, hv.2.1, hv.2.2]
    exact ⟨h1, h2, h3⟩

/-- Witness for C22: in a world where every step succeeds but `g_transform_worldToView` is
not found, both backends fail; with all three found both succeed. -/
theorem LoadEffect_requires_transform_uniforms_witness :
    (OpenGL.LoadEffect
      { OpenGL.loadEffectWorldOk with
        glGetUniformLocation := fun name => if name = "g_transform_worldToView" then -1 else 0 }
      default).ok = false ∧
    (Direct3D.LoadEffect
      { Direct3D.loadEffectWorldOk with
        GetConstantByName := fun name => if name = "g_transform_worldToView" then 0 else 1 }
      default).ok = false ∧
    (OpenGL.LoadEffect OpenGL.loadEffectWorldOk default).ok = true ∧
    (Direct3D.LoadEffect Direct3D.loadEffectWorldOk default).ok = true :=
  ⟨(LoadEffect_requires_transform_uniforms
      { OpenGL.loadEffectWorldOk with
        glGetUniformLocation := fun name => if name = "g_transform_worldToView" then -1 else 0 }
      { Direct3D.loadEffectWorldOk with
        GetConstantByName := fun name => if name = "g_transform_worldToView" then 0 else 1 }
      default).2.1 (Or.inr (Or.inl (by decide))),
   (LoadEffect_requires_transform_uniforms
      { OpenGL.loadEffectWorldOk with
        glGetUniformLocation := fun name => if name = "g_transform_worldToView" then -1 else 0 }
      { Direct3D.loadEffectWorldOk with
        GetConstantByName := fun name => if name = "g_transform_worldToView" then 0 else 1 }
      default).2.2.2.2.1 (Or.inr (Or.inl (by decide))),
   by decide, by decide⟩

end Graphics
end eae6320

namespace eae6320
namespace Graphics

/-- The sizes of the OpenGL `CreateBuffers` for counts below `2 ^ 24`. -/
theorem OpenGL.CreateBuffers_sizes_eq (p : Nat) (hp : 24 ≤ p) (sizeofSize : Nat)
    (hs : sizeofSize = 4 ∨ sizeofSize = 8) (i_mesh : Mesh)
    (hv : i_mesh.m_noOfVertices < 2 ^ 24) (hi : i_mesh.m_noOfIndices < 2 ^ 24) :
    OpenGL.CreateBuffers_sizes p sizeofSize i_mesh =
      { vertexBufferSize := i_mesh.m_noOfVertices * 24
        vertexBytesCopied := i_mesh.m_noOfVertices * 24
        indexBufferSize := i_mesh.m_noOfIndices / 3 * 3 * 4
        indexBytesCopied := i_mesh.m_noOfIndices / 3 * 3 * 4 } := by
  have hq := FloatingPoint.toInt_div_three p hp i_mesh.m_noOfIndices hi
  have h24 : sVertex.sizeof = 24 := by decide
  have hk : i_mesh.m_noOfIndices / 3 < 2 ^ 24 :=
    Nat.lt_of_le_of_lt (Nat.div_le_self _ _) hi
  have htri : (((i_mesh.m_noOfIndices / 3 : Nat) : Int) % 4294967296).toNat
      = i_mesh.m_noOfIndices / 3 := by omega
  simp only [OpenGL.CreateBuffers_sizes, hq, htri, h24]
  have hpow : (2 : Nat) ^ 32 ≤ 2 ^ (8 * sizeofSize) := by
    rcases hs with rfl | rfl <;> norm_num
  have e0 : i_mesh.m_noOfIndices / 3 * 3 % 2 ^ 32 = i_mesh.m_noOfIndices / 3 * 3 :=
    Nat.mod_eq_of_lt (by omega)
  have e1 : i_mesh.m_noOfVertices * 24 % 2 ^ (8 * sizeofSize) = i_mesh.m_noOfVertices * 24 :=
    Nat.mod_eq_of_lt (Nat.lt_of_lt_of_le (by omega) hpow)
  have e2 : i_mesh.m_noOfIndices / 3 * 3 * 4 % 2 ^ (8 * sizeofSize)
      = i_mesh.m_noOfIndices / 3 * 3 * 4 :=
    Nat.mod_eq_of_lt (Nat.lt_of_lt_of_le (by omega) hpow)
  rw [e0, e1, e2]

/-- C23 fails on Direct3D: for a mesh with 4 vertices and 3 indices the vertex buffer is
created with 72 bytes (3 times `sizeof (sVertex)`, the index count) and 96 bytes are copied
into it; for the quad with 4 vertices and 6 indices it is created with 144 bytes, not 96.  The
index buffer has its 4 bytes per index, and the OpenGL backend sizes the quad's buffers with
96 and 24 bytes. -/
theorem CreateBuffers_d3d_vertex_buffer_size :
    Direct3D.CreateBuffers_sizes 4 ⟨3, 4, 0⟩ =
      { vertexBufferSize := 72, vertexBytesCopied := 96,
        indexBufferSize := 12, indexBytesCopied := 12 } ∧
    Direct3D.CreateBuffers_sizes 4 ⟨6, 4, 0⟩ =
      { vertexBufferSize := 144, vertexBytesCopied := 96,
        indexBufferSize := 24, indexBytesCopied := 24 } ∧
    OpenGL.CreateBuffers_sizes 24 4 ⟨6, 4, 0⟩ =
      { vertexBufferSize := 96, vertexBytesCopied := 96,
        indexBufferSize := 24, indexBytesCopied := 24 } :=
  ⟨by decide, by decide,
   OpenGL.CreateBuffers_sizes_eq 24 (by decide) 4 (Or.inl rfl) ⟨6, 4, 0⟩ (by decide)
     (by decide)⟩

end Graphics
end eae6320

namespace eae6320
namespace Graphics

/-- Running a counter over a list by position is pairing each element with its position. -/
theorem map_range_getD_pair {α : Type} (l : List α) (d : α) :
    (List.range l.length).map (fun i => (l.getD i d, i)) = l.zip (List.range l.length) := by
  apply List.ext_getElem
  · simp
  · intro i h1 h2
    simp only [List.length_map, List.length_range] at h1
    simp [List.getD_eq_getElem?_getD, List.getElem?_eq_getElem h1]

/-- A loop over positions is a loop over the elements paired with their positions. -/
theorem flatMap_range_getD_pair {α β : Type} (l : List α) (d : α) (g : α → Nat → List β) :
    (List.range l.length).flatMap (fun i => g (l.getD i d) i) =
      (l.zip (List.range l.length)).flatMap (fun x => g x.1 x.2) := by
  rw [← map_range_getD_pair l d, List.flatMap_def, List.flatMap_def, List.map_map]
  rfl

/-- C24: for every pair of lists, one call of `Render` issues `Clear`, `BeginScene`, then for
each opaque renderable in list order and then each transparent renderable in list order one
block, then `EndScene`, then `SwapBuffers`; the block of a renderable is `BindEffect` on its
effect, `SetMaterialUniform` once per uniform `i = 0 .. m_noOfUniforms - 1` in index order,
`SetTexture` (with the position in the frame as index), `SetDrawCallUniforms`, `DrawMesh`; and
with both lists empty the sequence is exactly `Clear`, `BeginScene`, `EndScene`,
`SwapBuffers`. -/
theorem Render_frame_protocol (s : Registry) :
    Render s =
      [GraphicsCall.Clear, GraphicsCall.BeginScene]
      ++ (s.s_opaqueRenderableList.zip
            (List.range s.s_opaqueRenderableList.length)).flatMap
          (fun x => renderOne (s.heap x.1) x.2)
      ++ (s.s_transparentRenderableList.zip
            (List.range s.s_transparentRenderableList.length)).flatMap
          (fun x => renderOne (s.heap x.1) (x.2 + s.s_opaqueRenderableList.length))
      ++ [GraphicsCall.EndScene, GraphicsCall.SwapBuffers] ∧
    (∀ (toRender : Renderable) (index : Nat),
      renderOne toRender index =
        [GraphicsCall.BindEffect toRender.m_material.m_effect]
        ++ (List.range toRender.m_material.m_noOfUniforms).map (fun i =>
              GraphicsCall.SetMaterialUniform toRender.m_material.m_effect
                (toRender.m_material.m_uniforms.getD i default).values
                (toRender.m_material.m_uniforms.getD i default).valueCountToSet
                (toRender.m_material.m_uniforms.getD i default).uniformHandle
                (toRender.m_material.m_uniforms.getD i default).shaderType)
        ++ [GraphicsCall.SetTexture toRender.m_material index,
            GraphicsCall.SetDrawCallUniforms toRender.m_material.m_effect
              toRender.m_orientation toRender.m_offset,
            GraphicsCall.DrawMesh toRender.m_mesh]) ∧
    (∀ (toRender : Renderable) (index : Nat),
      (renderOne toRender index).length = toRender.m_material.m_noOfUniforms + 4) ∧
    (∀ (heap : RenderablePtr → Renderable) (output : List String),
      Render ⟨heap, [], [], output⟩ =
        [GraphicsCall.Clear, GraphicsCall.BeginScene, GraphicsCall.EndScene,
         GraphicsCall.SwapBuffers]) := by
  refine ⟨?_, fun _ _ => rfl, ?_, fun _ _ => rfl⟩
  · unfold Render
    simp only
    rw [flatMap_range_getD_pair s.s_opaqueRenderableList 0
          (fun r i => renderOne (s.heap r) i),
        flatMap_range_getD_pair s.s_transparentRenderableList 0
          (fun r i => renderOne (s.heap r) (i + s.s_opaqueRenderableList.length))]
  · intro toRender index
    simp [renderOne]

end Graphics
end eae6320

namespace eae6320
namespace Graphics

/-- The abstract state after the OpenGL `BindEffect`. -/
theorem OpenGL.abstractState_gl_BindEffect (e : Effect) (g : OpenGL.State) :
    OpenGL.abstractState (OpenGL.BindEffect e g) =
      { blendEnable := e.m_renderStates.testBit 0
        sourceBlend :=
          if e.m_renderStates.testBit 0 then .srcAlpha
          else (OpenGL.abstractState g).sourceBlend
        destinationBlend :=
          if e.m_renderStates.testBit 0 then .oneMinusSrcAlpha
          else (OpenGL.abstractState g).destinationBlend
        depthTestEnable := e.m_renderStates.testBit 1
        depthComparison :=
          if e.m_renderStates.testBit 1 then .lessEqual
          else (OpenGL.abstractState g).depthComparison
        depthWriteEnable := e.m_renderStates.testBit 2
        cullingEnable := e.m_renderStates.testBit 3 } := by
  rw [OpenGL.BindEffect_gl_fields]
  cases e.m_renderStates.testBit 0 <;> cases e.m_renderStates.testBit 1 <;>
    simp [OpenGL.abstractState, OpenGL.blendFactor, OpenGL.GL_SRC_ALPHA,
      OpenGL.GL_ONE_MINUS_SRC_ALPHA]

/-- The abstract state after the Direct3D `BindEffect`. -/
theorem Direct3D.abstractState_d3d_BindEffect (e : Effect) (d : Direct3D.State) :
    Direct3D.abstractState (Direct3D.BindEffect e d) =
      { blendEnable := e.m_renderStates.testBit 0
        sourceBlend :=
          if e.m_renderStates.testBit 0 then .srcAlpha
          else (Direct3D.abstractState d).sourceBlend
        destinationBlend :=
          if e.m_renderStates.testBit 0 then .oneMinusSrcAlpha
          else (Direct3D.abstractState d).destinationBlend
        depthTestEnable := e.m_renderStates.testBit 1
        depthComparison :=
          if e.m_renderStates.testBit 1 then .lessEqual
          else (Direct3D.abstractState d).depthComparison
        depthWriteEnable := e.m_renderStates.testBit 2
        cullingEnable := e.m_renderStates.testBit 3 } := by
  rw [Direct3D.BindEffect_d3d_fields]
  cases e.m_renderStates.testBit 0 <;> cases e.m_renderStates.testBit 1 <;>
    cases e.m_renderStates.testBit 2 <;> cases e.m_renderStates.testBit 3 <;>
    simp [Direct3D.abstractState, Direct3D.blendFactor, Direct3D.D3DBLEND_SRCALPHA,
      Direct3D.D3DBLEND_INVSRCALPHA, Direct3D.TRUE, Direct3D.FALSE, Direct3D.D3DZB_TRUE,
      Direct3D.D3DZB_FALSE, Direct3D.D3DCULL_CCW, Direct3D.D3DCULL_NONE]

/-- C25: for every effect (render-state mask) and every prior OpenGL context `g` and Direct3D
device state `d`, the abstract states after the two `BindEffect` functions render alike: the
four switches (blending, depth test, depth writes, culling) are equal, the blend factors are
equal whenever blending is on and the depth comparisons whenever the depth test is on; when
the prior states have the same abstract state, so have the states after the call, field by
field.  `AddRenderable` and `RemoveRenderable` of the two backends return the same registry
(both lists, heap and output) from the same inputs. -/
theorem backend_equivalence (e : Effect) (g : OpenGL.State) (d : Direct3D.State)
    (i_pathMesh : MeshWorld) (i_pathMaterial : MaterialWorld) (i_renderable : RenderablePtr)
    (s : Registry) :
    (OpenGL.abstractState (OpenGL.BindEffect e g)).rendersLike
      (Direct3D.abstractState (Direct3D.BindEffect e d)) ∧
    (OpenGL.abstractState g = Direct3D.abstractState d →
      OpenGL.abstractState (OpenGL.BindEffect e g) =
        Direct3D.abstractState (Direct3D.BindEffect e d)) ∧
    OpenGL.AddRenderable i_pathMesh i_pathMaterial i_renderable s =
      Direct3D.AddRenderable i_pathMesh i_pathMaterial i_renderable s ∧
    OpenGL.RemoveRenderable i_renderable s = Direct3D.RemoveRenderable i_renderable s ∧
    (OpenGL.AddRenderable i_pathMesh i_pathMaterial i_renderable s).s_opaqueRenderableList =
      (AddRenderable i_pathMesh i_pathMaterial i_renderable s).s_opaqueRenderableList ∧
    (OpenGL.AddRenderable i_pathMesh i_pathMaterial i_renderable s).s_transparentRenderableList
      = (AddRenderable i_pathMesh i_pathMaterial i_renderable s).s_transparentRenderableList ∧
    (OpenGL.RemoveRenderable i_renderable s).s_opaqueRenderableList =
      (RemoveRenderable i_renderable s).s_opaqueRenderableList ∧
    (OpenGL.RemoveRenderable i_renderable s).s_transparentRenderableList =
      (RemoveRenderable i_renderable s).s_transparentRenderableList := by
  refine ⟨?_, ?_, rfl, rfl, ?_, ?_, ?_, ?_⟩
  · rw [OpenGL.abstractState_gl_BindEffect, Direct3D.abstractState_d3d_BindEffect]
    unfold AbstractRenderState.rendersLike
    refine ⟨rfl, ?_, rfl, ?_, rfl, rfl⟩
    · intro h
      simp only at h
      simp [h]
    · intro h
      simp only at h
      simp [h]
  · intro h
    rw [OpenGL.abstractState_gl_BindEffect, Direct3D.abstractState_d3d_BindEffect, h]
  · unfold OpenGL.AddRenderable AddRenderable hasAlpha
    simp only
    split_ifs <;> simp_all
  · unfold OpenGL.AddRenderable AddRenderable hasAlpha
    simp only
    split_ifs <;> simp_all
  · unfold OpenGL.RemoveRenderable RemoveRenderable hasAlpha Registry.renderStates
    split_ifs <;> simp_all
  · unfold OpenGL.RemoveRenderable RemoveRenderable hasAlpha Registry.renderStates
    split_ifs <;> simp_all

/-- Witness for C25: from the initial states of the two APIs, whose depth comparisons differ,
an effect with mask `0b0001` (blending only) leaves states that render alike; and from
corresponding prior states (both after binding the mask `0b1111`) it leaves equal abstract
states. -/
theorem backend_equivalence_witness :
    (OpenGL.abstractState
        (OpenGL.BindEffect { (default : Effect) with m_renderStates := 0b0001 }
          OpenGL.initialState)).rendersLike
      (Direct3D.abstractState
        (Direct3D.BindEffect { (default : Effect) with m_renderStates := 0b0001 }
          Direct3D.initialState)) ∧
    OpenGL.abstractState
        (OpenGL.BindEffect { (default : Effect) with m_renderStates := 0b0001 }
          (OpenGL.BindEffect { (default : Effect) with m_renderStates := 0b1111 }
            OpenGL.initialState)) =
      Direct3D.abstractState
        (Direct3D.BindEffect { (default : Effect) with m_renderStates := 0b0001 }
          (Direct3D.BindEffect { (default : Effect) with m_renderStates := 0b1111 }
            Direct3D.initialState)) :=
  ⟨(backend_equivalence { (default : Effect) with m_renderStates := 0b0001 }
      OpenGL.initialState Direct3D.initialState quadMeshWorld (materialWorldWithMask 0) 7
      (Registry.empty zeroHeap)).1,
   (backend_equivalence { (default : Effect) with m_renderStates := 0b0001 }
      (OpenGL.BindEffect { (default : Effect) with m_renderStates := 0b1111 }
        OpenGL.initialState)
      (Direct3D.BindEffect { (default : Effect) with m_renderStates := 0b1111 }
        Direct3D.initialState)
      quadMeshWorld (materialWorldWithMask 0) 7 (Registry.empty zeroHeap)).2.1
      (by decide)⟩

end Graphics
end eae6320

namespace eae6320
namespace Graphics

/-- `AddRenderable` for a pointer that is in neither list keeps the registered pointers
pairwise distinct. -/
theorem nodup_AddRenderable (mw : MeshWorld) (w : MaterialWorld) (r : RenderablePtr)
    (s : Registry) (hr : s.registered r = false) (h : s.all.Nodup) :
    (AddRenderable mw w r s).all.Nodup := by
  unfold Registry.registered at hr
  simp only [Bool.or_eq_false_iff, decide_eq_false_iff_not] at hr
  unfold Registry.all at h ⊢
  rw [opaque_AddRenderable, transparent_AddRenderable]
  rw [List.nodup_append] at h
  obtain ⟨ho, ht, hdis⟩ := h
  split_ifs
  · rw [← List.append_assoc, List.nodup_append]
    refine ⟨List.nodup_append.2 ⟨ho, ht, hdis⟩, List.nodup_singleton r, ?_⟩
    intro x hx hx'
    rw [List.mem_singleton] at hx'
    subst hx'
    rcases List.mem_append.1 hx with h1 | h1
    · exact hr.1 h1
    · exact hr.2 h1
  · rw [List.nodup_append]
    refine ⟨List.nodup_append.2 ⟨ho, List.nodup_singleton r, ?_⟩, ht, ?_⟩
    · intro x hx hx'
      rw [List.mem_singleton] at hx'
      subst hx'
      exact hr.1 hx
    · intro x hx hx'
      rcases List.mem_append.1 hx with h1 | h1
      · exact hdis h1 hx'
      · rw [List.mem_singleton] at h1
        subst h1
        exact hr.2 hx'

/-- `RemoveRenderable` keeps the registered pointers pairwise distinct. -/
theorem nodup_RemoveRenderable (r : RenderablePtr) (s : Registry) (h : s.all.Nodup) :
    (RemoveRenderable r s).all.Nodup := by
  unfold Registry.all at h ⊢
  rw [opaque_RemoveRenderable, transparent_RemoveRenderable]
  split_ifs
  · exact h.sublist ((List.Sublist.refl _).append (List.erase_sublist _ _))
  · exact h.sublist ((List.erase_sublist _ _).append (List.Sublist.refl _))

/-- A sequence of calls whose additions are all for unregistered pointers keeps the
registered pointers pairwise distinct. -/
theorem nodup_runCalls : ∀ (calls : List RegistryCall) (s : Registry),
    addsFresh calls s = true → s.all.Nodup → (runCalls calls s).all.Nodup := by
  intro calls
  induction calls with
  | nil => intro s _ h; exact h
  | cons c rest ih =>
    intro s hfresh h
    cases c with
    | add mw w r =>
      simp only [addsFresh, Bool.and_eq_true, Bool.not_eq_true'] at hfresh
      exact ih _ hfresh.2 (nodup_AddRenderable mw w r s hfresh.1 h)
    | remove r =>
      simp only [addsFresh] at hfresh
      exact ih _ hfresh (nodup_RemoveRenderable r s h)

/-- The Direct3D loop over a list of renderables with valid pointers makes the five
`Release` calls of each, in list order. -/
theorem Direct3D.forEach_releaseRenderable (heap : RenderablePtr → Renderable) :
    ∀ (l : List RenderablePtr),
      (∀ p ∈ l, (heap p).m_mesh.m_vertexArrayID ≠ 0 ∧
        (heap p).m_material.m_effect.m_vertexShader ≠ 0 ∧
        (heap p).m_material.m_effect.m_pixelShader ≠ 0) →
      Outcome.forEach (fun p => Direct3D.releaseRenderable (heap p)) l =
        .success (l.map (fun p => Direct3D.releasesOf (heap p))) := by
  intro l
  induction l with
  | nil => intro _; rfl
  | cons p rest ih =>
    intro h
    obtain ⟨h1, h2, h3⟩ := h p (List.mem_cons_self _ _)
    have hrest := ih (fun q hq => h q (List.mem_cons_of_mem _ hq))
    have hp : Direct3D.releaseRenderable (heap p) = .success (Direct3D.releasesOf (heap p)) := by
      simp [Direct3D.releaseRenderable, h1, h2, h3]
    simp only [Outcome.forEach, hp, hrest, Outcome.andThen, List.map_cons]

/-- The OpenGL loop over a list of pairwise distinct pointers deletes the two objects each
renderable held before the loop, in list order, and leaves every other renderable alone. -/
theorem OpenGL.releaseList_nodup :
    ∀ (l : List RenderablePtr) (heap : RenderablePtr → Renderable), l.Nodup →
      (OpenGL.releaseList l heap).2 = l.flatMap (fun p => OpenGL.releasesOf (heap p)) ∧
      ∀ q, q ∉ l → (OpenGL.releaseList l heap).1 q = heap q := by
  intro l
  induction l with
  | nil => intro heap _; exact ⟨rfl, fun _ _ => rfl⟩
  | cons p rest ih =>
    intro heap hnd
    rw [List.nodup_cons] at hnd
    obtain ⟨hp, hrest⟩ := hnd
    obtain ⟨h1, h2⟩ :=
      ih (fun q => if q = p then OpenGL.released (heap p) else heap q) hrest
    constructor
    · simp only [OpenGL.releaseList, List.flatMap_cons, h1]
      congr 1
      apply List.flatMap_congr
      intro x hx
      have : x ≠ p := fun h => hp (h ▸ hx)
      simp [this]
    · intro q hq
      rw [List.mem_cons, not_or] at hq
      simp only [OpenGL.releaseList]
      rw [h2 q hq.2, if_neg hq.1]

end Graphics
end eae6320

namespace eae6320
namespace Graphics

/-- The Direct3D releases of pairwise distinct renderables with pairwise distinct objects
are pairwise distinct calls. -/
theorem Direct3D.nodup_d3d_releases (heap : RenderablePtr → Renderable) (l : List RenderablePtr)
    (hl : l.Nodup)
    (hdistinct : ∀ p ∈ l, ∀ q ∈ l, p ≠ q →
      (heap p).m_mesh.m_vertexArrayID ≠ (heap q).m_mesh.m_vertexArrayID ∧
      (heap p).m_material.m_effect.m_vertexShader ≠
        (heap q).m_material.m_effect.m_vertexShader ∧
      (heap p).m_material.m_effect.m_pixelShader ≠
        (heap q).m_material.m_effect.m_pixelShader) :
    (l.flatMap (fun p => Direct3D.releasesOf (heap p))).Nodup := by
  rw [List.nodup_flatMap]
  constructor
  · intro x _
    simp [Direct3D.releasesOf]
  · apply hl.pairwise_of_forall_ne
    intro p hp q hq hne
    obtain ⟨h1, h2, h3⟩ := hdistinct p hp q hq hne
    simp only [Function.onFun, Direct3D.releasesOf, List.disjoint_left]
    intro c hc hc'
    simp only [List.mem_cons, List.mem_singleton, List.not_mem_nil, or_false] at hc hc'
    rcases hc with rfl | rfl | rfl | rfl | rfl <;> simp_all

/-- The OpenGL deletions of pairwise distinct renderables with pairwise distinct objects are
pairwise distinct calls. -/
theorem OpenGL.nodup_gl_releases (heap : RenderablePtr → Renderable) (l : List RenderablePtr)
    (hl : l.Nodup)
    (hdistinct : ∀ p ∈ l, ∀ q ∈ l, p ≠ q →
      (heap p).m_mesh.m_vertexArrayID ≠ (heap q).m_mesh.m_vertexArrayID ∧
      (heap p).m_material.m_effect.m_programID ≠
        (heap q).m_material.m_effect.m_programID) :
    (l.flatMap (fun p => OpenGL.releasesOf (heap p))).Nodup := by
  rw [List.nodup_flatMap]
  constructor
  · intro x _
    simp [OpenGL.releasesOf]
  · apply hl.pairwise_of_forall_ne
    intro p hp q hq hne
    obtain ⟨h1, h2⟩ := hdistinct p hp q hq hne
    simp only [Function.onFun, OpenGL.releasesOf, List.disjoint_left]
    intro c hc hc'
    simp only [List.mem_cons, List.mem_singleton, List.not_mem_nil, or_false] at hc hc'
    rcases hc with rfl | rfl <;> simp_all

/-- The calls of the Direct3D `ShutDown` when every registered renderable has valid
pointers. -/
theorem Direct3D.ShutDown_d3d_calls (s : Registry)
    (hvalid : ∀ p ∈ s.all, (s.heap p).m_mesh.m_vertexArrayID ≠ 0 ∧
      (s.heap p).m_material.m_effect.m_vertexShader ≠ 0 ∧
      (s.heap p).m_material.m_effect.m_pixelShader ≠ 0) :
    Direct3D.ShutDown true true s =
      .success (s.all.flatMap (fun p => Direct3D.releasesOf (s.heap p)) ++
        [.SetVertexDeclarationNull, .deviceRelease, .interfaceRelease]) := by
  have ho := Direct3D.forEach_releaseRenderable s.heap s.s_opaqueRenderableList
    (fun p hp => hvalid p (List.mem_append_left _ hp))
  have ht := Direct3D.forEach_releaseRenderable s.heap s.s_transparentRenderableList
    (fun p hp => hvalid p (List.mem_append_right _ hp))
  simp only [Direct3D.ShutDown, if_true, ho, ht, Outcome.andThen, Registry.all,
    List.flatMap_def, List.map_append, List.flatten_append]

/-- The calls of the OpenGL `ShutDown` when no pointer is registered twice. -/
theorem OpenGL.ShutDown_gl_calls (s : Registry) (hl : s.all.Nodup) :
    (OpenGL.ShutDown true true s).2 =
      s.all.flatMap (fun p => OpenGL.releasesOf (s.heap p)) ++
        [.wglMakeCurrentNull, .wglDeleteContext, .ReleaseDC] := by
  unfold Registry.all at hl ⊢
  rw [List.nodup_append] at hl
  obtain ⟨ho, ht, hdis⟩ := hl
  obtain ⟨h1, h2⟩ := OpenGL.releaseList_nodup s.s_opaqueRenderableList s.heap ho
  obtain ⟨h3, _⟩ := OpenGL.releaseList_nodup s.s_transparentRenderableList
    (OpenGL.releaseList s.s_opaqueRenderableList s.heap).1 ht
  have hsame : s.s_transparentRenderableList.flatMap
      (fun p => OpenGL.releasesOf ((OpenGL.releaseList s.s_opaqueRenderableList s.heap).1 p))
      = s.s_transparentRenderableList.flatMap (fun p => OpenGL.releasesOf (s.heap p)) := by
    apply List.flatMap_congr
    intro x hx
    rw [h2 x (fun hxo => hdis hxo hx)]
  simp only [OpenGL.ShutDown, if_true, h1, h3, hsame, List.flatMap_append, List.append_assoc,
    List.cons_append, List.nil_append]

end Graphics
end eae6320

namespace eae6320
namespace Graphics

/-- C26 as stated fails: after `AddRenderable` is called twice for the renderable 7, the
pointer 7 is in the opaque list twice and the renderable holds the objects of the second load;
the Direct3D `ShutDown` releases each of them twice (the index buffer 6, for one, has two
`Release` calls), and the objects of the first load (buffer 5, shaders 10 and 11) are not
released at all. -/
theorem ShutDown_releases_once_counterexample :
    (runCalls
      [RegistryCall.add (meshWorldWithHandle 5) (materialWorldWithProgram 10) 7,
       RegistryCall.add (meshWorldWithHandle 6) (materialWorldWithProgram 20) 7]
      (Registry.empty zeroHeap)).s_opaqueRenderableList = [7, 7] ∧
    Direct3D.ShutDown true true
      (runCalls
        [RegistryCall.add (meshWorldWithHandle 5) (materialWorldWithProgram 10) 7,
         RegistryCall.add (meshWorldWithHandle 6) (materialWorldWithProgram 20) 7]
        (Registry.empty zeroHeap)) =
      .success
        [.indexBufferRelease 6, .vertexBufferRelease 6, .vertexDeclarationRelease 6,
         .vertexShaderRelease 20, .pixelShaderRelease 21,
         .indexBufferRelease 6, .vertexBufferRelease 6, .vertexDeclarationRelease 6,
         .vertexShaderRelease 20, .pixelShaderRelease 21,
         .SetVertexDeclarationNull, .deviceRelease, .interfaceRelease] ∧
    (OpenGL.ShutDown true true
      (runCalls
        [RegistryCall.add (meshWorldWithHandle 5) (materialWorldWithProgram 10) 7,
         RegistryCall.add (meshWorldWithHandle 6) (materialWorldWithProgram 20) 7]
        (Registry.empty zeroHeap))).2 =
      [.glDeleteProgram 20, .glDeleteVertexArrays 6, .glDeleteProgram 0,
       .glDeleteVertexArrays 0, .wglMakeCurrentNull, .wglDeleteContext, .ReleaseDC] := by
  refine ⟨by decide, by decide, by decide⟩

/-- C26 (amended): for every registry state reached from two empty lists by `AddRenderable`
and `RemoveRenderable` calls in which each `AddRenderable` is made for a renderable that is in
neither list at that moment, and in which the registered renderables hold valid, pairwise
distinct GPU objects, `ShutDown` with a live device (context) walks the opaque list and then
the transparent list and makes, for each registered renderable in turn, the release calls of
its objects (index buffer, vertex buffer, vertex declaration, vertex shader, pixel shader in
Direct3D; program, vertex array in OpenGL), then the calls that release the device; every
object of every registered renderable is released exactly once and no call is made twice. -/
theorem ShutDown_releases_once (calls : List RegistryCall)
    (heap : RenderablePtr → Renderable)
    (hfresh : addsFresh calls (Registry.empty heap) = true)
    (hvalid : ∀ p ∈ (runCalls calls (Registry.empty heap)).all,
      ((runCalls calls (Registry.empty heap)).heap p).m_mesh.m_vertexArrayID ≠ 0 ∧
      ((runCalls calls (Registry.empty heap)).heap p).m_material.m_effect.m_vertexShader ≠ 0 ∧
      ((runCalls calls (Registry.empty heap)).heap p).m_material.m_effect.m_pixelShader ≠ 0)
    (hdistinct : ∀ p ∈ (runCalls calls (Registry.empty heap)).all,
      ∀ q ∈ (runCalls calls (Registry.empty heap)).all, p ≠ q →
      ((runCalls calls (Registry.empty heap)).heap p).m_mesh.m_vertexArrayID ≠
        ((runCalls calls (Registry.empty heap)).heap q).m_mesh.m_vertexArrayID ∧
      ((runCalls calls (Registry.empty heap)).heap p).m_material.m_effect.m_programID ≠
        ((runCalls calls (Registry.empty heap)).heap q).m_material.m_effect.m_programID ∧
      ((runCalls calls (Registry.empty heap)).heap p).m_material.m_effect.m_vertexShader ≠
        ((runCalls calls (Registry.empty heap)).heap q).m_material.m_effect.m_vertexShader ∧
      ((runCalls calls (Registry.empty heap)).heap p).m_material.m_effect.m_pixelShader ≠
        ((runCalls calls (Registry.empty heap)).heap q).m_material.m_effect.m_pixelShader) :
    (∃ trace, Direct3D.ShutDown true true (runCalls calls (Registry.empty heap))
        = .success trace ∧
      trace = (runCalls calls (Registry.empty heap)).all.flatMap
          (fun p => Direct3D.releasesOf ((runCalls calls (Registry.empty heap)).heap p)) ++
        [.SetVertexDeclarationNull, .deviceRelease, .interfaceRelease] ∧
      trace.Nodup ∧
      ∀ p ∈ (runCalls calls (Registry.empty heap)).all,
        ∀ c ∈ Direct3D.releasesOf ((runCalls calls (Registry.empty heap)).heap p),
          trace.count c = 1) ∧
    ((OpenGL.ShutDown true true (runCalls calls (Registry.empty heap))).2 =
        (runCalls calls (Registry.empty heap)).all.flatMap
          (fun p => OpenGL.releasesOf ((runCalls calls (Registry.empty heap)).heap p)) ++
        [.wglMakeCurrentNull, .wglDeleteContext, .ReleaseDC] ∧
      (OpenGL.ShutDown true true (runCalls calls (Registry.empty heap))).2.Nodup ∧
      ∀ p ∈ (runCalls calls (Registry.empty heap)).all,
        ∀ c ∈ OpenGL.releasesOf ((runCalls calls (Registry.empty heap)).heap p),
          (OpenGL.ShutDown true true (runCalls calls (Registry.empty heap))).2.count c
            = 1) := by
  have hnd : (runCalls calls (Registry.empty heap)).all.Nodup :=
    nodup_runCalls calls (Registry.empty heap) hfresh (by simp [Registry.all, Registry.empty])
  generalize runCalls calls (Registry.empty heap) = s at hvalid hdistinct hnd ⊢
  constructor
  · have hn1 := Direct3D.nodup_d3d_releases s.heap s.all hnd
      (fun p hp q hq hne => by
        obtain ⟨a, _, c, d⟩ := hdistinct p hp q hq hne
        exact ⟨a, c, d⟩)
    have hn : (s.all.flatMap (fun p => Direct3D.releasesOf (s.heap p)) ++
        [Direct3D.ShutDownCall.SetVertexDeclarationNull, .deviceRelease,
          .interfaceRelease]).Nodup := by
      rw [List.nodup_append]
      refine ⟨hn1, by decide, ?_⟩
      intro c hc hc'
      rw [List.mem_flatMap] at hc
      obtain ⟨p, _, hcp⟩ := hc
      simp only [Direct3D.releasesOf, List.mem_cons, List.mem_singleton, List.not_mem_nil,
        or_false] at hcp hc'
      rcases hcp with rfl | rfl | rfl | rfl | rfl <;> simp at hc'
    refine ⟨_, Direct3D.ShutDown_d3d_calls s hvalid, rfl, hn, ?_⟩
    intro p hp c hc
    apply List.count_eq_one_of_mem hn
    exact List.mem_append_left _ (List.mem_flatMap.2 ⟨p, hp, hc⟩)
  · have hn1 := OpenGL.nodup_gl_releases s.heap s.all hnd
      (fun p hp q hq hne => by
        obtain ⟨a, b, _, _⟩ := hdistinct p hp q hq hne
        exact ⟨a, b⟩)
    have hcalls := OpenGL.ShutDown_gl_calls s hnd
    have hn : (s.all.flatMap (fun p => OpenGL.releasesOf (s.heap p)) ++
        [OpenGL.ShutDownCall.wglMakeCurrentNull, .wglDeleteContext, .ReleaseDC]).Nodup := by
      rw [List.nodup_append]
      refine ⟨hn1, by decide, ?_⟩
      intro c hc hc'
      rw [List.mem_flatMap] at hc
      obtain ⟨p, _, hcp⟩ := hc
      simp only [OpenGL.releasesOf, List.mem_cons, List.mem_singleton, List.not_mem_nil,
        or_false] at hcp hc'
      rcases hcp with rfl | rfl <;> simp at hc'
    rw [hcalls]
    refine ⟨rfl, hn, ?_⟩
    intro p hp c hc
    apply List.count_eq_one_of_mem hn
    exact List.mem_append_left _ (List.mem_flatMap.2 ⟨p, hp, hc⟩)

/-- Witness for C26: two renderables, 7 and 8, each added once with its own objects. -/
theorem ShutDown_releases_once_witness :
    (OpenGL.ShutDown true true
      (runCalls
        [RegistryCall.add (meshWorldWithHandle 5) (materialWorldWithProgram 10) 7,
         RegistryCall.add (meshWorldWithHandle 6) (materialWorldWithProgram 20) 8]
        (Registry.empty zeroHeap))).2.Nodup :=
  (ShutDown_releases_once
    [RegistryCall.add (meshWorldWithHandle 5) (materialWorldWithProgram 10) 7,
     RegistryCall.add (meshWorldWithHandle 6) (materialWorldWithProgram 20) 8]
    zeroHeap (by decide) (by decide) (by decide)).2.2.1

end Graphics
end eae6320

namespace eae6320
namespace cMeshBuilder
open Examples

/-- C27 fails in the mesh builder: `Build` reaches `OnExit` with the asset table still on the
Lua stack (depth 1) when `vertices` is not a table and when `indices` is not a table, and with
the `vertices` table and the asset table on it (depth 2) when a vertex entry has no `position`
table; after a successful load the depth is 0. -/
theorem mesh_builder_stack_at_exit :
    (stackAtExit (.ok [meshWithoutVertexTable])).map List.length = some 1 ∧
    (stackAtExit (.ok [meshWithoutIndexTable])).map List.length = some 1 ∧
    (stackAtExit (.ok [meshWithoutPositionTable])).map List.length = some 2 ∧
    (stackAtExit (.ok [fourIndexMesh])).map List.length = some 0 ∧
    Build zeroConversions .GL meshWithoutVertexTable = .failure ∧
    Build zeroConversions .GL meshWithoutPositionTable = .failure := by
  refine ⟨by decide, by decide, by decide, by decide, by decide, by decide⟩

end cMeshBuilder
end eae6320

namespace eae6320
namespace cMeshBuilder
open Graphics

/-- The index loop, when every slot it writes is inside the array: it succeeds, keeps the
size of the array, leaves the slots it does not write alone and, when no slot is written
twice, leaves in the slot of each counter the value read for that counter. -/
theorem storeIndices_in_bounds (c : Lua.Conversions) (p : Platform)
    (get : Lua.Key → Lua.Value) (n : Nat) :
    ∀ (is : List Nat) (i_indexData : List Nat),
      (∀ i ∈ is, indexSlot p i < n) → i_indexData.length = n →
      ∃ out, storeIndices c p get n is i_indexData = .success out ∧ out.length = n ∧
        (∀ slot, (∀ i ∈ is, indexSlot p i ≠ slot) → out[slot]? = i_indexData[slot]?) ∧
        ((is.map (indexSlot p)).Nodup →
          ∀ i ∈ is, out[indexSlot p i]? = some (indexValue c get i)) := by
  intro is
  induction is with
  | nil =>
    intro arr _ hlen
    exact ⟨arr, rfl, hlen, fun _ _ => rfl, fun _ i hi => absurd hi (List.not_mem_nil i)⟩
  | cons i rest ih =>
    intro arr hslots hlen
    have hi : indexSlot p i < n := hslots i (List.mem_cons_self _ _)
    obtain ⟨out, hout, holen, hkeep, hval⟩ :=
      ih (arr.set (indexSlot p i) (indexValue c get i))
        (fun j hj => hslots j (List.mem_cons_of_mem _ hj))
        (by rw [List.length_set]; exact hlen)
    refine ⟨out, ?_, holen, ?_, ?_⟩
    · simp only [storeIndices, if_pos hi]
      exact hout
    · intro slot hslot
      rw [hkeep slot (fun j hj => hslot j (List.mem_cons_of_mem _ hj))]
      exact List.getElem?_set_ne (hslot i (List.mem_cons_self _ _))
    · intro hnd j hj
      rw [List.map_cons, List.nodup_cons] at hnd
      rcases List.mem_cons.1 hj with rfl | hj'
      · rw [hkeep (indexSlot p j)
          (fun k hk heq => hnd.1 (List.mem_map.2 ⟨k, hk, heq⟩))]
        rw [List.getElem?_set_self (by rw [hlen]; exact hi)]
      · exact hval hnd.2 j hj'

/-- The index loop never fails in another way than by a write outside the array. -/
theorem storeIndices_success_or_undefined (c : Lua.Conversions) (p : Platform)
    (get : Lua.Key → Lua.Value) (n : Nat) :
    ∀ (is : List Nat) (i_indexData : List Nat),
      (storeIndices c p get n is i_indexData = .undefinedBehaviour ∧
        ∃ i ∈ is, ¬ indexSlot p i < n) ∨
      ((∃ out, storeIndices c p get n is i_indexData = .success out) ∧
        ∀ i ∈ is, indexSlot p i < n) := by
  intro is
  induction is with
  | nil => intro arr; exact Or.inr ⟨⟨arr, rfl⟩, fun i hi => absurd hi (List.not_mem_nil i)⟩
  | cons i rest ih =>
    intro arr
    by_cases hi : indexSlot p i < n
    · simp only [storeIndices, if_pos hi]
      rcases ih (arr.set (indexSlot p i) (c.toUInt32 (Lua.tonumber c (get (.int i))) % 2 ^ 32))
        with ⟨h, j, hj, hjn⟩ | ⟨h, hall⟩
      · exact Or.inl ⟨h, j, List.mem_cons_of_mem _ hj, hjn⟩
      · refine Or.inr ⟨h, ?_⟩
        intro j hj
        rcases List.mem_cons.1 hj with rfl | hj'
        · exact hi
        · exact hall j hj'
    · refine Or.inl ⟨?_, i, List.mem_cons_self _ _, hi⟩
      simp only [storeIndices, if_neg hi]

/-- Between 1 and a multiple of 3, the Direct3D slot of a counter is inside the array. -/
theorem d3dSlot_lt (n i : Nat) (h3 : n % 3 = 0) (h1 : 1 ≤ i) (hn : i ≤ n) : d3dSlot i < n := by
  unfold d3dSlot
  split_ifs <;> omega

/-- Two counters from 1 on with the same Direct3D slot are the same counter. -/
theorem d3dSlot_injective (i j : Nat) (hi : 1 ≤ i) (hj : 1 ≤ j) (h : d3dSlot i = d3dSlot j) :
    i = j := by
  unfold d3dSlot at h
  split_ifs at h <;> omega

/-- The loop counters are pairwise distinct. -/
theorem nodup_fromOne (n : Nat) : (fromOne n).Nodup := by
  unfold fromOne
  exact List.Nodup.map (fun a b h => by simpa using h) (List.nodup_range n)

/-- The Direct3D index loop on a table of `n` entries, `n` a multiple of 3. -/
theorem storeIndices_d3d (c : Lua.Conversions) (get : Lua.Key → Lua.Value) (n : Nat)
    (h3 : n % 3 = 0) :
    ∃ out, storeIndices c .D3D get n (fromOne n) (List.replicate n 0) = .success out ∧
      out.length = n ∧
      ∀ k, 3 * k + 2 < n →
        out[3 * k]? = some (indexValue c get (3 * k + 1)) ∧
        out[3 * k + 1]? = some (indexValue c get (3 * k + 3)) ∧
        out[3 * k + 2]? = some (indexValue c get (3 * k + 2)) := by
  obtain ⟨out, hout, hlen, _, hval⟩ :=
    storeIndices_in_bounds c .D3D get n (fromOne n) (List.replicate n 0)
      (fun i hi => by
        obtain ⟨h1, h2⟩ := (mem_fromOne n i).1 hi
        exact d3dSlot_lt n i h3 h1 h2)
      (List.length_replicate _ _)
  have hnd : ((fromOne n).map (indexSlot .D3D)).Nodup :=
    List.Nodup.map_on
      (fun i hi j hj h =>
        d3dSlot_injective i j ((mem_fromOne n i).1 hi).1 ((mem_fromOne n j).1 hj).1 h)
      (nodup_fromOne n)
  refine ⟨out, hout, hlen, ?_⟩
  intro k hk
  have e1 := hval hnd (3 * k + 1) ((mem_fromOne n _).2 ⟨by omega, by omega⟩)
  have e2 := hval hnd (3 * k + 3) ((mem_fromOne n _).2 ⟨by omega, by omega⟩)
  have e3 := hval hnd (3 * k + 2) ((mem_fromOne n _).2 ⟨by omega, by omega⟩)
  have s1 : indexSlot .D3D (3 * k + 1) = 3 * k := by
    simp only [indexSlot, d3dSlot]
    split_ifs <;> omega
  have s2 : indexSlot .D3D (3 * k + 3) = 3 * k + 1 := by
    simp only [indexSlot, d3dSlot]
    split_ifs <;> omega
  have s3 : indexSlot .D3D (3 * k + 2) = 3 * k + 2 := by
    simp only [indexSlot, d3dSlot]
    split_ifs <;> omega
  rw [s1] at e1
  rw [s2] at e2
  rw [s3] at e3
  exact ⟨e1, e2, e3⟩

/-- C28: in the Direct3D build of the mesh builder, for every index table of length `n`
divisible by 3, the index loop succeeds and the array it leaves has length `n` and holds, for
every triangle `k`, the first index of the triangle in slot `3k`, the third in slot `3k + 1`
and the second in slot `3k + 2` (`(a, b, c)` becomes `(a, c, b)`); every slot `0 .. n - 1` is
written for exactly one counter value; and running the loop on a table that holds the output
gives back the input. -/
theorem d3d_index_reordering (c : Lua.Conversions) (get : Lua.Key → Lua.Value) (n : Nat)
    (h3 : n % 3 = 0) :
    ∃ out, storeIndices c .D3D get n (fromOne n) (List.replicate n 0) = .success out ∧
      out.length = n ∧
      (∀ k, 3 * k + 2 < n →
        out[3 * k]? = some (indexValue c get (3 * k + 1)) ∧
        out[3 * k + 1]? = some (indexValue c get (3 * k + 3)) ∧
        out[3 * k + 2]? = some (indexValue c get (3 * k + 2))) ∧
      (∀ slot, slot < n → ∃! i, (1 ≤ i ∧ i ≤ n) ∧ indexSlot .D3D i = slot) ∧
      (∀ get2 : Lua.Key → Lua.Value,
        (∀ i, 1 ≤ i → i ≤ n → out[i - 1]? = some (indexValue c get2 i)) →
        ∃ back, storeIndices c .D3D get2 n (fromOne n) (List.replicate n 0) = .success back ∧
          back.length = n ∧
          ∀ i, 1 ≤ i → i ≤ n → back[i - 1]? = some (indexValue c get i)) := by
  obtain ⟨out, hout, hlen, htri⟩ := storeIndices_d3d c get n h3
  refine ⟨out, hout, hlen, htri, ?_, ?_⟩
  · intro slot hslot
    have hcases : slot % 3 = 0 ∨ slot % 3 = 1 ∨ slot % 3 = 2 := by omega
    have hex : ∃ i, (1 ≤ i ∧ i ≤ n) ∧ indexSlot .D3D i = slot := by
      rcases hcases with h | h | h
      · refine ⟨slot + 1, ⟨by omega, by omega⟩, ?_⟩
        simp only [indexSlot, d3dSlot]
        split_ifs <;> omega
      · refine ⟨slot + 2, ⟨by omega, by omega⟩, ?_⟩
        simp only [indexSlot, d3dSlot]
        split_ifs <;> omega
      · refine ⟨slot, ⟨by omega, by omega⟩, ?_⟩
        simp only [indexSlot, d3dSlot]
        split_ifs <;> omega
    obtain ⟨i, hi, hs⟩ := hex
    refine ⟨i, ⟨hi, hs⟩, ?_⟩
    rintro j ⟨hj, hjs⟩
    exact d3dSlot_injective j i hj.1 hi.1 (hjs.trans hs.symm)
  · intro get2 hget2
    obtain ⟨back, hback, hblen, hbtri⟩ := storeIndices_d3d c get2 n h3
    refine ⟨back, hback, hblen, ?_⟩
    intro i h1 hn
    have hdecomp : ∃ k, 3 * k + 2 < n ∧ (i = 3 * k + 1 ∨ i = 3 * k + 2 ∨ i = 3 * k + 3) :=
      ⟨(i - 1) / 3, by omega, by omega⟩
    obtain ⟨k, hk, hi⟩ := hdecomp
    obtain ⟨b1, b2, b3⟩ := hbtri k hk
    obtain ⟨o1, o2, o3⟩ := htri k hk
    have g1 := hget2 (3 * k + 1) (by omega) (by omega)
    have g2 := hget2 (3 * k + 2) (by omega) (by omega)
    have g3 := hget2 (3 * k + 3) (by omega) (by omega)
    simp only [Nat.add_sub_cancel] at g1 g2 g3
    rcases hi with rfl | rfl | rfl
    · simp only [Nat.add_sub_cancel]
      rw [b1, ← g1, o1]
    · have : 3 * k + 2 - 1 = 3 * k + 1 := by omega
      rw [this] at g2 ⊢
      have : 3 * k + 3 - 1 = 3 * k + 2 := by omega
      rw [this] at g3
      rw [b2, ← g3, o3]
    · have : 3 * k + 3 - 1 = 3 * k + 2 := by omega
      rw [this] at g3 ⊢
      have : 3 * k + 2 - 1 = 3 * k + 1 := by omega
      rw [this] at g2
      rw [b3, ← g2, o2]

/-- Witness for C28: a table of three indices, all read as 0. -/
theorem d3d_index_reordering_witness :
    ∃ out, storeIndices Examples.zeroConversions .D3D Examples.twoIndices 3 (fromOne 3)
        (List.replicate 3 0) = .success out ∧ out.length = 3 :=
  (d3d_index_reordering Examples.zeroConversions Examples.twoIndices 3 (by decide)).imp
    fun _ h => ⟨h.1, h.2.1⟩

/-- C29 fails: in the Direct3D build, for every index table whose length `n` leaves the
remainder 2 when divided by 3, the last pass of the loop (`i = n`, `i % 3 == 2`) writes
`i_indexData[n]`, one past the `n`-element array. -/
theorem d3d_index_write_out_of_bounds (c : Lua.Conversions) (get : Lua.Key → Lua.Value)
    (n : Nat) (h : n % 3 = 2) :
    indexSlot .D3D n = n ∧
    storeIndices c .D3D get n (fromOne n) (List.replicate n 0) = .undefinedBehaviour := by
  have hslot : indexSlot .D3D n = n := by
    simp only [indexSlot, d3dSlot]
    split_ifs <;> omega
  refine ⟨hslot, ?_⟩
  rcases storeIndices_success_or_undefined c .D3D get n (fromOne n) (List.replicate n 0)
    with ⟨hub, _⟩ | ⟨_, hall⟩
  · exact hub
  · have := hall n ((mem_fromOne n n).2 ⟨by omega, le_refl n⟩)
    omega

/-- Witness for C29: a description with the two indices `0` and `1`; the Direct3D builder
writes past the array, the OpenGL builder stores the two indices. -/
theorem d3d_index_write_out_of_bounds_witness :
    indexSlot .D3D 2 = 2 ∧
    storeIndices Examples.zeroConversions .D3D Examples.twoIndices 2 (fromOne 2)
      (List.replicate 2 0) = .undefinedBehaviour ∧
    LoadIndices Examples.zeroConversions .D3D
      (Lua.record [("indices", Lua.sequence [.number 0, .number 1])]) = .undefinedBehaviour ∧
    LoadIndices Examples.zeroConversions .GL
      (Lua.record [("indices", Lua.sequence [.number 0, .number 1])]) = .success (2, [0, 0]) :=
  ⟨(d3d_index_write_out_of_bounds Examples.zeroConversions Examples.twoIndices 2
      (by decide)).1,
   (d3d_index_write_out_of_bounds Examples.zeroConversions Examples.twoIndices 2
      (by decide)).2,
   by decide, by decide⟩

end cMeshBuilder
end eae6320

namespace eae6320
namespace Graphics

/-- The stages the Direct3D `SetTexture` uses for a list of calls are the sampler indices of
the materials. -/
theorem stages_of_texture_calls (l : List (Material × Nat)) :
    (l.flatMap (fun call => Direct3D.SetTexture call.1 call.2)).map
        Direct3D.TextureCall.stage =
      l.map (fun call => call.1.m_texHandle) := by
  induction l with
  | nil => rfl
  | cons x rest ih =>
    rw [List.flatMap_cons, List.map_append, ih]
    rfl

/-- C30: in the Direct3D backend `SetTexture (material, i)` makes the one device call that
binds the material's texture to the stage `m_texHandle`, whatever the index `i`: for every
material and every two indices the calls are the same, two materials with the same
`m_texHandle` use the same stage whatever the indices, and within a frame the stages used are
the `m_texHandle` values of the drawn renderables, opaque list first. -/
theorem SetTexture_d3d_stage (s : Registry) (material1 material2 : Material) (i j : Nat)
    (h : material1.m_texHandle = material2.m_texHandle) :
    Direct3D.SetTexture material1 i = Direct3D.SetTexture material1 j ∧
    Direct3D.SetTexture material1 i =
      [.SetTexture material1.m_texHandle material1.m_3dTexture] ∧
    (Direct3D.SetTexture material1 i).map Direct3D.TextureCall.stage =
      (Direct3D.SetTexture material2 j).map Direct3D.TextureCall.stage ∧
    ((textureCalls (Render s)).flatMap (fun call => Direct3D.SetTexture call.1 call.2)).map
        Direct3D.TextureCall.stage =
      s.all.map (fun p => (s.heap p).m_material.m_texHandle) := by
  refine ⟨rfl, rfl, ?_, ?_⟩
  · simp [Direct3D.SetTexture, Direct3D.TextureCall.stage, h]
  · rw [textureCalls_Render, stages_of_texture_calls, List.map_append, List.map_map,
      List.map_map, Registry.all, List.map_append]
    have ho := map_range_getD s.s_opaqueRenderableList 0
      (fun p => (s.heap p).m_material.m_texHandle)
    have ht := map_range_getD s.s_transparentRenderableList 0
      (fun p => (s.heap p).m_material.m_texHandle)
    rw [← ho, ← ht]
    rfl

/-- Witness for C30: two materials with sampler index 3 and different textures, set with the
indices 0 and 5. -/
theorem SetTexture_d3d_stage_witness :
    (Direct3D.SetTexture { (default : Material) with m_texHandle := 3, m_3dTexture := 1 } 0).map
        Direct3D.TextureCall.stage =
      (Direct3D.SetTexture { (default : Material) with m_texHandle := 3, m_3dTexture := 2 }
        5).map Direct3D.TextureCall.stage :=
  (SetTexture_d3d_stage (Registry.empty zeroHeap)
    { (default : Material) with m_texHandle := 3, m_3dTexture := 1 }
    { (default : Material) with m_texHandle := 3, m_3dTexture := 2 } 0 5 rfl).2.2.1

end Graphics
end eae6320

namespace eae6320
namespace cEffectBuilder

/-- A path block leaves the stack as it found it when a table is on top. -/
theorem readPath_table (key : String) (get : Lua.Key → Lua.Value) (rest : Lua.Stack) :
    readPath key (.table get :: rest) = .table get :: rest := by
  simp [readPath, Lua.lua_pushstring, Lua.lua_gettable, Lua.lua_pop, Lua.Value.toKey]

/-- A flag block leaves the stack as it found it when a table is on top. -/
theorem readFlag_table (key : String) (bit : Nat) (acc : Nat × Lua.Stack)
    (get : Lua.Key → Lua.Value) (rest : Lua.Stack) (h : acc.2 = .table get :: rest) :
    (readFlag key bit acc).2 = .table get :: rest := by
  simp [readFlag, h, Lua.lua_pushstring, Lua.lua_gettable, Lua.lua_pop, Lua.Value.toKey]

/-- The render-states block leaves the stack as it found it when a table is on top. -/
theorem readRenderStates_table (get : Lua.Key → Lua.Value) (rest : Lua.Stack) :
    (readRenderStates (.table get :: rest)).2 = .table get :: rest := by
  unfold readRenderStates
  simp only [Lua.lua_pushstring, Lua.lua_gettable, Lua.Value.toKey]
  cases hv : get (.str "renderstates") with
  | table g =>
    simp only [Lua.lua_istable, if_true]
    have a1 := readFlag_table "alpha" alpha (0, .table g :: .table get :: rest) g
      (.table get :: rest) rfl
    have a2 := readFlag_table "depthtest" depthtest _ g (.table get :: rest) a1
    have a3 := readFlag_table "depthwrite" depthwrite _ g (.table get :: rest) a2
    have a4 := readFlag_table "faceculling" faceculling _ g (.table get :: rest) a3
    rw [a4]
    rfl
  | nil => simp [Lua.lua_istable, Lua.lua_pop]
  | boolean b => simp [Lua.lua_istable, Lua.lua_pop]
  | number q => simp [Lua.lua_istable, Lua.lua_pop]
  | string s => simp [Lua.lua_istable, Lua.lua_pop]

/-- In the effect builder the Lua stack is empty at `OnExit` on every path. -/
theorem effect_builder_stack_empty (dofile : cMeshBuilder.DoFile) :
    stackAtExit dofile = [] := by
  cases dofile with
  | error message => rfl
  | ok returned =>
    unfold stackAtExit
    simp only
    split_ifs with h1 h2
    · match returned, h1 with
      | [v], _ => rfl
    · match returned, h1 with
      | [v], _ =>
        cases v with
        | table get =>
          rw [readPath_table, readPath_table, readRenderStates_table]
          rfl
        | nil => simp [Lua.lua_istable] at h2
        | boolean b => simp [Lua.lua_istable] at h2
        | number q => simp [Lua.lua_istable] at h2
        | string s => simp [Lua.lua_istable] at h2
    · simp [Lua.lua_pop]

end cEffectBuilder
end eae6320

namespace eae6320

/-- What `lua_gettable (-2)` leaves: the value on top of the value that was indexed. -/
theorem Lua.gettable_eq_some (k t : Lua.Value) (rest st : Lua.Stack)
    (h : Lua.gettable (k :: t :: rest) = some st) : ∃ v, st = v :: t :: rest := by
  simp only [Lua.gettable] at h
  cases hk : k.toKey with
  | none => simp [hk] at h
  | some key =>
    simp only [hk, Option.map_eq_some'] at h
    obtain ⟨v, _, rfl⟩ := h
    exact ⟨v, rfl⟩

/-- An element read leaves the stack as it found it. -/
theorem cMeshBuilder.readElement_eq_some (t : Lua.Value) (rest st : Lua.Stack) (k : Nat)
    (h : cMeshBuilder.readElement (t :: rest) k = some st) : st = t :: rest := by
  simp only [cMeshBuilder.readElement, Lua.lua_pushinteger, Option.map_eq_some'] at h
  obtain ⟨s, hs, rfl⟩ := h
  obtain ⟨v, rfl⟩ := Lua.gettable_eq_some _ _ _ _ hs
  rfl

/-- A run of element reads leaves the stack as it found it. -/
theorem cMeshBuilder.foldlM_readElement (t : Lua.Value) (rest : Lua.Stack) :
    ∀ (ks : List Nat) (st : Lua.Stack),
      ks.foldlM cMeshBuilder.readElement (t :: rest) = some st → st = t :: rest := by
  intro ks
  induction ks with
  | nil =>
    intro st h
    simpa using h.symm
  | cons k ks ih =>
    intro st h
    rw [List.foldlM_cons] at h
    cases h1 : cMeshBuilder.readElement (t :: rest) k with
    | none => simp [h1] at h
    | some s =>
      rw [h1] at h
      have := cMeshBuilder.readElement_eq_some t rest s k h1
      subst this
      exact ih st h

namespace cMaterialBuilder

/-- A string read leaves the stack as it found it. -/
theorem readString_eq_some (key : String) (t : Lua.Value) (rest st : Lua.Stack)
    (h : readString key (t :: rest) = some st) : st = t :: rest := by
  simp only [readString, Lua.lua_pushstring, Option.map_eq_some'] at h
  obtain ⟨s, hs, rfl⟩ := h
  obtain ⟨v, rfl⟩ := Lua.gettable_eq_some _ _ _ _ hs
  rfl

/-- The uniform loop leaves the stack as it found it. -/
theorem uniformLoop_eq_some (t : Lua.Value) (rest : Lua.Stack) :
    ∀ (is : List Nat) (st : Lua.Stack), uniformLoop is (t :: rest) = some st →
      st = t :: rest := by
  intro is
  induction is with
  | nil =>
    intro st h
    simpa [uniformLoop] using h.symm
  | cons i is ih =>
    intro st h
    simp only [uniformLoop, Lua.lua_pushinteger, Option.bind_eq_some] at h
    obtain ⟨entry, hentry, entry1, h1, entry2, h2, values, hvalues, length, _, values1, hv1,
      hrest⟩ := h
    obtain ⟨e, rfl⟩ := Lua.gettable_eq_some _ _ _ _ hentry
    have := readString_eq_some _ _ _ _ h1
    subst this
    have := readString_eq_some _ _ _ _ h2
    subst this
    simp only [Lua.lua_pushstring] at hvalues
    obtain ⟨v, rfl⟩ := Lua.gettable_eq_some _ _ _ _ hvalues
    have := cMeshBuilder.foldlM_readElement _ _ _ _ hv1
    subst this
    exact ih st hrest

/-- In the material builder the Lua stack is empty at `OnExit` on every path that reaches
it. -/
theorem material_builder_stack_empty (dofile : cMeshBuilder.DoFile) (st : Lua.Stack)
    (h : stackAtExit dofile = some st) : st = [] := by
  cases dofile with
  | error message =>
    simp only [stackAtExit, Option.some.injEq] at h
    exact h.symm
  | ok returned =>
    unfold stackAtExit at h
    simp only at h
    split_ifs at h with h1 h2
    · match returned, h1 with
      | [v], _ =>
        simp only [Option.some.injEq] at h
        exact h.symm
    · match returned, h1 with
      | [v], _ =>
        simp only [Option.bind_eq_some, Option.some.injEq] at h
        obtain ⟨st1, hs1, uniforms, hu, length, _, uniforms1, hloop, textures, ht, textures1,
          ht1, textures2, ht2, rfl⟩ := h
        have := readString_eq_some _ _ _ _ hs1
        subst this
        simp only [Lua.lua_pushstring] at hu
        obtain ⟨u, rfl⟩ := Lua.gettable_eq_some _ _ _ _ hu
        have := uniformLoop_eq_some _ _ _ _ hloop
        subst this
        simp only [Lua.lua_pushstring, Lua.lua_pop, List.drop_succ_cons, List.drop_zero] at ht
        obtain ⟨t, rfl⟩ := Lua.gettable_eq_some _ _ _ _ ht
        have := readString_eq_some _ _ _ _ ht1
        subst this
        have := readString_eq_some _ _ _ _ ht2
        subst this
        rfl
    · simp only [Option.some.injEq] at h
      subst h
      simp [Lua.lua_pop]

/-- A material description with one uniform reaches `OnExit`, with the stack empty. -/
theorem material_builder_stack_empty_example :
    (stackAtExit
      (.ok [Examples.materialWith [Examples.uniformEntry [.number 1, .number 2]]])).map
        List.length = some 0 := by
  decide

end cMaterialBuilder
end eae6320

namespace eae6320
namespace Graphics

/-! ## C21: `LoadMaterial` and the results of the loaders it calls -/

/-- A call of the OpenGL `LoadEffect` that returns has stored byte 0 of the effect file in
`m_renderStates`. -/
theorem OpenGL.LoadEffect_gl_renderStates (w : OpenGL.LoadEffectWorld) (i_effect : Effect)
    (h : OpenGL.LoadEffect_returns w = true) :
    (OpenGL.LoadEffect w i_effect).value.m_renderStates = w.renderStatesByte % 256 := by
  unfold OpenGL.LoadEffect_returns at h
  unfold OpenGL.LoadEffect
  cases hfind : OpenGL.steps.find? (OpenGL.stepFails w) with
  | none => simp only []; split <;> rfl
  | some step =>
    rw [hfind] at h
    cases step <;> first | rfl | (simp [OpenGL.skipsInitialisation] at h)

/-- A call of the Direct3D `LoadEffect` that sets the fragment constant table has stored byte
0 of the effect file in `m_renderStates`. -/
theorem Direct3D.LoadEffect_d3d_renderStates (w : Direct3D.LoadEffectWorld) (i_effect : Effect)
    (h : Direct3D.fragmentTableSet w = true) :
    (Direct3D.LoadEffect w i_effect).value.m_renderStates = w.renderStatesByte % 256 := by
  simp only [Direct3D.fragmentTableSet, Bool.and_eq_true] at h
  obtain ⟨⟨⟨h1, h2⟩, h3⟩, h4⟩ := h
  unfold Direct3D.LoadEffect
  simp only [h1, h2, h3, h4]
  by_cases h5 : w.vertexOpenOk = false
  · simp [h5]
  · by_cases h6 : w.vertexMallocOk = false
    · simp [h5, h6]
    · simp [h5, h6]

/-- The OpenGL `LoadMaterial` does not return exactly when the material file is read and the
nested `LoadEffect` leaves over a skipped initialisation. -/
theorem OpenGL.LoadMaterial_gl_undefined_iff (w : OpenGL.MaterialWorld)
    (i_material : Material) :
    (∀ r, OpenGL.LoadMaterial w i_material ≠ .returned r) ↔
      (w.fopenOk = true ∧ w.mallocOk = true ∧ OpenGL.LoadEffect_returns w.effect = false) := by
  unfold OpenGL.LoadMaterial
  by_cases h1 : w.fopenOk = false
  · simp [h1]
  · by_cases h2 : w.mallocOk = false
    · simp [h1, h2]
    · by_cases h3 : OpenGL.LoadEffect_returns w.effect = false
      · simp [h1, h2, h3]
      · simp [h1, h2, h3]


/-- The Direct3D `GetUniform` returns the handle of the table of the shader type when that
table is set. -/
theorem Direct3D.GetUniform_eq (w : Direct3D.MaterialWorld) (name : String)
    (t : eShaderType) (hf : Direct3D.fragmentTableSet w.effect = true)
    (h : t = eShaderType.fragment ∨ Direct3D.vertexTableSet w.effect = true) :
    Direct3D.GetUniform w name t = some (Direct3D.uniformHandleOf w name t) := by
  unfold Direct3D.GetUniform Direct3D.uniformHandleOf
  by_cases ht : t = eShaderType.fragment
  · simp [ht, hf]
  · rcases h with h | h
    · exact absurd h ht
    · simp [ht, h]

/-- The uniform loop of the Direct3D `LoadMaterial` resolves every uniform when each of them
finds its table set. -/
theorem Direct3D.resolveUniforms_some (w : Direct3D.MaterialWorld)
    (copied : List sUniformHelper) (hf : Direct3D.fragmentTableSet w.effect = true) :
    ∀ (is : List Nat),
      (∀ i ∈ is, (copied.getD i default).shaderType = eShaderType.fragment ∨
        Direct3D.vertexTableSet w.effect = true) →
      Direct3D.resolveUniforms w copied is =
        some (is.map fun i =>
          { copied.getD i default with
            uniformHandle :=
              Direct3D.uniformHandleOf w (w.uniformNamesArray i)
                (copied.getD i default).shaderType })
  | [], _ => rfl
  | i :: rest, h => by
    have hi := Direct3D.GetUniform_eq w (w.uniformNamesArray i)
      (copied.getD i default).shaderType hf (h i (List.mem_cons_self _ _))
    have hrest := Direct3D.resolveUniforms_some w copied hf rest
      (fun j hj => h j (List.mem_cons_of_mem _ hj))
    simp only [Direct3D.resolveUniforms, hi, hrest, List.map_cons]

/-- The uniform loop of the Direct3D `LoadMaterial` does not end when a vertex uniform finds
the vertex table unset. -/
theorem Direct3D.resolveUniforms_none (w : Direct3D.MaterialWorld)
    (copied : List sUniformHelper) (hv : Direct3D.vertexTableSet w.effect = false) :
    ∀ (is : List Nat),
      (∃ i ∈ is, (copied.getD i default).shaderType ≠ eShaderType.fragment) →
      Direct3D.resolveUniforms w copied is = none
  | [], h => by obtain ⟨i, hi, _⟩ := h; exact absurd hi (List.not_mem_nil _)
  | i :: rest, h => by
    by_cases ht : (copied.getD i default).shaderType = eShaderType.fragment
    · have hrest : Direct3D.resolveUniforms w copied rest = none := by
        apply Direct3D.resolveUniforms_none w copied hv rest
        obtain ⟨j, hj, hne⟩ := h
        rcases List.mem_cons.1 hj with rfl | hj
        · exact absurd ht hne
        · exact ⟨j, hj, hne⟩
      simp only [Direct3D.resolveUniforms, hrest]
      split <;> rfl
    · have hg : Direct3D.GetUniform w (w.uniformNamesArray i)
          (copied.getD i default).shaderType = none := by
        unfold Direct3D.GetUniform
        rw [if_neg ht, hv]
        rfl
      simp only [Direct3D.resolveUniforms, hg]

/-- The Direct3D `LoadMaterial` does not return exactly when the material file is read and
`LoadSamplerID` or a `GetUniform` finds its constant table unset. -/
theorem Direct3D.LoadMaterial_d3d_undefined_iff (w : Direct3D.MaterialWorld)
    (i_material : Material) :
    (∀ r, Direct3D.LoadMaterial w i_material ≠ .returned r) ↔
      (w.fopenOk = true ∧ w.mallocOk = true ∧ Direct3D.tablesSet w = false) := by
  unfold Direct3D.LoadMaterial
  by_cases h1 : w.fopenOk = false
  · simp [h1]
  · by_cases h2 : w.mallocOk = false
    · simp [h1, h2]
    · by_cases hf : Direct3D.fragmentTableSet w.effect = true
      · by_cases hall : ∀ i ∈ List.range (w.noOfUniforms % 256),
            ((w.uniforms.take (w.noOfUniforms % 256)).getD i default).shaderType
              = eShaderType.fragment ∨ Direct3D.vertexTableSet w.effect = true
        · have hres := Direct3D.resolveUniforms_some w _ hf _ hall
          have hset : Direct3D.tablesSet w = true := by
            simp only [Direct3D.tablesSet, hf, Bool.true_and, List.all_eq_true,
              Bool.or_eq_true, decide_eq_true_eq]
            exact hall
          simp [h1, h2, hf, hres, hset, Direct3D.LoadSamplerID]
        · have hv : Direct3D.vertexTableSet w.effect = false := by
            by_contra hv
            exact hall (fun i _ => Or.inr (by simpa using hv))
          have hex : ∃ i ∈ List.range (w.noOfUniforms % 256),
              ((w.uniforms.take (w.noOfUniforms % 256)).getD i default).shaderType
                ≠ eShaderType.fragment := by
            by_contra hex
            apply hall
            intro i hi
            left
            by_contra hne
            exact hex ⟨i, hi, hne⟩
          have hres := Direct3D.resolveUniforms_none w _ hv _ hex
          have hset : Direct3D.tablesSet w = false := by
            rw [← Bool.not_eq_true]
            intro hset
            simp only [Direct3D.tablesSet, hf, Bool.true_and, List.all_eq_true,
              Bool.or_eq_true, decide_eq_true_eq] at hset
            exact hall hset
          simp [h1, h2, hf, hres, hset, Direct3D.LoadSamplerID]
      · have hset : Direct3D.tablesSet w = false := by
          simp [Direct3D.tablesSet, hf]
        simp [h1, h2, hf, hset, Direct3D.LoadSamplerID]


/-- On the summary of a call of the OpenGL `LoadEffect` that returns, the summarised
`LoadEffect` gives what the OpenGL `LoadEffect` gives. -/
theorem OpenGL.LoadEffect_gl_summary (w : OpenGL.MaterialWorld) (i_material : Material)
    (h : OpenGL.LoadEffect_returns w.effect = true) :
    Graphics.LoadEffect (w.summary i_material).effect i_material.m_effect =
      OpenGL.LoadEffect w.effect i_material.m_effect := by
  have hr := OpenGL.LoadEffect_gl_renderStates w.effect i_material.m_effect h
  have hmod : (OpenGL.LoadEffect w.effect i_material.m_effect).value.m_renderStates % 256 =
      (OpenGL.LoadEffect w.effect i_material.m_effect).value.m_renderStates := by
    rw [hr, Nat.mod_mod]
  simp only [Graphics.LoadEffect, OpenGL.MaterialWorld.summary, hmod]

/-- The summarised `LoadMaterial` describes every call of the OpenGL `LoadMaterial` that
returns. -/
theorem OpenGL.LoadMaterial_gl_summary (w : OpenGL.MaterialWorld) (i_material : Material)
    (h : OpenGL.LoadEffect_returns w.effect = true) :
    OpenGL.LoadMaterial w i_material =
      .returned (Graphics.LoadMaterial (w.summary i_material) i_material) := by
  have he := OpenGL.LoadEffect_gl_summary w i_material h
  unfold OpenGL.LoadMaterial Graphics.LoadMaterial
  rw [he]
  by_cases h1 : w.fopenOk = false
  · simp [h1, OpenGL.MaterialWorld.summary]
  · by_cases h2 : w.mallocOk = false
    · simp [h1, h2, OpenGL.MaterialWorld.summary]
    · cases ht : w.texture <;>
        simp [h1, h2, h, OpenGL.MaterialWorld.summary, OpenGL.LoadTexture, OpenGL.LoadSamplerID,
          ht]

/-- On the summary of a call of the Direct3D `LoadEffect` that sets the fragment constant
table, the summarised `LoadEffect` gives what the Direct3D `LoadEffect` gives. -/
theorem Direct3D.LoadEffect_d3d_summary (w : Direct3D.MaterialWorld) (i_material : Material)
    (h : Direct3D.fragmentTableSet w.effect = true) :
    Graphics.LoadEffect (w.summary i_material).effect i_material.m_effect =
      Direct3D.LoadEffect w.effect i_material.m_effect := by
  have hr := Direct3D.LoadEffect_d3d_renderStates w.effect i_material.m_effect h
  have hmod : (Direct3D.LoadEffect w.effect i_material.m_effect).value.m_renderStates % 256 =
      (Direct3D.LoadEffect w.effect i_material.m_effect).value.m_renderStates := by
    rw [hr, Nat.mod_mod]
  simp only [Graphics.LoadEffect, Direct3D.MaterialWorld.summary, hmod]

/-- The summarised `LoadMaterial` describes every call of the Direct3D `LoadMaterial` that
returns. -/
theorem Direct3D.LoadMaterial_d3d_summary (w : Direct3D.MaterialWorld)
    (i_material : Material) (h : Direct3D.tablesSet w = true) :
    Direct3D.LoadMaterial w i_material =
      .returned (Graphics.LoadMaterial (w.summary i_material) i_material) := by
  have hf : Direct3D.fragmentTableSet w.effect = true := by
    simp only [Direct3D.tablesSet, Bool.and_eq_true] at h
    exact h.1
  have hall : ∀ i ∈ List.range (w.noOfUniforms % 256),
      ((w.uniforms.take (w.noOfUniforms % 256)).getD i default).shaderType
        = eShaderType.fragment ∨ Direct3D.vertexTableSet w.effect = true := by
    simp only [Direct3D.tablesSet, hf, Bool.true_and, List.all_eq_true,
      Bool.or_eq_true, decide_eq_true_eq] at h
    exact h
  have hres := Direct3D.resolveUniforms_some w _ hf _ hall
  have he := Direct3D.LoadEffect_d3d_summary w i_material hf
  unfold Direct3D.LoadMaterial Graphics.LoadMaterial
  rw [he]
  by_cases h1 : w.fopenOk = false
  · simp [h1, Direct3D.MaterialWorld.summary]
  · by_cases h2 : w.mallocOk = false
    · simp [h1, h2, Direct3D.MaterialWorld.summary]
    · simp [h1, h2, hf, hres, Direct3D.MaterialWorld.summary, Direct3D.LoadTexture,
        Direct3D.LoadSamplerID]

/-- C21 fails: whenever the material file opens, the buffer is allocated and the call returns,
`LoadMaterial` returns success in both backends, whatever `LoadEffect` and `LoadTexture`
returned; the material it leaves holds the effect as a failed `LoadEffect` left it and the
texture as a failed `LoadTexture` left it (0 in OpenGL). -/
theorem LoadMaterial_discards_sub_loaders (wg : OpenGL.MaterialWorld)
    (wd : Direct3D.MaterialWorld) (i_material : Material)
    (hg : wg.fopenOk = true ∧ wg.mallocOk = true)
    (hreturns : OpenGL.LoadEffect_returns wg.effect = true)
    (hd : wd.fopenOk = true ∧ wd.mallocOk = true)
    (htables : Direct3D.tablesSet wd = true) :
    (∃ r, OpenGL.LoadMaterial wg i_material = .returned r ∧ r.ok = true ∧
      r.value.m_effect = (OpenGL.LoadEffect wg.effect i_material.m_effect).value ∧
      r.value.m_3dTexture = (OpenGL.LoadTexture wg i_material).value.m_3dTexture) ∧
    (∃ r, Direct3D.LoadMaterial wd i_material = .returned r ∧ r.ok = true ∧
      r.value.m_effect = (Direct3D.LoadEffect wd.effect i_material.m_effect).value ∧
      r.value.m_3dTexture = (Direct3D.LoadTexture wd i_material).value.m_3dTexture) := by
  constructor
  · refine ⟨_, OpenGL.LoadMaterial_gl_summary wg i_material hreturns, ?_, ?_, ?_⟩
    · simp [Graphics.LoadMaterial, OpenGL.MaterialWorld.summary, hg.1, hg.2]
    · rw [← OpenGL.LoadEffect_gl_summary wg i_material hreturns]
      simp [Graphics.LoadMaterial, OpenGL.MaterialWorld.summary, hg.1, hg.2]
    · simp [Graphics.LoadMaterial, OpenGL.MaterialWorld.summary, hg.1, hg.2]
  · have hf : Direct3D.fragmentTableSet wd.effect = true := by
      simp only [Direct3D.tablesSet, Bool.and_eq_true] at htables
      exact htables.1
    refine ⟨_, Direct3D.LoadMaterial_d3d_summary wd i_material htables, ?_, ?_, ?_⟩
    · simp [Graphics.LoadMaterial, Direct3D.MaterialWorld.summary, hd.1, hd.2]
    · rw [← Direct3D.LoadEffect_d3d_summary wd i_material hf]
      simp [Graphics.LoadMaterial, Direct3D.MaterialWorld.summary, hd.1, hd.2]
    · simp [Graphics.LoadMaterial, Direct3D.MaterialWorld.summary, hd.1, hd.2,
        Direct3D.LoadTexture]

/-- Witness for C21: in OpenGL a material whose effect links without the uniform
`g_transform_worldToView` and whose texture file cannot be opened, in Direct3D a material
whose effect has no handle for `g_transform_worldToView` and whose pixel shader and texture
are not created; `LoadEffect` returns failure, the OpenGL `LoadTexture` returns failure, and
`LoadMaterial` returns success. -/
theorem LoadMaterial_discards_sub_loaders_witness :
    (OpenGL.LoadEffect OpenGL.materialWorldMissingUniform.effect
      (default : Material).m_effect).ok = false ∧
    (OpenGL.LoadTexture OpenGL.materialWorldMissingUniform default).ok = false ∧
    (Direct3D.LoadEffect Direct3D.materialWorldMissingUniform.effect
      (default : Material).m_effect).ok = false ∧
    Direct3D.materialWorldMissingUniform.createTextureOk = false ∧
    ((∃ r, OpenGL.LoadMaterial OpenGL.materialWorldMissingUniform default = .returned r ∧
      r.ok = true ∧
      r.value.m_effect = (OpenGL.LoadEffect OpenGL.materialWorldMissingUniform.effect
        (default : Material).m_effect).value ∧
      r.value.m_3dTexture =
        (OpenGL.LoadTexture OpenGL.materialWorldMissingUniform default).value.m_3dTexture) ∧
    (∃ r, Direct3D.LoadMaterial Direct3D.materialWorldMissingUniform default = .returned r ∧
      r.ok = true ∧
      r.value.m_effect = (Direct3D.LoadEffect Direct3D.materialWorldMissingUniform.effect
        (default : Material).m_effect).value ∧
      r.value.m_3dTexture =
        (Direct3D.LoadTexture Direct3D.materialWorldMissingUniform default).value.m_3dTexture)) :=
  ⟨by decide, by decide, by decide, rfl,
   LoadMaterial_discards_sub_loaders OpenGL.materialWorldMissingUniform
     Direct3D.materialWorldMissingUniform default ⟨rfl, rfl⟩ (by decide) ⟨rfl, rfl⟩
     (by decide)⟩

/-- A material whose effect file cannot be opened: the OpenGL `LoadEffect` leaves through
`goto OnExit` at line 543 and `OnExit` reads `fragmentShaderId`, the Direct3D `LoadEffect`
returns failure and `LoadSamplerID` calls through the unset fragment constant table; in
neither backend does `LoadMaterial` return. -/
theorem LoadMaterial_missing_effect_file_example :
    OpenGL.LoadEffect_returns OpenGL.materialWorldMissingEffect.effect = false ∧
    (∀ r, OpenGL.LoadMaterial OpenGL.materialWorldMissingEffect default ≠ .returned r) ∧
    (Direct3D.LoadEffect Direct3D.materialWorldMissingEffect.effect
      (default : Material).m_effect).ok = false ∧
    Direct3D.tablesSet Direct3D.materialWorldMissingEffect = false ∧
    (∀ r, Direct3D.LoadMaterial Direct3D.materialWorldMissingEffect default ≠ .returned r) :=
  ⟨by decide,
   (OpenGL.LoadMaterial_gl_undefined_iff _ _).2 ⟨rfl, rfl, by decide⟩,
   by decide, by decide,
   (Direct3D.LoadMaterial_d3d_undefined_iff _ _).2 ⟨rfl, rfl, by decide⟩⟩

end Graphics
end eae6320

namespace eae6320
namespace cMaterialBuilder
open Graphics Examples

/-! ## C15 and C16: what the uniform loop stores -/

end cMaterialBuilder
end eae6320

namespace eae6320
namespace cMaterialBuilder
open Graphics Examples

/-- The file the builder writes for the description of the C15 witness. -/
theorem Build_twoValueMaterial_example :
    Build smallFloatConversions 4 (fun _ => [])
      (materialWith [uniformEntry [.number 1, .number 2]]) =
      .success
        [101, 0, 116, 0, 112, 0, 1, 0, 0, 0, 0, 0, 0, 128, 63, 0, 0, 0, 64, 0, 0, 0, 0, 0, 0,
        0, 0, 2, 0, 0, 0, 103, 95, 99, 111, 108, 111, 114, 0] ∧
    (readMaterialFile 4
      [101, 0, 116, 0, 112, 0, 1, 0, 0, 0, 0, 0, 0, 128, 63, 0, 0, 0, 64, 0, 0, 0, 0, 0, 0,
        0, 0, 2, 0, 0, 0, 103, 95, 99, 111, 108, 111, 114, 0]).m_uniforms =
      [⟨0, [1065353216, 1073741824, 0, 0], 2, eShaderType.fragment⟩] ∧
    (readMaterialFile 4
      [101, 0, 116, 0, 112, 0, 1, 0, 0, 0, 0, 0, 0, 128, 63, 0, 0, 0, 64, 0, 0, 0, 0, 0, 0,
        0, 0, 2, 0, 0, 0, 103, 95, 99, 111, 108, 111, 114, 0]).uniformNamesArray =
      [[103, 95, 99, 111, 108, 111, 114]] := by
  refine ⟨by decide, by decide, by decide⟩

end cMaterialBuilder
end eae6320

namespace eae6320

namespace cMaterialBuilder
open Graphics Examples

end cMaterialBuilder
end eae6320
